import Mathlib

/-!
VME module drivers (V210 relay, V230 analog input, V280 digital input).

A shallow embedding of the register-level driver functions of
`lib/v210/v210.c`, `lib/v230/v230.c` and `lib/v280/v280.c`.

* A register holds a 16-bit word (`U16`).
* A mapped register block is a `Bus`: the current register contents plus the
  list of volatile accesses (reads, writes) and blocking delays performed so
  far, in program order.
* A `VME_REGION*` argument is an `Option (Bus _)`; `none` is the NULL pointer.
* A value returned through a pointer is modelled by passing the caller's old
  value in and returning the new one.
-/

namespace VmeUser

/-! ## Machine words -/

/-- A 16-bit register word. -/
abbrev U16 := Fin 65536

/-- Conversion to `uint16_t` (truncation to the low 16 bits). -/
def u16 (n : Nat) : U16 := ⟨n % 65536, Nat.mod_lt n (by decide)⟩

/-- Conversion to `uint64_t` (truncation to the low 64 bits). -/
def u64 (n : Nat) : Nat := n % 2 ^ 64

/-- Reinterpretation of a 16-bit word as `int16_t` (two's complement). -/
def toInt16 (w : U16) : Int := if w.val < 32768 then (w.val : Int) else (w.val : Int) - 65536

/-! ## Register bus -/

/-- One observable step of a driver call on a register block of type `R`. -/
inductive Event (R : Type) where
  | read (r : R) (v : U16)
  | write (r : R) (v : U16)
  | sleep (sec nsec : Nat)
deriving DecidableEq

/-- A mapped register block: register contents and the events performed so far. -/
structure Bus (R : Type) where
  mem : R → U16
  trace : List (Event R)

namespace Bus

variable {R : Type}

/-- Volatile read of register `r`: yields the current content and records the read. -/
def read (b : Bus R) (r : R) : U16 × Bus R :=
  (b.mem r, { b with trace := b.trace ++ [Event.read r (b.mem r)] })

/-- Volatile write of `v` to register `r`. -/
def write [DecidableEq R] (b : Bus R) (r : R) (v : U16) : Bus R :=
  { mem := fun x => if x = r then v else b.mem x, trace := b.trace ++ [Event.write r v] }

/-- Volatile read of a register whose content the hardware has meanwhile changed to `v`. -/
def readHw [DecidableEq R] (b : Bus R) (r : R) (v : U16) : U16 × Bus R :=
  (v, { mem := fun x => if x = r then v else b.mem x, trace := b.trace ++ [Event.read r v] })

/-- A blocking delay (`sleep`, `nanosleep`). -/
def sleep (b : Bus R) (sec nsec : Nat) : Bus R :=
  { b with trace := b.trace ++ [Event.sleep sec nsec] }

end Bus

/-- The register writes among a list of events, in order. -/
def writesOf {R : Type} : List (Event R) → List (R × U16)
  | [] => []
  | Event.write r v :: es => (r, v) :: writesOf es
  | _ :: es => writesOf es

/-- The register reads among a list of events, in order. -/
def readsOf {R : Type} : List (Event R) → List (R × U16)
  | [] => []
  | Event.read r v :: es => (r, v) :: readsOf es
  | _ :: es => readsOf es

/-! ## V210 64-channel relay module -/

/-- Registers of `v210_registers` (v210_reg.h); array members are indexed. -/
inductive V210Reg where
  | bdid
  | csr
  | vxi_mfr
  | vxi_type
  | fpga_rev
  | dummy0A (i : Nat)
  | ctl (i : Nat)
  | rcon (i : Nat)
deriving DecidableEq

/-- Relay settling time `{0, 10 * 1000000L}` (seconds, nanoseconds). -/
def relay_settling_time : Nat × Nat := (0, 10 * 1000000)

/-- Loop body of `v210_set_relays`:
`regs->ctl[3 - i] = (uint16_t)(channel_mask & 0xFFFF); channel_mask >>= 16;` -/
def v210_set_relays_body (st : Bus V210Reg × Nat) (i : Nat) : Bus V210Reg × Nat :=
  (st.1.write (V210Reg.ctl (3 - i)) (u16 (st.2 &&& 0xFFFF)), st.2 >>> 16)

/-- `v210_set_relays`: store a 64-bit mask in `ctl[0..3]`. -/
def v210_set_relays (v210_region : Option (Bus V210Reg)) (channel_mask : Nat) :
    Int × Option (Bus V210Reg) :=
  match v210_region with
  | none => (-1, none)
  | some regs =>
    let st := (List.range 4).foldl v210_set_relays_body (regs, channel_mask)
    (0, some st.1)

/-- Loop body of `v210_get_relays`:
`channel_mask <<= 16; channel_mask |= (regs->ctl[i] & 0xFFFF);` -/
def v210_get_relays_body (st : Bus V210Reg × Nat) (i : Nat) : Bus V210Reg × Nat :=
  let shifted := u64 (st.2 <<< 16)
  let rd := st.1.read (V210Reg.ctl i)
  (rd.2, shifted ||| (rd.1.val &&& 0xFFFF))

/-- `v210_get_relays`: read the 64-bit mask back from `ctl[0..3]`.
Returns the return code, the value of `*mask` and the region. -/
def v210_get_relays (v210_region : Option (Bus V210Reg)) (let_relays_settle : Bool)
    (mask : Nat) : Int × Nat × Option (Bus V210Reg) :=
  match v210_region with
  | none => (-1, mask, none)
  | some regs =>
    let b0 := if let_relays_settle then
      regs.sleep relay_settling_time.1 relay_settling_time.2 else regs
    let st := (List.range 4).foldl v210_get_relays_body (b0, 0)
    (0, st.2, some st.1)

/-! ## V230 64-channel analog input module -/

/-- Registers of `v230_registers` (v230_reg.h); array members are indexed. -/
inductive V230Reg where
  | vxi_mfr | vxi_type | dummy004
  | serial | rom_id | rom_rev | mcount | dash | scan
  | dummy012 (i : Nat)
  | relays | uled | mode | calid | cher
  | macro_reg
  | mp (i : Nat)
  | ycal | dcal | bern | bmux
  | dummy030 (i : Nat)
  | ctl (i : Nat)
  | rdat (i : Nat)
  | bist (i : Nat)
  | dummy1C0 (i : Nat)
  | perr | ep1 | ep2 | ep2_5 | ep3 | ep5 | ep15 | em15
  | dummy1F0 (i : Nat)
  | utest | htest
deriving DecidableEq

def V230_NUM_CHANNELS : Nat := 64

def V230_BIT_MACRO_BUSY : Nat := 1 <<< 15

def V230_CHANNEL_RANGE_MASK : Nat := 0x3

def V230_BIT_CHANNEL_RANGE (code : Nat) : Nat := code &&& V230_CHANNEL_RANGE_MASK

def V230_CHANNEL_FILTER_MASK : Nat := 0x3 <<< 4

def V230_BIT_CHANNEL_FILTER (code : Nat) : Nat := (code <<< 4) &&& V230_CHANNEL_FILTER_MASK

def V230_BIT_CHANNEL_ENABLE : Nat := 1 <<< 8

/-! `v230_channel_range_t` -/

def V230_CHANNEL_RANGE_1 : Nat := V230_BIT_CHANNEL_RANGE 1
def V230_CHANNEL_RANGE_2 : Nat := V230_BIT_CHANNEL_RANGE 2
def V230_CHANNEL_RANGE_3 : Nat := V230_BIT_CHANNEL_RANGE 3

/-! `v230_channel_filter_t` -/

def V230_CHANNEL_FILTER_NONE : Nat := V230_BIT_CHANNEL_FILTER 0
def V230_CHANNEL_FILTER_200HZ : Nat := V230_BIT_CHANNEL_FILTER 1
def V230_CHANNEL_FILTER_17HZ : Nat := V230_BIT_CHANNEL_FILTER 2

/-! `v230_macro_code_t`; the last two exist only when `V230_2` or `V230_21` is defined. -/

def V230_MACRO_NO_OP : Nat := 0x8400
def V230_MACRO_REBOOT : Nat := 0x8407
def V230_MACRO_PS_TEST : Nat := 0x8409
def V230_MACRO_FULL_BIST : Nat := 0x8401
def V230_MACRO_CHANNEL_TEST : Nat := 0x8408

/-- The C struct `v230_channel_config_t`; the two enumerations are held as integers. -/
structure v230_channel_config_t where
  range : Nat
  filter : Nat
  enable : Bool
deriving DecidableEq

/-- `v230_set_channel_config`. -/
def v230_set_channel_config (v230_region : Option (Bus V230Reg)) (channel : Nat)
    (config : v230_channel_config_t) : Int × Option (Bus V230Reg) :=
  match v230_region with
  | none => (-1, none)
  | some regs =>
    if channel ≥ V230_NUM_CHANNELS then (-1, some regs)
    else
      let ctl_reg := u16 ((config.filter &&& V230_CHANNEL_FILTER_MASK) |||
                          (config.range &&& V230_CHANNEL_RANGE_MASK))
      let ctl_reg := if config.enable then u16 (ctl_reg.val ||| V230_BIT_CHANNEL_ENABLE)
                     else ctl_reg
      (0, some (regs.write (V230Reg.ctl channel) ctl_reg))

/-- `v230_get_channel_config`: returns the return code, the value of `*config`
and the region. The register is read once per field. -/
def v230_get_channel_config (v230_region : Option (Bus V230Reg)) (channel : Nat)
    (config : v230_channel_config_t) : Int × v230_channel_config_t × Option (Bus V230Reg) :=
  match v230_region with
  | none => (-1, config, none)
  | some regs =>
    if channel ≥ V230_NUM_CHANNELS then (-1, config, some regs)
    else
      let r1 := regs.read (V230Reg.ctl channel)
      let r2 := r1.2.read (V230Reg.ctl channel)
      let r3 := r2.2.read (V230Reg.ctl channel)
      (0, { range := r1.1.val &&& V230_CHANNEL_RANGE_MASK,
            filter := r2.1.val &&& V230_CHANNEL_FILTER_MASK,
            enable := decide ((r3.1.val &&& V230_BIT_CHANNEL_ENABLE) ≠ 0) }, some r3.2)

/-! ### Realtime channel data -/

/-- Arithmetic of the C types `double` (carrier `D`) and `float` (carrier `F`),
as far as the voltage scaling uses it. -/
structure CArith (D F : Type) where
  /-- a decimal floating constant -/
  lit : ℚ → D
  /-- conversion `int` to `double` -/
  ofInt : Int → D
  mul : D → D → D
  div : D → D → D
  /-- conversion `double` to `float` on assignment -/
  toFloat : D → F

/-- Exact rational arithmetic: no operation rounds. -/
def exactArith : CArith ℚ ℚ where
  lit := fun q => q
  ofInt := fun i => (i : ℚ)
  mul := fun a b => a * b
  div := fun a b => a / b
  toFloat := fun a => a

def V230_RNG1_SCALE_FACTOR {D F : Type} (A : CArith D F) : D :=
  A.div (A.lit 0.1024) (A.lit 32768.0)

def V230_RNG2_SCALE_FACTOR {D F : Type} (A : CArith D F) : D :=
  A.div (A.lit 1.024) (A.lit 32768.0)

def V230_RNG3_SCALE_FACTOR {D F : Type} (A : CArith D F) : D :=
  A.div (A.lit 10.24) (A.lit 32768.0)

/-- The host buffer `v230_channel_data_t`: 64 configuration words followed by
64 raw samples (`int16_t`, held as their 16-bit words). -/
structure v230_channel_data_t where
  config : Nat → U16
  rdata : Nat → U16

/-- Assignment `voltage[ch] = x`. -/
def setVoltage {F : Type} (voltage : Nat → F) (ch : Nat) (x : F) : Nat → F :=
  fun i => if i = ch then x else voltage i

/-- The conversion loop of `v230_get_all_channel_voltages`, from channel `ch`
with `n` iterations left: returns the return code and the `voltage` array. -/
def v230_voltage_loop {D F : Type} (A : CArith D F) (v230_udata : v230_channel_data_t) :
    Nat → Nat → (Nat → F) → Int × (Nat → F)
  | 0, _, voltage => (0, voltage)
  | n + 1, ch, voltage =>
    let raw := A.ofInt (toInt16 (v230_udata.rdata ch))
    let code := (v230_udata.config ch).val &&& V230_CHANNEL_RANGE_MASK
    if code = V230_CHANNEL_RANGE_1 then
      v230_voltage_loop A v230_udata n (ch + 1)
        (setVoltage voltage ch (A.toFloat (A.mul raw (V230_RNG1_SCALE_FACTOR A))))
    else if code = V230_CHANNEL_RANGE_2 then
      v230_voltage_loop A v230_udata n (ch + 1)
        (setVoltage voltage ch (A.toFloat (A.mul raw (V230_RNG2_SCALE_FACTOR A))))
    else if code = V230_CHANNEL_RANGE_3 then
      v230_voltage_loop A v230_udata n (ch + 1)
        (setVoltage voltage ch (A.toFloat (A.mul raw (V230_RNG3_SCALE_FACTOR A))))
    else (-1, voltage)

/-- `v230_get_all_channel_voltages`. `hV120` is the bus-controller handle
(`none` is NULL). `xfr` is the outcome of `v230_dma_xfr`, the block transfer by
the bus-controller library: `none` when it fails, otherwise the content of the
host buffer `v230_region->udata` after the transfer. Returns the return code
and the caller's `voltage` array. -/
def v230_get_all_channel_voltages {D F : Type} (A : CArith D F) (hV120 : Option Nat)
    (v230_region : Option (Bus V230Reg)) (xfr : Option v230_channel_data_t)
    (voltage : Nat → F) : Int × (Nat → F) :=
  match hV120, v230_region with
  | none, _ => (-1, voltage)
  | _, none => (-1, voltage)
  | some _, some _ =>
    match xfr with
    | none => (-1, voltage)
    | some v230_udata => v230_voltage_loop A v230_udata V230_NUM_CHANNELS 0 voltage

/-! ### Macro control -/

/-- `v230_execute_macro_channel_test` (present when `V230_2` or `V230_21` is defined). -/
def v230_execute_macro_channel_test (v230_region : Option (Bus V230Reg)) (channel : Nat) :
    Int × Option (Bus V230Reg) :=
  match v230_region with
  | none => (-1, none)
  | some regs =>
    if channel ≥ V230_NUM_CHANNELS then (-1, some regs)
    else
      let r := regs.read V230Reg.macro_reg
      if (r.1.val &&& V230_BIT_MACRO_BUSY) ≠ 0 then (-1, some r.2)
      else
        let b1 := r.2.write (V230Reg.mp 0) (u16 channel)
        let b2 := b1.write V230Reg.macro_reg (u16 V230_MACRO_CHANNEL_TEST)
        (0, some b2)

/-- `v230_run_full_bist` (present when `V230_2` or `V230_21` is defined). -/
def v230_run_full_bist (v230_region : Option (Bus V230Reg)) : Int × Option (Bus V230Reg) :=
  match v230_region with
  | none => (-1, none)
  | some regs =>
    let r := regs.read V230Reg.macro_reg
    if (r.1.val &&& V230_BIT_MACRO_BUSY) ≠ 0 then (-1, some r.2)
    else (0, some (r.2.write V230Reg.macro_reg (u16 V230_MACRO_FULL_BIST)))

/-- `v230_reboot`: issues the macro, then `sleep(6)`. -/
def v230_reboot (v230_region : Option (Bus V230Reg)) : Int × Option (Bus V230Reg) :=
  match v230_region with
  | none => (-1, none)
  | some regs =>
    let r := regs.read V230Reg.macro_reg
    if (r.1.val &&& V230_BIT_MACRO_BUSY) ≠ 0 then (-1, some r.2)
    else (0, some ((r.2.write V230Reg.macro_reg (u16 V230_MACRO_REBOOT)).sleep 6 0))

/-- `v230_run_ps_test`. -/
def v230_run_ps_test (v230_region : Option (Bus V230Reg)) : Int × Option (Bus V230Reg) :=
  match v230_region with
  | none => (-1, none)
  | some regs =>
    let r := regs.read V230Reg.macro_reg
    if (r.1.val &&& V230_BIT_MACRO_BUSY) ≠ 0 then (-1, some r.2)
    else (0, some (r.2.write V230Reg.macro_reg (u16 V230_MACRO_PS_TEST)))

/-- `v230_execute_macro`. `v230_2` tells whether the build defines `V230_2` or
`V230_21`: only then does the switch have the cases `V230_MACRO_FULL_BIST` and
`V230_MACRO_CHANNEL_TEST` (the latter falling through to `default`). -/
def v230_execute_macro (v230_2 : Bool) (v230_region : Option (Bus V230Reg))
    (macro_code : Nat) : Int × Option (Bus V230Reg) :=
  match v230_region with
  | none => (-1, none)
  | some regs =>
    if macro_code = V230_MACRO_NO_OP then (0, some regs)
    else if macro_code = V230_MACRO_REBOOT then v230_reboot (some regs)
    else if macro_code = V230_MACRO_PS_TEST then v230_run_ps_test (some regs)
    else if v230_2 = true ∧ macro_code = V230_MACRO_FULL_BIST then
      v230_run_full_bist (some regs)
    else (-1, some regs)

/-- `v230_is_macro_busy`: returns the return code, the value of `*is_busy` and the region. -/
def v230_is_macro_busy (v230_region : Option (Bus V230Reg)) (is_busy : Bool) :
    Int × Bool × Option (Bus V230Reg) :=
  match v230_region with
  | none => (-1, is_busy, none)
  | some regs =>
    let r := regs.read V230Reg.macro_reg
    (0, decide ((r.1.val &&& V230_BIT_MACRO_BUSY) ≠ 0), some r.2)

/-! ## V280 48-channel digital input module -/

/-- Registers of `v280_registers` (v280_reg.h); array members are indexed. -/
inductive V280Reg where
  | vxi_mfr | vxi_type | modrev | serial | rom_id | rom_rev | mcount | dash
  | calid | ycal | dcal | dummy016
  | uled
  | dummy01A (i : Nat)
  | macro_reg
  | mp (i : Nat)
  | dummy02A (i : Nat)
  | state (i : Nat)
  | dummy036
  | rise (i : Nat)
  | dummy03E
  | fall (i : Nat)
  | dummy046
  | err (i : Nat)
  | dummy04E (i : Nat)
  | buf (i : Nat)
deriving DecidableEq

def V280_BIST_MACRO_CODE : Nat := 0x8401

/-- The polling loop `while ((regs->macro >> 15) & 0x1);` of `v280_run_bist`.
The macro register is driven by the module's firmware: `hw k` is the value the
`k`-th read of it after the command write returns. `fuel` bounds the number of
loop tests; `none` means the loop has not ended within `fuel` tests. Returns
the bus and the number of reads done. -/
def v280_run_bist_poll (hw : Nat → U16) : Nat → Nat → Bus V280Reg → Option (Nat × Bus V280Reg)
  | 0, _, _ => none
  | fuel + 1, k, b =>
    let r := b.readHw V280Reg.macro_reg (hw k)
    if ((r.1.val >>> 15) &&& 0x1) ≠ 0 then v280_run_bist_poll hw fuel (k + 1) r.2
    else some (k + 1, r.2)

/-- `v280_run_bist`. The first read of the macro register sees the register
content at the time of the call; the reads after the command write see the
firmware's values `hw 0`, `hw 1`, ... -/
def v280_run_bist (hw : Nat → U16) (fuel : Nat) (v280_region : Option (Bus V280Reg)) :
    Option (Int × Option (Bus V280Reg)) :=
  match v280_region with
  | none => some (-1, none)
  | some regs =>
    let r := regs.read V280Reg.macro_reg
    if ((r.1.val >>> 15) &&& 0x01) ≠ 0 then some (-1, some r.2)
    else
      let b1 := r.2.write V280Reg.macro_reg (u16 V280_BIST_MACRO_CODE)
      match v280_run_bist_poll hw fuel 0 b1 with
      | none => none
      | some (k, b2) =>
        let r2 := b2.readHw V280Reg.macro_reg (hw k)
        if ((r2.1.val >>> 8) &&& 0xFF) ≠ 0 then some (-2, some r2.2)
        else some (0, some r2.2)

/-! ## Address validation -/

/-- The two addressing-mode enumerators of `V120_PD` that the drivers use.
They come from the bus-controller header `V120.h`, which is not part of this
repository, so their values are parameters. An addressing mode is held as its
integer value. -/
structure V120Modes where
  V120_A16 : Nat
  V120_A24 : Nat

/-- `v210_validate_address_and_mode`. -/
def v210_validate_address_and_mode (L : V120Modes) (addr_mode : Nat) (vme_addr : Nat) : Int :=
  if addr_mode ≠ L.V120_A16 ∧ addr_mode ≠ L.V120_A24 then -1
  else if addr_mode = L.V120_A16 ∧ vme_addr > 0xFFE0 then -1
  else if addr_mode = L.V120_A24 ∧ vme_addr > 0xFFFFE0 then -1
  else 0

/-- `v230_validate_address_and_mode`. -/
def v230_validate_address_and_mode (L : V120Modes) (vme_addr : Nat) (addr_mode : Nat) : Int :=
  if addr_mode ≠ L.V120_A16 ∧ addr_mode ≠ L.V120_A24 then -1
  else if addr_mode = L.V120_A16 ∧ vme_addr > 0xFE00 then -1
  else if addr_mode = L.V120_A24 ∧ vme_addr > 0xFFFE00 then -1
  else 0

/-- `v280_validate_address_and_mode`. -/
def v280_validate_address_and_mode (L : V120Modes) (vme_addr : Nat) (addr_mode : Nat) : Int :=
  if addr_mode ≠ L.V120_A16 ∧ addr_mode ≠ L.V120_A24 then -1
  else if addr_mode = L.V120_A16 ∧ vme_addr > 0xFE00 then -1
  else if addr_mode = L.V120_A24 ∧ vme_addr > 0xFFFE00 then -1
  else 0

/-! ## Register map layout -/

/-- A packed struct of `uint16_t` members: each member is given by its name and
its number of 16-bit elements (1 for a scalar), in declaration order. -/
abbrev Layout := List (String × Nat)

/-- `sizeof` of a packed struct of `uint16_t` members, in bytes. -/
def Layout.sizeof : Layout → Nat
  | [] => 0
  | (_, n) :: fs => 2 * n + Layout.sizeof fs

/-- `offsetof` of a member of a packed struct of `uint16_t` members, in bytes
(`none` when the struct has no such member). -/
def Layout.offsetof : Layout → String → Option Nat
  | [], _ => none
  | (name, n) :: fs, field =>
    if name = field then some 0
    else (Layout.offsetof fs field).map (fun o => 2 * n + o)

/-- The members of `v210_registers` (v210_reg.h). -/
def v210_registers : Layout :=
  [("bdid", 1), ("csr", 1), ("vxi_mfr", 1), ("vxi_type", 1), ("fpga_rev", 1),
   ("_dummy0A", 3), ("ctl", 4), ("rcon", 4)]

/-- The members of `v230_registers` (v230_reg.h). -/
def v230_registers : Layout :=
  [("vxi_mfr", 1), ("vxi_type", 1), ("dummy004", 1),
   ("serial", 1), ("rom_id", 1), ("rom_rev", 1), ("mcount", 1), ("dash", 1), ("scan", 1),
   ("dummy012", 2),
   ("relays", 1), ("uled", 1), ("mode", 1), ("calid", 1), ("cher", 1),
   ("macro", 1), ("mp", 3),
   ("ycal", 1), ("dcal", 1), ("bern", 1), ("bmux", 1), ("dummy030", 40),
   ("ctl", 64), ("rdat", 64), ("bist", 32), ("dummy1C0", 16),
   ("perr", 1), ("ep1", 1), ("ep2", 1), ("ep2_5", 1), ("ep3", 1), ("ep5", 1), ("ep15", 1),
   ("em15", 1), ("dummy1F0", 6),
   ("utest", 1), ("htest", 1)]

/-- The members of `v280_registers` (v280_reg.h). -/
def v280_registers : Layout :=
  [("vxi_mfr", 1), ("vxi_type", 1), ("modrev", 1), ("serial", 1), ("rom_id", 1),
   ("rom_rev", 1), ("mcount", 1), ("dash", 1), ("calid", 1), ("ycal", 1), ("dcal", 1),
   ("dummy016", 1),
   ("uled", 1), ("dummy01A", 3),
   ("macro", 1), ("mp", 4), ("dummy02A", 3),
   ("state", 3), ("dummy036", 1),
   ("rise", 3), ("dummy03E", 1),
   ("fall", 3), ("dummy046", 1),
   ("err", 3), ("dummy04E", 89),
   ("buf", 128)]

/-! ## Region release -/

/-- Outcome of a C function that may dereference a null pointer. -/
inductive Exec (α : Type) where
  | done (a : α)
  | null_deref
deriving DecidableEq

/-- Heap view of a `VME_REGION` object: the address of the object itself and
its `udata` pointer (`none` is NULL). -/
structure RegionBlock where
  addr : Nat
  udata : Option Nat
deriving DecidableEq

/-- `v210_delete_region`: returns the addresses passed to `free`, in order. -/
def v210_delete_region (v210_region : Option RegionBlock) : Exec (List Nat) :=
  match v210_region with
  | none => Exec.done []
  | some r => Exec.done [r.addr]

/-- `v280_delete_region`: returns the addresses passed to `free`, in order. -/
def v280_delete_region (v280_region : Option RegionBlock) : Exec (List Nat) :=
  match v280_region with
  | none => Exec.done []
  | some r => Exec.done [r.addr]

/-- `v230_delete_region`: returns the addresses passed to `free`, in order.
The first statement evaluates `v230_region->udata`, before the region pointer
is compared with NULL. -/
def v230_delete_region (v230_region : Option RegionBlock) : Exec (List Nat) :=
  match v230_region with
  | none => Exec.null_deref
  | some r =>
    let frees1 := match r.udata with
      | some p => [p]
      | none => []
    Exec.done (frees1 ++ [r.addr])

/-! ## V230 identity, calibration and relay registers -/

/-- `v230_get_channel_setup_error_id`: returns the return code, the value of
`*channel` and the region. -/
def v230_get_channel_setup_error_id (v230_region : Option (Bus V230Reg)) (channel : Nat) :
    Int × Nat × Option (Bus V230Reg) :=
  match v230_region with
  | none => (-1, channel, none)
  | some regs =>
    let r := regs.read V230Reg.cher
    (0, r.1.val, some r.2)

/-- `v230_get_ycal`. -/
def v230_get_ycal (v230_region : Option (Bus V230Reg)) (ycal : Nat) :
    Int × Nat × Option (Bus V230Reg) :=
  match v230_region with
  | none => (-1, ycal, none)
  | some regs =>
    let r := regs.read V230Reg.ycal
    (0, r.1.val, some r.2)

/-- `v230_get_dcal`. -/
def v230_get_dcal (v230_region : Option (Bus V230Reg)) (dcal : Nat) :
    Int × Nat × Option (Bus V230Reg) :=
  match v230_region with
  | none => (-1, dcal, none)
  | some regs =>
    let r := regs.read V230Reg.dcal
    (0, r.1.val, some r.2)

/-- Conversion `%d` of `printf` for a non-negative `int`. -/
def fmt_d (n : Nat) : List Char := Nat.toDigits 10 n

/-- `snprintf(date, length, "%d/%d/%d", month, day, year)`: the content of the
buffer `date` afterwards, as the characters before the terminating NUL. At most
`length - 1` characters are stored; nothing is stored when `length` is 0. -/
def snprintf_date (date : List Char) (length : Nat) (month day year : Nat) : List Char :=
  if length = 0 then date
  else (fmt_d month ++ ['/'] ++ fmt_d day ++ ['/'] ++ fmt_d year).take (length - 1)

/-- `v230_get_cal_date`. `date` is the caller's buffer (`none` is NULL), held as
the string it contains. Returns the return code, the buffer and the region. -/
def v230_get_cal_date (v230_region : Option (Bus V230Reg)) (date : Option (List Char))
    (length : Nat) : Int × Option (List Char) × Option (Bus V230Reg) :=
  match v230_region, date with
  | none, _ => (-1, date, none)
  | some regs, none => (-1, none, some regs)
  | some regs, some buf =>
    let y := v230_get_ycal (some regs) 0
    if y.1 ≠ 0 then (-1, some buf, y.2.2)
    else
      let d := v230_get_dcal y.2.2 0
      if d.1 ≠ 0 then (-1, some buf, d.2.2)
      else
        let year := y.2.1
        let month_day := d.2.1
        let month := (month_day >>> 8) &&& 0xFF
        let day := month_day &&& 0xFF
        (0, some (snprintf_date buf length month day year), d.2.2)

/-- Lines printed by `print_channel_config` (run_v230.c), each without its
newline character. -/
def print_channel_config (channel : Nat) (config : v230_channel_config_t) : List String :=
  ["Channel " ++ toString channel ++ " Configuration:",
   "  Range: " ++
     (if config.range = V230_CHANNEL_RANGE_1 then "± 102.4 mV"
      else if config.range = V230_CHANNEL_RANGE_2 then "± 1.024 V"
      else if config.range = V230_CHANNEL_RANGE_3 then "± 10.24 V"
      else "Unknown Range"),
   "  Filter: " ++
     (if config.filter = V230_CHANNEL_FILTER_NONE then "No Filter"
      else if config.filter = V230_CHANNEL_FILTER_200HZ then "200 Hz Filter"
      else if config.filter = V230_CHANNEL_FILTER_17HZ then "17 Hz Filter"
      else "Unknown Filter"),
   "  Enabled: " ++ (if config.enable then "YES" else "NO")]

def V230_B_RELAY_NUM : Nat := 8

def V230_RELAY_K_MASK : Nat := 0x3F

def V230_BIT_RELAY_C : Nat := 1 <<< 7

def V230_BIT_RELAY_B (n : Nat) : Nat := 1 <<< (8 + n)

/-- The C struct `v230_relay_config_t`; `b_relays` has `V230_B_RELAY_NUM` entries. -/
structure v230_relay_config_t where
  channel : Nat
  c_relay : Bool
  b_relays : Nat → Bool

/-- Loop body of `v230_set_relay_config`:
`if (config.b_relays[relay]) relay_reg |= V230_BIT_RELAY_B(relay);` -/
def v230_set_relay_config_body (config : v230_relay_config_t) (relay_reg : U16)
    (relay : Nat) : U16 :=
  if config.b_relays relay then u16 (relay_reg.val ||| V230_BIT_RELAY_B relay) else relay_reg

/-- `v230_set_relay_config` (present when `V230_2` or `V230_21` is defined). -/
def v230_set_relay_config (v230_region : Option (Bus V230Reg))
    (config : v230_relay_config_t) : Int × Option (Bus V230Reg) :=
  match v230_region with
  | none => (-1, none)
  | some regs =>
    if config.channel ≥ V230_NUM_CHANNELS then (-1, some regs)
    else
      let relay_reg := u16 config.channel
      let relay_reg := if config.c_relay then u16 (relay_reg.val ||| V230_BIT_RELAY_C)
                       else relay_reg
      let relay_reg := (List.range V230_B_RELAY_NUM).foldl
        (v230_set_relay_config_body config) relay_reg
      (0, some (regs.write V230Reg.relays relay_reg))

/-! ## V280 input states, debounce times and buffer -/

def V280_CHANNEL_COUNT : Nat := 48

def V280_CHANNELS_PER_REGISTER : Nat := 16

/-- Loop body of `v280_get_input_states`:
`*states <<= V280_CHANNELS_PER_REGISTER; *states |= regs->state[i];` -/
def v280_get_input_states_body (st : Bus V280Reg × Nat) (i : Nat) : Bus V280Reg × Nat :=
  let shifted := u64 (st.2 <<< V280_CHANNELS_PER_REGISTER)
  let rd := st.1.read (V280Reg.state i)
  (rd.2, shifted ||| rd.1.val)

/-- `v280_get_input_states`: returns the return code, the value of `*states`
and the region. -/
def v280_get_input_states (v280_region : Option (Bus V280Reg)) (states : Nat) :
    Int × Nat × Option (Bus V280Reg) :=
  match v280_region with
  | none => (-1, states, none)
  | some regs =>
    let st := (List.range 3).foldl v280_get_input_states_body (regs, 0)
    (0, st.2, some st.1)

/-- Loop body of `v280_get_bist_error_flags`:
`*error_flags <<= V280_CHANNELS_PER_REGISTER; *error_flags |= regs->err[i];` -/
def v280_get_bist_error_flags_body (st : Bus V280Reg × Nat) (i : Nat) : Bus V280Reg × Nat :=
  let shifted := u64 (st.2 <<< V280_CHANNELS_PER_REGISTER)
  let rd := st.1.read (V280Reg.err i)
  (rd.2, shifted ||| rd.1.val)

/-- `v280_get_bist_error_flags`: returns the return code, the value of
`*error_flags` and the region. -/
def v280_get_bist_error_flags (v280_region : Option (Bus V280Reg)) (error_flags : Nat) :
    Int × Nat × Option (Bus V280Reg) :=
  match v280_region with
  | none => (-1, error_flags, none)
  | some regs =>
    let st := (List.range 3).foldl v280_get_bist_error_flags_body (regs, 0)
    (0, st.2, some st.1)

/-- `v280_set_rise_time_delay`; `channel` is a `uint8_t`. -/
def v280_set_rise_time_delay (v280_region : Option (Bus V280Reg)) (channel : Nat)
    (delay : Nat) : Int × Option (Bus V280Reg) :=
  match v280_region with
  | none => (-1, none)
  | some regs =>
    if channel ≥ V280_CHANNEL_COUNT then (-1, some regs)
    else
      let reg := channel / V280_CHANNELS_PER_REGISTER
      (0, some (regs.write (V280Reg.rise reg) (u16 delay)))

/-- `v280_get_rise_time_delay`: returns the return code, the value of `*delay`
and the region. -/
def v280_get_rise_time_delay (v280_region : Option (Bus V280Reg)) (channel : Nat)
    (delay : Nat) : Int × Nat × Option (Bus V280Reg) :=
  match v280_region with
  | none => (-1, delay, none)
  | some regs =>
    if channel ≥ V280_CHANNEL_COUNT then (-1, delay, some regs)
    else
      let reg := channel / V280_CHANNELS_PER_REGISTER
      let r := regs.read (V280Reg.rise reg)
      (0, r.1.val, some r.2)

/-- `v280_set_fall_time_delay`; `channel` is a `uint8_t`. -/
def v280_set_fall_time_delay (v280_region : Option (Bus V280Reg)) (channel : Nat)
    (delay : Nat) : Int × Option (Bus V280Reg) :=
  match v280_region with
  | none => (-1, none)
  | some regs =>
    if channel ≥ V280_CHANNEL_COUNT then (-1, some regs)
    else
      let reg := channel / V280_CHANNELS_PER_REGISTER
      (0, some (regs.write (V280Reg.fall reg) (u16 delay)))

/-- `v280_get_fall_time_delay`: returns the return code, the value of `*delay`
and the region. -/
def v280_get_fall_time_delay (v280_region : Option (Bus V280Reg)) (channel : Nat)
    (delay : Nat) : Int × Nat × Option (Bus V280Reg) :=
  match v280_region with
  | none => (-1, delay, none)
  | some regs =>
    if channel ≥ V280_CHANNEL_COUNT then (-1, delay, some regs)
    else
      let reg := channel / V280_CHANNELS_PER_REGISTER
      let r := regs.read (V280Reg.fall reg)
      (0, r.1.val, some r.2)

/-- `v280_write_buffer`; `index` is a `uint8_t` (0..255). `V280Reg.buf i` is the
16-bit word at byte offset `0x100 + 2 * i` of the register block, which lies
inside the 0x200-byte block only for `i < 128`. -/
def v280_write_buffer (v280_region : Option (Bus V280Reg)) (index : Nat) (value : Nat) :
    Int × Option (Bus V280Reg) :=
  match v280_region with
  | none => (-1, none)
  | some regs => (0, some (regs.write (V280Reg.buf index) (u16 value)))

/-- `v280_read_buffer`: returns the return code, the value of `*value` and the region. -/
def v280_read_buffer (v280_region : Option (Bus V280Reg)) (index : Nat) (value : Nat) :
    Int × Nat × Option (Bus V280Reg) :=
  match v280_region with
  | none => (-1, value, none)
  | some regs =>
    let r := regs.read (V280Reg.buf index)
    (0, r.1.val, some r.2)

/-- `v280_get_ycal`. -/
def v280_get_ycal (v280_region : Option (Bus V280Reg)) (ycal : Nat) :
    Int × Nat × Option (Bus V280Reg) :=
  match v280_region with
  | none => (-1, ycal, none)
  | some regs =>
    let r := regs.read V280Reg.ycal
    (0, r.1.val, some r.2)

/-- `v280_get_dcal`. -/
def v280_get_dcal (v280_region : Option (Bus V280Reg)) (dcal : Nat) :
    Int × Nat × Option (Bus V280Reg) :=
  match v280_region with
  | none => (-1, dcal, none)
  | some regs =>
    let r := regs.read V280Reg.dcal
    (0, r.1.val, some r.2)

/-- `v280_get_cal_date`. `date` is the caller's buffer (`none` is NULL), held as
the string it contains. Returns the return code, the buffer and the region. -/
def v280_get_cal_date (v280_region : Option (Bus V280Reg)) (date : Option (List Char))
    (len : Nat) : Int × Option (List Char) × Option (Bus V280Reg) :=
  match v280_region, date with
  | none, _ => (-1, date, none)
  | some regs, none => (-1, none, some regs)
  | some regs, some buf =>
    let y := v280_get_ycal (some regs) 0
    if y.1 ≠ 0 then (-1, some buf, y.2.2)
    else
      let d := v280_get_dcal y.2.2 0
      if d.1 ≠ 0 then (-1, some buf, d.2.2)
      else
        let year := y.2.1
        let month_day := d.2.1
        let month := (month_day >>> 8) &&& 0xFF
        let day := month_day &&& 0xFF
        (0, some (snprintf_date buf len month day year), d.2.2)

/-! ## Bit complement -/

/-- The operator `~` on an `int` operand with a non-negative value `x`, as the
32-bit two's complement pattern of the result. -/
def c_not (x : Nat) : Nat := 2 ^ 32 - (x + 1)

/-! ## V210 control and status register -/

def V210_CSR_ERR_LED : Nat := 1 <<< 15
def V210_CSR_P4TM : Nat := 1 <<< 14
def V210_CSR_P3TM : Nat := 1 <<< 13

/-- `v210_turn_off_error_led`: `csr |= V210_CSR_ERR_LED`. -/
def v210_turn_off_error_led (v210_region : Option (Bus V210Reg)) : Int × Option (Bus V210Reg) :=
  match v210_region with
  | none => (-1, none)
  | some regs =>
    let r := regs.read V210Reg.csr
    (0, some (r.2.write V210Reg.csr (u16 (r.1.val ||| V210_CSR_ERR_LED))))

/-- `v210_turn_on_error_led`: `csr &= ~V210_CSR_ERR_LED`. -/
def v210_turn_on_error_led (v210_region : Option (Bus V210Reg)) : Int × Option (Bus V210Reg) :=
  match v210_region with
  | none => (-1, none)
  | some regs =>
    let r := regs.read V210Reg.csr
    (0, some (r.2.write V210Reg.csr (u16 (r.1.val &&& c_not V210_CSR_ERR_LED))))

/-- `v210_is_error_led_on`: returns the return code, the value of `*is_on` and the region. -/
def v210_is_error_led_on (v210_region : Option (Bus V210Reg)) (is_on : Bool) :
    Int × Bool × Option (Bus V210Reg) :=
  match v210_region with
  | none => (-1, is_on, none)
  | some regs =>
    let r := regs.read V210Reg.csr
    (0, decide ((r.1.val &&& V210_CSR_ERR_LED) = 0), some r.2)

/-- `v210_enable_relay_drivers`: `csr |= (V210_CSR_P4TM | V210_CSR_P3TM)`. -/
def v210_enable_relay_drivers (v210_region : Option (Bus V210Reg)) :
    Int × Option (Bus V210Reg) :=
  match v210_region with
  | none => (-1, none)
  | some regs =>
    let r := regs.read V210Reg.csr
    (0, some (r.2.write V210Reg.csr (u16 (r.1.val ||| (V210_CSR_P4TM ||| V210_CSR_P3TM)))))

/-- `v210_disable_relay_drivers`: `csr &= ~(V210_CSR_P4TM | V210_CSR_P3TM)`. -/
def v210_disable_relay_drivers (v210_region : Option (Bus V210Reg)) :
    Int × Option (Bus V210Reg) :=
  match v210_region with
  | none => (-1, none)
  | some regs =>
    let r := regs.read V210Reg.csr
    (0, some (r.2.write V210Reg.csr
      (u16 (r.1.val &&& c_not (V210_CSR_P4TM ||| V210_CSR_P3TM)))))

/-- `v210_is_p4tm_driver_enabled`. -/
def v210_is_p4tm_driver_enabled (v210_region : Option (Bus V210Reg)) (is_enabled : Bool) :
    Int × Bool × Option (Bus V210Reg) :=
  match v210_region with
  | none => (-1, is_enabled, none)
  | some regs =>
    let r := regs.read V210Reg.csr
    (0, decide ((r.1.val &&& V210_CSR_P4TM) ≠ 0), some r.2)

/-- `v210_is_p3tm_driver_enabled`. -/
def v210_is_p3tm_driver_enabled (v210_region : Option (Bus V210Reg)) (is_enabled : Bool) :
    Int × Bool × Option (Bus V210Reg) :=
  match v210_region with
  | none => (-1, is_enabled, none)
  | some regs =>
    let r := regs.read V210Reg.csr
    (0, decide ((r.1.val &&& V210_CSR_P3TM) ≠ 0), some r.2)

/-! ## V230 module control -/

def V230_MODE_MASK : Nat := 0x3

def V230_BIT_MODE (code : Nat) : Nat := code &&& V230_MODE_MASK

def V230_BIT_MODE_SLOW : Nat := 1 <<< 8

/-! `v230_mode_t` -/

def V230_MODE_OFF : Nat := V230_BIT_MODE 0
def V230_MODE_CHAN_TEST : Nat := V230_BIT_MODE 1
def V230_MODE_BIST : Nat := V230_BIT_MODE 2
def V230_MODE_BOTH : Nat := V230_BIT_MODE 3

/-- `v230_set_scan_speed_slow`: `mode |= V230_BIT_MODE_SLOW`. -/
def v230_set_scan_speed_slow (v230_region : Option (Bus V230Reg)) :
    Int × Option (Bus V230Reg) :=
  match v230_region with
  | none => (-1, none)
  | some regs =>
    let r := regs.read V230Reg.mode
    (0, some (r.2.write V230Reg.mode (u16 (r.1.val ||| V230_BIT_MODE_SLOW))))

/-- `v230_set_scan_speed_fast`: `mode &= ~V230_BIT_MODE_SLOW`. -/
def v230_set_scan_speed_fast (v230_region : Option (Bus V230Reg)) :
    Int × Option (Bus V230Reg) :=
  match v230_region with
  | none => (-1, none)
  | some regs =>
    let r := regs.read V230Reg.mode
    (0, some (r.2.write V230Reg.mode (u16 (r.1.val &&& c_not V230_BIT_MODE_SLOW))))

/-- `v230_is_scan_speed_fast`. -/
def v230_is_scan_speed_fast (v230_region : Option (Bus V230Reg)) (is_fast : Bool) :
    Int × Bool × Option (Bus V230Reg) :=
  match v230_region with
  | none => (-1, is_fast, none)
  | some regs =>
    let r := regs.read V230Reg.mode
    (0, decide ((r.1.val &&& V230_BIT_MODE_SLOW) = 0), some r.2)

/-- `v230_set_mode` (present when `V230_2` or `V230_21` is defined):
`regs->mode &= ~(V230_MODE_MASK); regs->mode |= (uint16_t)mode & V230_MODE_MASK;` -/
def v230_set_mode (v230_region : Option (Bus V230Reg)) (mode : Nat) :
    Int × Option (Bus V230Reg) :=
  match v230_region with
  | none => (-1, none)
  | some regs =>
    let r1 := regs.read V230Reg.mode
    let b1 := r1.2.write V230Reg.mode (u16 (r1.1.val &&& c_not V230_MODE_MASK))
    let r2 := b1.read V230Reg.mode
    let b2 := r2.2.write V230Reg.mode (u16 (r2.1.val ||| ((u16 mode).val &&& V230_MODE_MASK)))
    (0, some b2)

/-- `v230_get_mode` (present when `V230_2` or `V230_21` is defined). -/
def v230_get_mode (v230_region : Option (Bus V230Reg)) (mode : Nat) :
    Int × Nat × Option (Bus V230Reg) :=
  match v230_region with
  | none => (-1, mode, none)
  | some regs =>
    let r := regs.read V230Reg.mode
    (0, r.1.val &&& V230_MODE_MASK, some r.2)

/-! ## V230 relay and BIST mux control -/

/-- Assignment `config->b_relays[relay] = x`. -/
def setRelay (b_relays : Nat → Bool) (relay : Nat) (x : Bool) : Nat → Bool :=
  fun i => if i = relay then x else b_relays i

/-- `v230_get_relay_config` (present when `V230_2` or `V230_21` is defined):
returns the return code, the value of `*config` and the region. -/
def v230_get_relay_config (v230_region : Option (Bus V230Reg))
    (config : v230_relay_config_t) : Int × v230_relay_config_t × Option (Bus V230Reg) :=
  match v230_region with
  | none => (-1, config, none)
  | some regs =>
    let r := regs.read V230Reg.relays
    let relay_reg := r.1
    let b := (List.range V230_B_RELAY_NUM).foldl
      (fun b relay => setRelay b relay
        (decide ((relay_reg.val &&& V230_BIT_RELAY_B relay) ≠ 0))) config.b_relays
    (0, { channel := relay_reg.val &&& V230_RELAY_K_MASK,
          c_relay := decide ((relay_reg.val &&& V230_BIT_RELAY_C) ≠ 0),
          b_relays := b }, some r.2)

def V230_BMUX_MASK_LOW : Nat := 0x7

def V230_BIT_BMUX_LOW (code : Nat) : Nat := code &&& V230_BMUX_MASK_LOW

def V230_BMUX_SHIFT_HIGH : Nat := 4

def V230_BMUX_MASK_HIGH : Nat := 0x7 <<< V230_BMUX_SHIFT_HIGH

def V230_BIT_BMUX_HIGH (code : Nat) : Nat :=
  (code <<< V230_BMUX_SHIFT_HIGH) &&& V230_BMUX_MASK_HIGH

/-- The C struct `v230_bmux_t`; the sources `V230_BMUX_SRC_0 .. V230_BMUX_SRC_7`
have the values 0..7. -/
structure v230_bmux_t where
  cal_pos : Nat
  cal_neg : Nat
deriving DecidableEq

/-- `v230_set_bmux_config` (present when `V230_2` or `V230_21` is defined). -/
def v230_set_bmux_config (v230_region : Option (Bus V230Reg)) (config : v230_bmux_t) :
    Int × Option (Bus V230Reg) :=
  match v230_region with
  | none => (-1, none)
  | some regs =>
    (0, some (regs.write V230Reg.bmux
      (u16 (V230_BIT_BMUX_HIGH (u16 config.cal_pos).val |||
            V230_BIT_BMUX_LOW (u16 config.cal_neg).val))))

/-- `v230_get_bmux_config` (present when `V230_2` or `V230_21` is defined). -/
def v230_get_bmux_config (v230_region : Option (Bus V230Reg)) (config : v230_bmux_t) :
    Int × v230_bmux_t × Option (Bus V230Reg) :=
  match v230_region with
  | none => (-1, config, none)
  | some regs =>
    let r := regs.read V230Reg.bmux
    let bmux_reg := r.1
    (0, { cal_pos := (bmux_reg.val &&& V230_BMUX_MASK_HIGH) >>> V230_BMUX_SHIFT_HIGH,
          cal_neg := bmux_reg.val &&& V230_BMUX_MASK_LOW }, some r.2)

/-! ## V230 power supply status -/

/-- `V230_VOLTAGE_SCALE`: millivolts to volts. -/
def V230_VOLTAGE_SCALE {D F : Type} (A : CArith D F) : D := A.lit 0.001

def V230_BIT_PERR_P1 : Nat := 1 <<< 0
def V230_BIT_PERR_P2 : Nat := 1 <<< 1
def V230_BIT_PERR_P2_5 : Nat := 1 <<< 2
def V230_BIT_PERR_P3 : Nat := 1 <<< 3
def V230_BIT_PERR_P5 : Nat := 1 <<< 4
def V230_BIT_PERR_P15 : Nat := 1 <<< 5
def V230_BIT_PERR_M15 : Nat := 1 <<< 6

/-- The C struct `v230_ps_status_t`. -/
structure v230_ps_status_t (F : Type) where
  error : Bool
  voltage : F

/-- The C struct `v230_ps_all_status_t`. -/
structure v230_ps_all_status_t (F : Type) where
  ep1 : v230_ps_status_t F
  ep2 : v230_ps_status_t F
  ep2_5 : v230_ps_status_t F
  ep3 : v230_ps_status_t F
  ep5 : v230_ps_status_t F
  ep15 : v230_ps_status_t F
  em15 : v230_ps_status_t F

/-- One pair of statements of `v230_get_all_power_supply_status`:
`status->X.error = (regs->perr & BIT) != 0;`
`status->X.voltage = (int16_t)regs->X * V230_VOLTAGE_SCALE;` -/
def v230_ps_entry {D F : Type} (A : CArith D F) (b : Bus V230Reg) (bit : Nat)
    (supply : V230Reg) : v230_ps_status_t F × Bus V230Reg :=
  let p := b.read V230Reg.perr
  let e := p.2.read supply
  ({ error := decide ((p.1.val &&& bit) ≠ 0),
     voltage := A.toFloat (A.mul (A.ofInt (toInt16 e.1)) (V230_VOLTAGE_SCALE A)) }, e.2)

/-- `v230_get_all_power_supply_status` (present when the build defines `V230_2`
or `V230_21`): returns the return code, the value of `*status` and the region. -/
def v230_get_all_power_supply_status {D F : Type} (A : CArith D F)
    (v230_region : Option (Bus V230Reg)) (status : v230_ps_all_status_t F) :
    Int × v230_ps_all_status_t F × Option (Bus V230Reg) :=
  match v230_region with
  | none => (-1, status, none)
  | some regs =>
    let s1 := v230_ps_entry A regs V230_BIT_PERR_P1 V230Reg.ep1
    let s2 := v230_ps_entry A s1.2 V230_BIT_PERR_P2 V230Reg.ep2
    let s3 := v230_ps_entry A s2.2 V230_BIT_PERR_P2_5 V230Reg.ep2_5
    let s4 := v230_ps_entry A s3.2 V230_BIT_PERR_P3 V230Reg.ep3
    let s5 := v230_ps_entry A s4.2 V230_BIT_PERR_P5 V230Reg.ep5
    let s6 := v230_ps_entry A s5.2 V230_BIT_PERR_P15 V230Reg.ep15
    let s7 := v230_ps_entry A s6.2 V230_BIT_PERR_M15 V230Reg.em15
    (0, { ep1 := s1.1, ep2 := s2.1, ep2_5 := s3.1, ep3 := s4.1, ep5 := s5.1,
          ep15 := s6.1, em15 := s7.1 }, some s7.2)

/-! ## Region creation and block transfer -/

/-- The flag constants of `V120.h` used for `VME_REGION.config`; the header
is not part of this repository, so their values are parameters. -/
structure V120RegionFlags where
  V120_SMAX : Nat
  V120_EAUTO : Nat
  V120_RW : Nat
  V120_D16 : Nat

/-- The flag constants of `V120.h` used in a DMA descriptor; their values are
parameters. -/
structure V120DmaFlags where
  V120_PD_A16 : Nat
  V120_PD_D16 : Nat
  V120_PD_ESHORT : Nat

/-- The members of `VME_REGION` (declared in `V120.h`) that the drivers set;
pointers are addresses, `none` is NULL. -/
structure VME_REGION where
  base : Option Nat
  start_page : Nat
  end_page : Nat
  vme_addr : Nat
  len : Nat
  config : Nat
  tag : String
  udata : Option Nat
deriving DecidableEq

/-- A call into the C library or the bus-controller library made while a
region is created. -/
inductive LibCall where
  | malloc (result : Option Nat)
  | free (p : Nat)
  | v120_add_vme_region (hV120 : Option Nat) (region : Nat) (result : Option Nat)
deriving DecidableEq

/-- What the collaborators answer during one `add_region` call: the pointer
returned by the first `malloc`, the pointer returned by the second `malloc`
(V230 only) and whether `v120_add_vme_region` accepts the region. -/
structure AddRegionEnv where
  malloc_region : Option Nat
  malloc_channel_data : Option Nat
  add_accepts : Bool

/-- `v210_add_region`: returns the pointer returned (with the region object it
points to) and the library calls made, in order. -/
def v210_add_region (L : V120Modes) (G : V120RegionFlags) (env : AddRegionEnv)
    (hV120 : Option Nat) (vme_addr addr_mode : Nat) (name : String) :
    Option (Nat × VME_REGION) × List LibCall :=
  if v210_validate_address_and_mode L addr_mode vme_addr < 0 then (none, [])
  else
    match env.malloc_region with
    | none => (none, [LibCall.malloc none])
    | some p =>
      let v210_region : VME_REGION :=
        { base := none, start_page := 0, end_page := 0, vme_addr := vme_addr,
          len := Layout.sizeof v210_registers,
          config := addr_mode ||| G.V120_SMAX ||| G.V120_EAUTO ||| G.V120_RW ||| G.V120_D16,
          tag := name, udata := none }
      if env.add_accepts then
        (some (p, v210_region),
          [LibCall.malloc (some p), LibCall.v120_add_vme_region hV120 p (some p)])
      else
        (none, [LibCall.malloc (some p), LibCall.v120_add_vme_region hV120 p none,
          LibCall.free p])

/-- `v280_add_region`. -/
def v280_add_region (L : V120Modes) (G : V120RegionFlags) (env : AddRegionEnv)
    (hV120 : Option Nat) (vme_addr addr_mode : Nat) (name : String) :
    Option (Nat × VME_REGION) × List LibCall :=
  if v280_validate_address_and_mode L vme_addr addr_mode < 0 then (none, [])
  else
    match env.malloc_region with
    | none => (none, [LibCall.malloc none])
    | some p =>
      let v280_region : VME_REGION :=
        { base := none, start_page := 0, end_page := 0, vme_addr := vme_addr,
          len := Layout.sizeof v280_registers,
          config := addr_mode ||| G.V120_SMAX ||| G.V120_EAUTO ||| G.V120_RW ||| G.V120_D16,
          tag := name, udata := none }
      if env.add_accepts then
        (some (p, v280_region),
          [LibCall.malloc (some p), LibCall.v120_add_vme_region hV120 p (some p)])
      else
        (none, [LibCall.malloc (some p), LibCall.v120_add_vme_region hV120 p none,
          LibCall.free p])

/-- The `free` calls of `v230_delete_region`, as library calls. -/
def deleteCalls : Exec (List Nat) → List LibCall
  | Exec.done ps => ps.map LibCall.free
  | Exec.null_deref => []

/-- `v230_add_region`. -/
def v230_add_region (L : V120Modes) (G : V120RegionFlags) (env : AddRegionEnv)
    (hV120 : Option Nat) (vme_addr addr_mode : Nat) (name : String) :
    Option (Nat × VME_REGION) × List LibCall :=
  if v230_validate_address_and_mode L vme_addr addr_mode < 0 then (none, [])
  else
    match env.malloc_region with
    | none => (none, [LibCall.malloc none])
    | some p =>
      match env.malloc_channel_data with
      | none => (none, [LibCall.malloc (some p), LibCall.malloc none, LibCall.free p])
      | some q =>
        let v230_region : VME_REGION :=
          { base := none, start_page := 0, end_page := 0, vme_addr := vme_addr,
            len := Layout.sizeof v230_registers,
            config := addr_mode ||| G.V120_SMAX ||| G.V120_EAUTO ||| G.V120_RW ||| G.V120_D16,
            tag := name, udata := some q }
        if env.add_accepts then
          (some (p, v230_region),
            [LibCall.malloc (some p), LibCall.malloc (some q),
              LibCall.v120_add_vme_region hV120 p (some p)])
        else
          (none, [LibCall.malloc (some p), LibCall.malloc (some q),
              LibCall.v120_add_vme_region hV120 p none] ++
            deleteCalls (v230_delete_region (some ⟨p, some q⟩)))

/-- The members of `v230_channel_data_t` (v230.c). -/
def v230_channel_data_layout : Layout := [("config", 64), ("rdata", 64)]

/-- The C struct `v120_dma_desc_t` as `v230_dma_xfr` initialises it. -/
structure v120_dma_desc_t where
  flags : Nat
  ptr : Nat
  size : Nat
  next : Nat
  vme_address : Nat
deriving DecidableEq

/-- The descriptor built by `v230_dma_xfr`; a NULL `udata` pointer is address 0. -/
def v230_dma_desc (P : V120DmaFlags) (v230_region : VME_REGION) : v120_dma_desc_t :=
  { flags := P.V120_PD_A16 ||| P.V120_PD_D16 ||| P.V120_PD_ESHORT,
    ptr := v230_region.udata.getD 0,
    size := Layout.sizeof v230_channel_data_layout,
    next := 0,
    vme_address := v230_region.vme_addr + (Layout.offsetof v230_registers "ctl").getD 0 }

/-- `v230_dma_xfr`: `v120_dma_xfr` is the block transfer of the bus-controller
library, given by its return value for a handle and a descriptor. Returns the
return code and the calls of `v120_dma_xfr` made, in order, each with the
handle and the descriptor passed. -/
def v230_dma_xfr (P : V120DmaFlags) (v120_dma_xfr : Option Nat → v120_dma_desc_t → Int)
    (hV120 : Option Nat) (v230_region : VME_REGION) :
    Int × List (Option Nat × v120_dma_desc_t) :=
  let desc := v230_dma_desc P v230_region
  if v120_dma_xfr hV120 desc < 0 then (-1, [(hV120, desc)]) else (0, [(hV120, desc)])

/-! ## V230 full BIST results -/

def V230_BIST_RNG_NUM : Nat := 3

def V230_BIT_BIST_RNG (range : Nat) : Nat := 1 <<< range

def V230_BIT_BIST_ZER : Nat := 1 <<< 4
def V230_BIT_BIST_PER : Nat := 1 <<< 5
def V230_BIT_BIST_NER : Nat := 1 <<< 6
def V230_BIT_BIST_CER : Nat := 1 <<< 7

/-- The C struct `v230_bist_flags_t`; `rng` has `V230_BIST_RNG_NUM` entries. -/
structure v230_bist_flags_t where
  cer : Bool
  ner : Bool
  per : Bool
  zer : Bool
  rng : Nat → Bool

/-- Assignment `rng[range] = x`. -/
def setRng (rng : Nat → Bool) (range : Nat) (x : Bool) : Nat → Bool :=
  fun i => if i = range then x else rng i

/-- The statements of `v230_get_full_bist_channel_results` that fill
`results->channel_flags[ch]` from the local `bist_reg`. -/
def v230_bist_flags_of (bist_reg : Nat) (flags : v230_bist_flags_t) : v230_bist_flags_t :=
  { cer := decide ((bist_reg &&& V230_BIT_BIST_CER) ≠ 0),
    ner := decide ((bist_reg &&& V230_BIT_BIST_NER) ≠ 0),
    per := decide ((bist_reg &&& V230_BIT_BIST_PER) ≠ 0),
    zer := decide ((bist_reg &&& V230_BIT_BIST_ZER) ≠ 0),
    rng := (List.range V230_BIST_RNG_NUM).foldl
      (fun rng range => setRng rng range
        (decide ((bist_reg &&& V230_BIT_BIST_RNG range) ≠ 0))) flags.rng }

/-- Assignment to `results->channel_flags[ch]`. -/
def setChannelFlags (results : Nat → v230_bist_flags_t) (ch : Nat)
    (x : v230_bist_flags_t) : Nat → v230_bist_flags_t :=
  fun i => if i = ch then x else results i

/-- The loop of `v230_get_full_bist_channel_results`, from channel `ch` with `n`
iterations left:
`uint16_t bist_reg = regs->bist[ch / 2];`
`if ((ch % 2) == 0) bist_reg = (bist_reg >> 8) & 0xFF;` and the flag assignments. -/
def v230_full_bist_loop : Nat → Nat → Bus V230Reg → (Nat → v230_bist_flags_t) →
    Bus V230Reg × (Nat → v230_bist_flags_t)
  | 0, _, b, results => (b, results)
  | n + 1, ch, b, results =>
    let r := b.read (V230Reg.bist (ch / 2))
    let bist_reg := if ch % 2 = 0 then (r.1.val >>> 8) &&& 0xFF else r.1.val
    v230_full_bist_loop n (ch + 1) r.2
      (setChannelFlags results ch (v230_bist_flags_of bist_reg (results ch)))

/-- `v230_get_full_bist_channel_results` (present when `V230_2` or `V230_21` is
set in the build): returns the return code, `results->channel_flags` and the
region. -/
def v230_get_full_bist_channel_results (v230_region : Option (Bus V230Reg))
    (results : Nat → v230_bist_flags_t) :
    Int × (Nat → v230_bist_flags_t) × Option (Bus V230Reg) :=
  match v230_region with
  | none => (-1, results, none)
  | some regs =>
    let st := v230_full_bist_loop V230_NUM_CHANNELS 0 regs results
    (0, st.2, some st.1)

/-! # Theorems -/

/-! ## Arithmetic helpers -/

theorem and_ffff (x : Nat) : x &&& 0xFFFF = x % 65536 :=
  Nat.and_pow_two_sub_one_eq_mod x 16

theorem shr16 (x : Nat) : x >>> 16 = x / 65536 :=
  Nat.shiftRight_eq_div_pow x 16

theorem shl16_or (a b : Nat) (h : b < 65536) :
    u64 (a <<< 16) ||| b = (a % 2 ^ 48) * 65536 + b := by
  have h1 : u64 (a <<< 16) = 2 ^ 16 * (a % 2 ^ 48) := by
    simp only [u64, Nat.shiftLeft_eq]; omega
  rw [h1, ← Nat.mul_add_lt_is_or (by simpa using h)]
  omega

@[simp] theorem u16_val (n : Nat) : (u16 n).val = n % 65536 := rfl

theorem range4 : List.range 4 = [0, 1, 2, 3] := by decide

/-! ## V210 relay mask -/

/-- C1: for every 64-bit mask `m` and every register state, `v210_set_relays`
with `m` followed by `v210_get_relays` returns exactly `m` (both calls
succeed), whatever the settle flag and the caller's previous `*mask` are. -/
theorem v210_relays_roundtrip (regs : Bus V210Reg) (m : Nat) (settle : Bool) (old : Nat)
    (hm : m < 2 ^ 64) :
    (v210_set_relays (some regs) m).1 = 0 ∧
    (v210_get_relays (v210_set_relays (some regs) m).2 settle old).1 = 0 ∧
    (v210_get_relays (v210_set_relays (some regs) m).2 settle old).2.1 = m := by
  refine ⟨rfl, rfl, ?_⟩
  have key : ∀ t : List (Event V210Reg),
      ((List.range 4).foldl v210_get_relays_body
        (⟨((List.range 4).foldl v210_set_relays_body (regs, m)).1.mem, t⟩, 0)).2 = m := by
    intro t
    simp only [range4, List.foldl, v210_set_relays_body, v210_get_relays_body, Bus.write,
      Bus.read, and_ffff, shr16, u16_val, V210Reg.ctl.injEq, Nat.reduceSub, Nat.reduceEqDiff,
      if_true, if_false, OfNat.ofNat_ne_zero, OfNat.zero_ne_ofNat, OfNat.ofNat_ne_one,
      OfNat.one_ne_ofNat, one_ne_zero, zero_ne_one, Nat.mod_mod]
    rw [shl16_or _ _ (Nat.mod_lt _ (by decide)), shl16_or _ _ (Nat.mod_lt _ (by decide)),
      shl16_or _ _ (Nat.mod_lt _ (by decide)), shl16_or _ _ (Nat.mod_lt _ (by decide))]
    omega
  cases settle
  · exact key _
  · exact key (_ ++ [Event.sleep relay_settling_time.1 relay_settling_time.2])

/-- C1 witness: the three masks of the specification. -/
theorem v210_relays_roundtrip_witness :
    (0x0000000100000000 < 2 ^ 64 ∧
      (v210_get_relays (v210_set_relays (some ⟨fun _ => 0, []⟩) 0x0000000100000000).2
        true 0).2.1 = 0x0000000100000000) ∧
    (v210_get_relays (v210_set_relays (some ⟨fun _ => 7, []⟩) 0xFFFFFFFFFFFFFFFF).2
        true 0).2.1 = 0xFFFFFFFFFFFFFFFF ∧
    (v210_get_relays (v210_set_relays (some ⟨fun _ => 7, []⟩) 0).2 false 5).2.1 = 0 :=
  ⟨⟨by decide, (v210_relays_roundtrip ⟨fun _ => 0, []⟩ 0x0000000100000000 true 0
      (by decide)).2.2⟩,
    (v210_relays_roundtrip ⟨fun _ => 7, []⟩ 0xFFFFFFFFFFFFFFFF true 0 (by decide)).2.2,
    (v210_relays_roundtrip ⟨fun _ => 7, []⟩ 0 false 5 (by decide)).2.2⟩

/-- C2: `v210_set_relays` stores bits 63..48 of the mask in `ctl[0]`, bits 47..32
in `ctl[1]`, bits 31..16 in `ctl[2]` and bits 15..0 in `ctl[3]`, so that bit `n`
of the mask is bit `n mod 16` of `ctl[3 - n/16]` for every `n < 64`; it performs
exactly four writes, to `ctl[3]`, `ctl[2]`, `ctl[1]`, `ctl[0]`, no read, and
every register other than `ctl[0..3]` keeps its content. -/
theorem v210_set_relays_layout (regs : Bus V210Reg) (m : Nat) :
    ∃ b : Bus V210Reg, v210_set_relays (some regs) m = (0, some b) ∧
      (b.mem (V210Reg.ctl 0)).val = m / 2 ^ 48 % 2 ^ 16 ∧
      (b.mem (V210Reg.ctl 1)).val = m / 2 ^ 32 % 2 ^ 16 ∧
      (b.mem (V210Reg.ctl 2)).val = m / 2 ^ 16 % 2 ^ 16 ∧
      (b.mem (V210Reg.ctl 3)).val = m % 2 ^ 16 ∧
      (∀ n : Fin 64, (b.mem (V210Reg.ctl (3 - n.val / 16))).val.testBit (n.val % 16)
        = m.testBit n.val) ∧
      (∀ r : V210Reg, r ∉ [V210Reg.ctl 0, V210Reg.ctl 1, V210Reg.ctl 2, V210Reg.ctl 3] →
        b.mem r = regs.mem r) ∧
      b.trace = regs.trace ++
        [Event.write (V210Reg.ctl 3) (u16 (m % 2 ^ 16)),
         Event.write (V210Reg.ctl 2) (u16 (m / 2 ^ 16)),
         Event.write (V210Reg.ctl 1) (u16 (m / 2 ^ 32)),
         Event.write (V210Reg.ctl 0) (u16 (m / 2 ^ 48))] := by
  refine ⟨_, rfl, ?_, ?_, ?_, ?_, ?_, ?_, ?_⟩
  · simp [range4, v210_set_relays_body, Bus.write, and_ffff, shr16]
    omega
  · simp [range4, v210_set_relays_body, Bus.write, and_ffff, shr16]
    omega
  · simp [range4, v210_set_relays_body, Bus.write, and_ffff, shr16]
  · simp [range4, v210_set_relays_body, Bus.write, and_ffff, shr16]
  · intro n
    have hq : n.val / 16 = 0 ∨ n.val / 16 = 1 ∨ n.val / 16 = 2 ∨ n.val / 16 = 3 := by omega
    have hn : m.testBit n.val = m.testBit (16 * (n.val / 16) + n.val % 16) := by
      congr 1; omega
    have hlt : n.val % 16 < 16 := Nat.mod_lt _ (by decide)
    rw [hn]
    rcases hq with h | h | h | h <;> rw [h] <;>
      simp [range4, v210_set_relays_body, Bus.write, and_ffff, hlt,
        ← Nat.testBit_shiftRight, Nat.shiftRight_eq_div_pow,
        Nat.testBit_mod_two_pow m (n.val % 16) 16,
        Nat.testBit_mod_two_pow _ 16 (n.val % 16), Nat.div_div_eq_div_mul]
  · intro r hr
    simp only [List.mem_cons, List.mem_singleton, not_or, List.mem_nil_iff, or_false] at hr
    simp [range4, v210_set_relays_body, Bus.write, hr.1, hr.2.1, hr.2.2.1, hr.2.2.2]
  · simp [range4, v210_set_relays_body, Bus.write, and_ffff, shr16, u16, Nat.div_div_eq_div_mul]

/-- C2 witness: the mask with only bit 32 set puts 1 in `ctl[1]`, and a register
outside `ctl[0..3]` keeps its content. -/
theorem v210_set_relays_layout_witness :
    ∃ b : Bus V210Reg, v210_set_relays (some ⟨fun _ => 7, []⟩) 0x0000000100000000 = (0, some b) ∧
      (b.mem (V210Reg.ctl 1)).val = 1 ∧ b.mem V210Reg.csr = 7 := by
  obtain ⟨b, hb, _, h1, _, _, _, hfr, _⟩ :=
    v210_set_relays_layout ⟨fun _ => 7, []⟩ 0x0000000100000000
  exact ⟨b, hb, h1, hfr V210Reg.csr (by decide)⟩

/-! ## V230 channel configuration -/

/-- C3: for every channel below 64, every range among RANGE_1, RANGE_2, RANGE_3,
every filter among FILTER_NONE, FILTER_200HZ, FILTER_17HZ and every enable flag,
`v230_set_channel_config` followed by `v230_get_channel_config` on the same
channel succeeds and returns the identical (range, filter, enable) tuple,
whatever the register state and the caller's previous `*config` are. -/
theorem v230_channel_config_roundtrip (regs : Bus V230Reg) (channel : Nat)
    (cfg old : v230_channel_config_t)
    (hch : channel < 64)
    (hr : cfg.range ∈ [V230_CHANNEL_RANGE_1, V230_CHANNEL_RANGE_2, V230_CHANNEL_RANGE_3])
    (hf : cfg.filter ∈
      [V230_CHANNEL_FILTER_NONE, V230_CHANNEL_FILTER_200HZ, V230_CHANNEL_FILTER_17HZ]) :
    (v230_set_channel_config (some regs) channel cfg).1 = 0 ∧
    (v230_get_channel_config (v230_set_channel_config (some regs) channel cfg).2
      channel old).1 = 0 ∧
    (v230_get_channel_config (v230_set_channel_config (some regs) channel cfg).2
      channel old).2.1 = cfg := by
  obtain ⟨range, filter, enable⟩ := cfg
  have hch' : ¬ channel ≥ V230_NUM_CHANNELS := by simp [V230_NUM_CHANNELS]; omega
  simp only [List.mem_cons, List.mem_singleton, List.mem_nil_iff, or_false] at hr hf
  simp only [v230_set_channel_config, v230_get_channel_config, hch', if_false, Bus.read,
    Bus.write, if_true, true_and]
  rcases hr with h | h | h <;> rcases hf with h' | h' | h' <;> subst h <;> subst h' <;>
    cases enable <;> decide

/-- C3 witness: RANGE_3 (±10.24 V), FILTER_NONE, enabled, on channel 12. -/
theorem v230_channel_config_roundtrip_witness :
    (v230_get_channel_config (v230_set_channel_config (some ⟨fun _ => 0, []⟩) 12
      ⟨V230_CHANNEL_RANGE_3, V230_CHANNEL_FILTER_NONE, true⟩).2 12
      ⟨V230_CHANNEL_RANGE_1, V230_CHANNEL_FILTER_17HZ, false⟩).2.1
      = ⟨V230_CHANNEL_RANGE_3, V230_CHANNEL_FILTER_NONE, true⟩ :=
  (v230_channel_config_roundtrip ⟨fun _ => 0, []⟩ 12
    ⟨V230_CHANNEL_RANGE_3, V230_CHANNEL_FILTER_NONE, true⟩
    ⟨V230_CHANNEL_RANGE_1, V230_CHANNEL_FILTER_17HZ, false⟩
    (by decide) (by decide) (by decide)).2.2

/-! ## V230 bulk voltage conversion -/

theorem range_consts : V230_CHANNEL_RANGE_1 = 1 ∧ V230_CHANNEL_RANGE_2 = 2 ∧
    V230_CHANNEL_RANGE_3 = 3 ∧ V230_CHANNEL_RANGE_MASK = 3 := by decide

theorem and_three (x : Nat) : x &&& 3 = x % 4 := Nat.and_pow_two_sub_one_eq_mod x 2

/-- Entries below the current channel are not touched by the rest of the loop. -/
theorem v230_voltage_loop_below {D F : Type} (A : CArith D F) (d : v230_channel_data_t)
    (n : Nat) : ∀ (ch : Nat) (v : Nat → F) (j : Nat), j < ch →
      (v230_voltage_loop A d n ch v).2 j = v j := by
  induction n with
  | zero => intro ch v j _; rfl
  | succ n ih =>
    intro ch v j hj
    have hne : j ≠ ch := by omega
    simp only [v230_voltage_loop]
    split_ifs <;> first
      | rfl
      | (rw [ih (ch + 1) _ j (by omega)]; simp [setVoltage, hne])

/-- Return code of the loop: 0 when all remaining range codes are 1, 2 or 3, else -1. -/
theorem v230_voltage_loop_ret {D F : Type} (A : CArith D F) (d : v230_channel_data_t)
    (n : Nat) : ∀ (ch : Nat) (v : Nat → F),
      ((v230_voltage_loop A d n ch v).1 = 0 ↔
        ∀ i, i < n → (d.config (ch + i)).val % 4 ≠ 0) ∧
      ((v230_voltage_loop A d n ch v).1 = 0 ∨ (v230_voltage_loop A d n ch v).1 = -1) := by
  induction n with
  | zero => intro ch v; simp [v230_voltage_loop]
  | succ n ih =>
    intro ch v
    have hstep : (∀ i, i < n + 1 → (d.config (ch + i)).val % 4 ≠ 0) ↔
        ((d.config ch).val % 4 ≠ 0 ∧ ∀ i, i < n → (d.config (ch + 1 + i)).val % 4 ≠ 0) := by
      constructor
      · intro h
        refine ⟨by simpa using h 0 (by omega), fun i hi => ?_⟩
        have := h (i + 1) (by omega)
        rwa [show ch + (i + 1) = ch + 1 + i by omega] at this
      · rintro ⟨h0, h⟩ i hi
        cases i with
        | zero => simpa using h0
        | succ i =>
          have := h i (by omega)
          rwa [show ch + 1 + i = ch + (i + 1) by omega] at this
    rw [hstep]
    simp only [v230_voltage_loop, range_consts.1, range_consts.2.1, range_consts.2.2.1,
      range_consts.2.2.2, and_three]
    have hlt : (d.config ch).val % 4 < 4 := Nat.mod_lt _ (by decide)
    split_ifs with h1 h2 h3
    · have := ih (ch + 1) (setVoltage v ch (A.toFloat (A.mul (A.ofInt (toInt16 (d.rdata ch)))
        (V230_RNG1_SCALE_FACTOR A))))
      refine ⟨?_, this.2⟩
      rw [this.1]; simp [h1]
    · have := ih (ch + 1) (setVoltage v ch (A.toFloat (A.mul (A.ofInt (toInt16 (d.rdata ch)))
        (V230_RNG2_SCALE_FACTOR A))))
      refine ⟨?_, this.2⟩
      rw [this.1]; simp [h2]
    · have := ih (ch + 1) (setVoltage v ch (A.toFloat (A.mul (A.ofInt (toInt16 (d.rdata ch)))
        (V230_RNG3_SCALE_FACTOR A))))
      refine ⟨?_, this.2⟩
      rw [this.1]; simp [h3]
    · have h0 : (d.config ch).val % 4 = 0 := by omega
      simp [h0]

/-- Value stored for channel `j` when the channels from `ch` up to `j` all have
a recognised range code. -/
theorem v230_voltage_loop_val {D F : Type} (A : CArith D F) (d : v230_channel_data_t)
    (n : Nat) : ∀ (ch : Nat) (v : Nat → F) (j : Nat), ch ≤ j → j < ch + n →
      (∀ i, ch ≤ i → i ≤ j → (d.config i).val % 4 ≠ 0) →
      (v230_voltage_loop A d n ch v).2 j =
        A.toFloat (A.mul (A.ofInt (toInt16 (d.rdata j)))
          (if (d.config j).val % 4 = 1 then V230_RNG1_SCALE_FACTOR A
           else if (d.config j).val % 4 = 2 then V230_RNG2_SCALE_FACTOR A
           else V230_RNG3_SCALE_FACTOR A)) := by
  induction n with
  | zero => intro ch v j h1 h2; omega
  | succ n ih =>
    intro ch v j h1 h2 hv
    have hlt : (d.config ch).val % 4 < 4 := Nat.mod_lt _ (by decide)
    have hc := hv ch (le_refl _) h1
    have hstep : v230_voltage_loop A d (n + 1) ch v =
        v230_voltage_loop A d n (ch + 1) (setVoltage v ch
          (A.toFloat (A.mul (A.ofInt (toInt16 (d.rdata ch)))
            (if (d.config ch).val % 4 = 1 then V230_RNG1_SCALE_FACTOR A
             else if (d.config ch).val % 4 = 2 then V230_RNG2_SCALE_FACTOR A
             else V230_RNG3_SCALE_FACTOR A)))) := by
      have h123 : (d.config ch).val % 4 = 1 ∨ (d.config ch).val % 4 = 2 ∨
          (d.config ch).val % 4 = 3 := by omega
      simp only [v230_voltage_loop, range_consts.1, range_consts.2.1, range_consts.2.2.1,
        range_consts.2.2.2, and_three]
      rcases h123 with c | c | c <;> simp [c]
    rw [hstep]
    rcases Nat.eq_or_lt_of_le h1 with hj | hj
    · subst hj
      rw [v230_voltage_loop_below A d n (ch + 1) _ ch (by omega)]
      simp [setVoltage]
    · exact ih (ch + 1) _ j (by omega) (by omega) (fun i hi hij => hv i (by omega) hij)

theorem toInt16_16384 : toInt16 16384 = 16384 := by decide

theorem range_code_valid_iff (w : U16) :
    (w.val &&& V230_CHANNEL_RANGE_MASK ∈
      [V230_CHANNEL_RANGE_1, V230_CHANNEL_RANGE_2, V230_CHANNEL_RANGE_3]) ↔ w.val % 4 ≠ 0 := by
  have hlt : w.val % 4 < 4 := Nat.mod_lt _ (by decide)
  simp only [range_consts.1, range_consts.2.1, range_consts.2.2.1, range_consts.2.2.2,
    and_three, List.mem_cons, List.mem_singleton, List.mem_nil_iff, or_false]
  omega

/-- C4 (amended): for every channel `ch < 64` such that the transferred
configuration words of the channels `0..ch` all have a range code 1, 2 or 3,
`v230_get_all_channel_voltages` sets `voltage[ch]` to the signed 16-bit sample
`rdata[ch]` times the scale factor selected by the range code of `config[ch]`
(in any arithmetic; in exact rationals 0.1024/32768, 1.024/32768, 10.24/32768).
The value depends on no other bit of `config[ch]`, on no other channel's sample
and on no later channel. Raw 16384 gives 5.12 on range 3 and 0.512 on range 2. -/
theorem v230_channel_voltage_scaling {D F : Type} (A : CArith D F) (h : Nat)
    (regs : Bus V230Reg) (d : v230_channel_data_t) (v0 : Nat → F) (w0 : Nat → ℚ) (ch : Nat)
    (hch : ch < 64)
    (hpre : ∀ i, i ≤ ch → (d.config i).val &&& V230_CHANNEL_RANGE_MASK ∈
      [V230_CHANNEL_RANGE_1, V230_CHANNEL_RANGE_2, V230_CHANNEL_RANGE_3]) :
    (v230_get_all_channel_voltages A (some h) (some regs) (some d) v0).2 ch =
      A.toFloat (A.mul (A.ofInt (toInt16 (d.rdata ch)))
        (if (d.config ch).val &&& V230_CHANNEL_RANGE_MASK = V230_CHANNEL_RANGE_1 then
           V230_RNG1_SCALE_FACTOR A
         else if (d.config ch).val &&& V230_CHANNEL_RANGE_MASK = V230_CHANNEL_RANGE_2 then
           V230_RNG2_SCALE_FACTOR A
         else V230_RNG3_SCALE_FACTOR A)) ∧
    (v230_get_all_channel_voltages exactArith (some h) (some regs) (some d) w0).2 ch =
      (toInt16 (d.rdata ch) : ℚ) *
        (if (d.config ch).val &&& V230_CHANNEL_RANGE_MASK = V230_CHANNEL_RANGE_1 then
           0.1024 / 32768
         else if (d.config ch).val &&& V230_CHANNEL_RANGE_MASK = V230_CHANNEL_RANGE_2 then
           1.024 / 32768
         else 10.24 / 32768) ∧
    (toInt16 16384 : ℚ) * (10.24 / 32768) = 5.12 ∧
    (toInt16 16384 : ℚ) * (1.024 / 32768) = 0.512 := by
  have hv : ∀ i, 0 ≤ i → i ≤ ch → (d.config i).val % 4 ≠ 0 :=
    fun i _ hi => (range_code_valid_iff _).1 (hpre i hi)
  refine ⟨?_, ?_, ?_, ?_⟩
  · simp only [v230_get_all_channel_voltages, V230_NUM_CHANNELS]
    rw [v230_voltage_loop_val A d 64 0 v0 ch (Nat.zero_le _) (by omega) hv]
    simp only [range_consts.1, range_consts.2.1, range_consts.2.2.1, range_consts.2.2.2,
      and_three]
  · simp only [v230_get_all_channel_voltages, V230_NUM_CHANNELS]
    rw [v230_voltage_loop_val exactArith d 64 0 w0 ch (Nat.zero_le _) (by omega) hv]
    simp only [range_consts.1, range_consts.2.1, range_consts.2.2.1, range_consts.2.2.2,
      and_three, exactArith, V230_RNG1_SCALE_FACTOR, V230_RNG2_SCALE_FACTOR,
      V230_RNG3_SCALE_FACTOR]
    split_ifs <;> norm_num
  · rw [toInt16_16384]; norm_num
  · rw [toInt16_16384]; norm_num

/-- C4 witness: all channels on range 3 with sample 16384 give 5.12 on channel 12;
all channels on range 2 give 0.512. -/
theorem v230_channel_voltage_scaling_witness :
    (v230_get_all_channel_voltages exactArith (some 0) (some ⟨fun _ => 0, []⟩)
      (some ⟨fun _ => 0x103, fun _ => 16384⟩) (fun _ => 0)).2 12 = 5.12 ∧
    (v230_get_all_channel_voltages exactArith (some 0) (some ⟨fun _ => 0, []⟩)
      (some ⟨fun _ => 0x122, fun _ => 16384⟩) (fun _ => 0)).2 12 = 0.512 := by
  have a1 : ¬ ((0x103 : U16).val &&& V230_CHANNEL_RANGE_MASK = V230_CHANNEL_RANGE_1) := by
    decide
  have a2 : ¬ ((0x103 : U16).val &&& V230_CHANNEL_RANGE_MASK = V230_CHANNEL_RANGE_2) := by
    decide
  have b1 : ¬ ((0x122 : U16).val &&& V230_CHANNEL_RANGE_MASK = V230_CHANNEL_RANGE_1) := by
    decide
  have b2 : (0x122 : U16).val &&& V230_CHANNEL_RANGE_MASK = V230_CHANNEL_RANGE_2 := by
    decide
  constructor
  · rw [(v230_channel_voltage_scaling exactArith 0 ⟨fun _ => 0, []⟩
      ⟨fun _ => 0x103, fun _ => 16384⟩ (fun _ => 0) (fun _ => 0) 12 (by decide)
      (fun _ _ => (by decide : (0x103 : U16).val &&& V230_CHANNEL_RANGE_MASK ∈
        [V230_CHANNEL_RANGE_1, V230_CHANNEL_RANGE_2, V230_CHANNEL_RANGE_3]))).2.1]
    rw [if_neg a1, if_neg a2, toInt16_16384]
    norm_num
  · rw [(v230_channel_voltage_scaling exactArith 0 ⟨fun _ => 0, []⟩
      ⟨fun _ => 0x122, fun _ => 16384⟩ (fun _ => 0) (fun _ => 0) 12 (by decide)
      (fun _ _ => (by decide : (0x122 : U16).val &&& V230_CHANNEL_RANGE_MASK ∈
        [V230_CHANNEL_RANGE_1, V230_CHANNEL_RANGE_2, V230_CHANNEL_RANGE_3]))).2.1]
    rw [if_neg b1, if_pos b2, toInt16_16384]
    norm_num

/-- C4 as stated fails: channel 1 has range code 3 and sample 16384, but channel 0
has range code 0, so the call returns -1 at channel 0 and `voltage[1]` keeps the
caller's old value 0 instead of 16384 * 10.24/32768 = 5.12. -/
theorem v230_channel_voltage_counterexample :
    ((fun i : Nat => if i = 0 then (0 : U16) else 3) 1).val &&& V230_CHANNEL_RANGE_MASK
      = V230_CHANNEL_RANGE_3 ∧
    (v230_get_all_channel_voltages exactArith (some 0) (some ⟨fun _ => 0, []⟩)
      (some ⟨fun i => if i = 0 then 0 else 3, fun _ => 16384⟩) (fun _ => 0)).1 = -1 ∧
    (v230_get_all_channel_voltages exactArith (some 0) (some ⟨fun _ => 0, []⟩)
      (some ⟨fun i => if i = 0 then 0 else 3, fun _ => 16384⟩) (fun _ => 0)).2 1 = 0 ∧
    (v230_get_all_channel_voltages exactArith (some 0) (some ⟨fun _ => 0, []⟩)
      (some ⟨fun i => if i = 0 then 0 else 3, fun _ => 16384⟩) (fun _ => 0)).2 1 ≠
      (toInt16 16384 : ℚ) * (10.24 / 32768) := by
  refine ⟨by decide, rfl, rfl, ?_⟩
  have h0 : (v230_get_all_channel_voltages exactArith (some 0) (some ⟨fun _ => 0, []⟩)
      (some ⟨fun i => if i = 0 then 0 else 3, fun _ => 16384⟩) (fun _ => 0)).2 1 = 0 := rfl
  rw [h0, toInt16_16384]
  norm_num

/-- C5: with non-null handles and a successful block transfer,
`v230_get_all_channel_voltages` returns 0 exactly when every one of the 64
transferred configuration words has a range code 1, 2 or 3; it returns -1 as
soon as any channel of the block has range code 0, and it returns nothing else. -/
theorem v230_get_all_channel_voltages_ret {D F : Type} (A : CArith D F) (h : Nat)
    (regs : Bus V230Reg) (d : v230_channel_data_t) (v0 : Nat → F) :
    ((v230_get_all_channel_voltages A (some h) (some regs) (some d) v0).1 = 0 ↔
      ∀ ch, ch < 64 → (d.config ch).val &&& V230_CHANNEL_RANGE_MASK ∈
        [V230_CHANNEL_RANGE_1, V230_CHANNEL_RANGE_2, V230_CHANNEL_RANGE_3]) ∧
    ((∃ ch, ch < 64 ∧ (d.config ch).val &&& V230_CHANNEL_RANGE_MASK = 0) →
      (v230_get_all_channel_voltages A (some h) (some regs) (some d) v0).1 = -1) ∧
    ((v230_get_all_channel_voltages A (some h) (some regs) (some d) v0).1 = 0 ∨
      (v230_get_all_channel_voltages A (some h) (some regs) (some d) v0).1 = -1) := by
  have hl := v230_voltage_loop_ret A d 64 0 v0
  simp only [Nat.zero_add] at hl
  have hiff : (v230_get_all_channel_voltages A (some h) (some regs) (some d) v0).1 = 0 ↔
      ∀ ch, ch < 64 → (d.config ch).val &&& V230_CHANNEL_RANGE_MASK ∈
        [V230_CHANNEL_RANGE_1, V230_CHANNEL_RANGE_2, V230_CHANNEL_RANGE_3] := by
    simp only [v230_get_all_channel_voltages, V230_NUM_CHANNELS, hl.1, range_code_valid_iff]
  refine ⟨hiff, ?_, hl.2⟩
  rintro ⟨ch, hch, h0⟩
  rcases hl.2 with h1 | h1
  · have := (range_code_valid_iff _).1 (hiff.1 h1 ch hch)
    rw [range_consts.2.2.2, and_three] at h0
    exact absurd h0 this
  · exact h1

/-- C5 witness: range code 0 on channel 63 alone makes the call return -1. -/
theorem v230_get_all_channel_voltages_ret_witness :
    (v230_get_all_channel_voltages exactArith (some 0) (some ⟨fun _ => 0, []⟩)
      (some ⟨fun i => if i = 63 then 0x100 else 3, fun _ => 16384⟩) (fun _ => 0)).1 = -1 :=
  (v230_get_all_channel_voltages_ret exactArith 0 ⟨fun _ => 0, []⟩
    ⟨fun i => if i = 63 then 0x100 else 3, fun _ => 16384⟩ (fun _ => 0)).2.1
    ⟨63, by decide, by decide⟩

/-! ## Macro control -/

theorem writesOf_append {R : Type} (a b : List (Event R)) :
    writesOf (a ++ b) = writesOf a ++ writesOf b := by
  induction a with
  | nil => rfl
  | cons e es ih => cases e <;> simp [writesOf, ih]

theorem and_bit15 (x : Nat) : x &&& (1 <<< 15) = 0 ↔ x.testBit 15 = false := by
  have h : x &&& (1 <<< 15) = if x.testBit 15 = true then 2 ^ 15 else 0 := by
    apply Nat.eq_of_testBit_eq
    intro j
    rw [Nat.testBit_and, show (1 <<< 15 : Nat) = 2 ^ 15 by decide, Nat.testBit_two_pow]
    by_cases hx : x.testBit 15 = true
    · rw [if_pos hx, Nat.testBit_two_pow]
      by_cases hj : 15 = j
      · subst hj; simp [hx]
      · simp [hj]
    · rw [if_neg hx]
      by_cases hj : 15 = j
      · subst hj; simp [hx]
      · simp [hj]
  rw [h]
  cases x.testBit 15 <;> simp

theorem shr15_and1 (x : Nat) : (x >>> 15) &&& 1 = 0 ↔ x.testBit 15 = false := by
  simp [Nat.testBit, Nat.and_comm]

theorem shr8_and_ff (x : Nat) : (x >>> 8) &&& 0xFF = x / 256 % 256 := by
  rw [Nat.shiftRight_eq_div_pow]
  exact Nat.and_pow_two_sub_one_eq_mod _ 8

theorem v230_busy_iff (x : Nat) : x &&& V230_BIT_MACRO_BUSY = 0 ↔ x.testBit 15 = false :=
  and_bit15 x

theorem v230_reboot_busy (regs : Bus V230Reg)
    (hb : (regs.mem V230Reg.macro_reg).val.testBit 15 = true) :
    v230_reboot (some regs) = (-1, some (regs.read V230Reg.macro_reg).2) := by
  simp [v230_reboot, Bus.read, v230_busy_iff, hb]

theorem v230_reboot_idle (regs : Bus V230Reg)
    (hi : (regs.mem V230Reg.macro_reg).val.testBit 15 = false) :
    v230_reboot (some regs) = (0, some (((regs.read V230Reg.macro_reg).2.write V230Reg.macro_reg
      (u16 V230_MACRO_REBOOT)).sleep 6 0)) := by
  simp [v230_reboot, Bus.read, v230_busy_iff, hi]

theorem v230_run_ps_test_busy (regs : Bus V230Reg)
    (hb : (regs.mem V230Reg.macro_reg).val.testBit 15 = true) :
    v230_run_ps_test (some regs) = (-1, some (regs.read V230Reg.macro_reg).2) := by
  simp [v230_run_ps_test, Bus.read, v230_busy_iff, hb]

theorem v230_run_ps_test_idle (regs : Bus V230Reg)
    (hi : (regs.mem V230Reg.macro_reg).val.testBit 15 = false) :
    v230_run_ps_test (some regs) = (0, some ((regs.read V230Reg.macro_reg).2.write V230Reg.macro_reg
      (u16 V230_MACRO_PS_TEST))) := by
  simp [v230_run_ps_test, Bus.read, v230_busy_iff, hi]

theorem v230_run_full_bist_busy (regs : Bus V230Reg)
    (hb : (regs.mem V230Reg.macro_reg).val.testBit 15 = true) :
    v230_run_full_bist (some regs) = (-1, some (regs.read V230Reg.macro_reg).2) := by
  simp [v230_run_full_bist, Bus.read, v230_busy_iff, hb]

theorem v230_run_full_bist_idle (regs : Bus V230Reg)
    (hi : (regs.mem V230Reg.macro_reg).val.testBit 15 = false) :
    v230_run_full_bist (some regs) = (0, some ((regs.read V230Reg.macro_reg).2.write V230Reg.macro_reg
      (u16 V230_MACRO_FULL_BIST))) := by
  simp [v230_run_full_bist, Bus.read, v230_busy_iff, hi]

theorem read_mem {R : Type} (b : Bus R) (r : R) : (b.read r).2.mem = b.mem := rfl

theorem read_writes {R : Type} (b : Bus R) (r : R) :
    writesOf (b.read r).2.trace = writesOf b.trace := by
  simp [Bus.read, writesOf_append, writesOf]

/-- C6 (amended): when bit 15 (busy) of the macro register is set at the time of
the call, `v230_execute_macro` with any macro code other than `V230_MACRO_NO_OP`,
`v230_execute_macro_channel_test` with any channel, and `v280_run_bist` return
-1 and write no register: every register, the macro command and the macro
parameter registers included, keeps its content. `V230_MACRO_NO_OP` writes no
register either, but returns 0. -/
theorem macro_busy_rejected (regs : Bus V230Reg) (regs280 : Bus V280Reg)
    (hb : (regs.mem V230Reg.macro_reg).val.testBit 15 = true)
    (hb280 : (regs280.mem V280Reg.macro_reg).val.testBit 15 = true) :
    (∀ (v230_2 : Bool) (code : Nat), code ≠ V230_MACRO_NO_OP →
      ∃ b, v230_execute_macro v230_2 (some regs) code = (-1, some b) ∧
        b.mem = regs.mem ∧ writesOf b.trace = writesOf regs.trace) ∧
    (∀ v230_2 : Bool, v230_execute_macro v230_2 (some regs) V230_MACRO_NO_OP
      = (0, some regs)) ∧
    (∀ channel : Nat,
      ∃ b, v230_execute_macro_channel_test (some regs) channel = (-1, some b) ∧
        b.mem = regs.mem ∧ writesOf b.trace = writesOf regs.trace) ∧
    (∀ (hw : Nat → U16) (fuel : Nat),
      ∃ b, v280_run_bist hw fuel (some regs280) = some (-1, some b) ∧
        b.mem = regs280.mem ∧ writesOf b.trace = writesOf regs280.trace) := by
  refine ⟨?_, ?_, ?_, ?_⟩
  · intro v230_2 code hne
    simp only [ v230_execute_macro, if_neg hne]
    split_ifs with h1 h2 h3
    · exact ⟨_, v230_reboot_busy regs hb, read_mem _ _, read_writes _ _⟩
    · exact ⟨_, v230_run_ps_test_busy regs hb, read_mem _ _, read_writes _ _⟩
    · exact ⟨_, v230_run_full_bist_busy regs hb, read_mem _ _, read_writes _ _⟩
    · exact ⟨regs, rfl, rfl, rfl⟩
  · intro v230_2
    simp [ v230_execute_macro]
  · intro channel
    by_cases hc : channel ≥ V230_NUM_CHANNELS
    · exact ⟨regs, by simp [v230_execute_macro_channel_test, hc], rfl, rfl⟩
    · refine ⟨(regs.read V230Reg.macro_reg).2, ?_, read_mem _ _, read_writes _ _⟩
      simp [v230_execute_macro_channel_test, hc, Bus.read, v230_busy_iff, hb]
  · intro hw fuel
    refine ⟨(regs280.read V280Reg.macro_reg).2, ?_, read_mem _ _, read_writes _ _⟩
    have h : ¬ ((regs280.mem V280Reg.macro_reg).val >>> 15 &&& 1 = 0) := by
      rw [shr15_and1, hb280]; simp
    simp only [v280_run_bist, Bus.read, ne_eq, h, not_false_eq_true, if_true]

/-- C6 witness: a V230 and a V280 whose macro registers hold 0x8000 (busy). -/
theorem macro_busy_rejected_witness :
    (∃ b, v230_execute_macro true (some ⟨fun _ => 0x8000, []⟩) V230_MACRO_REBOOT
        = (-1, some b) ∧ b.mem = (fun _ => 0x8000) ∧ writesOf b.trace = writesOf []) ∧
    (∃ b, v280_run_bist (fun _ => 0) 5 (some ⟨fun _ => 0x8000, []⟩) = some (-1, some b) ∧
        b.mem = (fun _ => 0x8000) ∧ writesOf b.trace = writesOf []) :=
  ⟨(macro_busy_rejected ⟨fun _ => 0x8000, []⟩ ⟨fun _ => 0x8000, []⟩ (by decide)
      (by decide)).1 true V230_MACRO_REBOOT (by decide),
   (macro_busy_rejected ⟨fun _ => 0x8000, []⟩ ⟨fun _ => 0x8000, []⟩ (by decide)
      (by decide)).2.2.2 (fun _ => 0) 5⟩

/-- C6 as stated fails for `V230_MACRO_NO_OP`: with the busy bit set (macro
register 0x8000) the call is not rejected, it returns 0. -/
theorem macro_busy_no_op_counterexample :
    ((⟨fun _ => 0x8000, []⟩ : Bus V230Reg).mem V230Reg.macro_reg).val.testBit 15 = true ∧
    ( v230_execute_macro true (some ⟨fun _ => 0x8000, []⟩) V230_MACRO_NO_OP).1 = 0 ∧
    ( v230_execute_macro false (some ⟨fun _ => 0x8000, []⟩) V230_MACRO_NO_OP).1 = 0 := by
  refine ⟨by decide, rfl, rfl⟩

theorem macro_code_consts : V230_MACRO_NO_OP = 0x8400 ∧ V230_MACRO_REBOOT = 0x8407 ∧
    V230_MACRO_PS_TEST = 0x8409 ∧ V230_MACRO_FULL_BIST = 0x8401 ∧
    V230_MACRO_CHANNEL_TEST = 0x8408 := ⟨rfl, rfl, rfl, rfl, rfl⟩

theorem v230_execute_macro_reboot (v230_2 : Bool) (regs : Bus V230Reg) :
    v230_execute_macro v230_2 (some regs) V230_MACRO_REBOOT = v230_reboot (some regs) := by
  simp [ v230_execute_macro, macro_code_consts]

theorem v230_execute_macro_ps_test (v230_2 : Bool) (regs : Bus V230Reg) :
    v230_execute_macro v230_2 (some regs) V230_MACRO_PS_TEST = v230_run_ps_test (some regs) := by
  simp [ v230_execute_macro, macro_code_consts]

theorem v230_execute_macro_full_bist (regs : Bus V230Reg) :
    v230_execute_macro true (some regs) V230_MACRO_FULL_BIST
      = v230_run_full_bist (some regs) := by
  simp [ v230_execute_macro, macro_code_consts]

/-- C7: for the macro codes REBOOT (0x8407), PS_TEST (0x8409) and, in a build
that defines it, FULL_BIST (0x8401), with the busy bit clear `v230_execute_macro`
returns 0 and writes exactly that opcode to the macro register and nothing else;
every defined opcode has bit 15 set, so `v230_is_macro_busy` then reports busy. -/
theorem v230_execute_macro_issue (v230_2 : Bool) (regs : Bus V230Reg) (code : Nat)
    (old : Bool)
    (hi : (regs.mem V230Reg.macro_reg).val.testBit 15 = false)
    (hc : code = V230_MACRO_REBOOT ∨ code = V230_MACRO_PS_TEST ∨
      (v230_2 = true ∧ code = V230_MACRO_FULL_BIST)) :
    (∃ b, v230_execute_macro v230_2 (some regs) code = (0, some b) ∧
      writesOf b.trace = writesOf regs.trace ++ [(V230Reg.macro_reg, u16 code)] ∧
      (b.mem V230Reg.macro_reg).val = code ∧
      (∀ r, r ≠ V230Reg.macro_reg → b.mem r = regs.mem r) ∧
      (v230_is_macro_busy (some b) old).1 = 0 ∧
      (v230_is_macro_busy (some b) old).2.1 = true) ∧
    (∀ c, c ∈ [V230_MACRO_NO_OP, V230_MACRO_REBOOT, V230_MACRO_PS_TEST,
      V230_MACRO_FULL_BIST, V230_MACRO_CHANNEL_TEST] → c.testBit 15 = true) := by
  refine ⟨?_, by decide⟩
  rcases hc with h | h | ⟨hv, h⟩
  · subst h
    refine ⟨_, by rw [v230_execute_macro_reboot, v230_reboot_idle regs hi], ?_, rfl, ?_, rfl, ?_⟩
    · simp [Bus.read, Bus.write, Bus.sleep, writesOf_append, writesOf]
    · intro r hr; simp [Bus.read, Bus.write, Bus.sleep, hr]
    · simp only [v230_is_macro_busy, Bus.read, Bus.write, Bus.sleep, if_true]; decide
  · subst h
    refine ⟨_, by rw [v230_execute_macro_ps_test, v230_run_ps_test_idle regs hi],
      ?_, rfl, ?_, rfl, ?_⟩
    · simp [Bus.read, Bus.write, writesOf_append, writesOf]
    · intro r hr; simp [Bus.read, Bus.write, hr]
    · simp only [v230_is_macro_busy, Bus.read, Bus.write, if_true]; decide
  · subst h; subst hv
    refine ⟨_, by rw [v230_execute_macro_full_bist, v230_run_full_bist_idle regs hi],
      ?_, rfl, ?_, rfl, ?_⟩
    · simp [Bus.read, Bus.write, writesOf_append, writesOf]
    · intro r hr; simp [Bus.read, Bus.write, hr]
    · simp only [v230_is_macro_busy, Bus.read, Bus.write, if_true]; decide

/-- C7 witness: PS_TEST on an idle module whose registers all hold 0. -/
theorem v230_execute_macro_issue_witness :
    ∃ b, v230_execute_macro false (some ⟨fun _ => 0, []⟩) V230_MACRO_PS_TEST = (0, some b) ∧
      writesOf b.trace = writesOf [] ++ [(V230Reg.macro_reg, u16 V230_MACRO_PS_TEST)] ∧
      (b.mem V230Reg.macro_reg).val = V230_MACRO_PS_TEST ∧
      (∀ r, r ≠ V230Reg.macro_reg → b.mem r = (fun _ => 0) r) ∧
      (v230_is_macro_busy (some b) false).1 = 0 ∧
      (v230_is_macro_busy (some b) false).2.1 = true :=
  (v230_execute_macro_issue false ⟨fun _ => 0, []⟩ V230_MACRO_PS_TEST false (by decide)
    (Or.inr (Or.inl rfl))).1

/-- Every call of `v230_execute_macro` appends events whose writes, if any, are a
single write of REBOOT, PS_TEST or FULL_BIST to the macro register. -/
theorem v230_execute_macro_writes (v230_2 : Bool) (regs : Bus V230Reg) (code : Nat) :
    ∃ b evs, ( v230_execute_macro v230_2 (some regs) code).2 = some b ∧
      b.trace = regs.trace ++ evs ∧
      (writesOf evs = [] ∨ writesOf evs = [(V230Reg.macro_reg, u16 V230_MACRO_REBOOT)] ∨
        writesOf evs = [(V230Reg.macro_reg, u16 V230_MACRO_PS_TEST)] ∨
        writesOf evs = [(V230Reg.macro_reg, u16 V230_MACRO_FULL_BIST)]) := by
  rcases Bool.eq_false_or_eq_true ((regs.mem V230Reg.macro_reg).val.testBit 15) with hb | hi
  · simp only [ v230_execute_macro]
    split_ifs with h0 h1 h2 h3
    · exact ⟨regs, [], rfl, by simp, Or.inl rfl⟩
    · rw [v230_reboot_busy regs hb]
      exact ⟨_, [Event.read V230Reg.macro_reg (regs.mem V230Reg.macro_reg)], rfl, rfl, Or.inl rfl⟩
    · rw [v230_run_ps_test_busy regs hb]
      exact ⟨_, [Event.read V230Reg.macro_reg (regs.mem V230Reg.macro_reg)], rfl, rfl, Or.inl rfl⟩
    · rw [v230_run_full_bist_busy regs hb]
      exact ⟨_, [Event.read V230Reg.macro_reg (regs.mem V230Reg.macro_reg)], rfl, rfl, Or.inl rfl⟩
    · exact ⟨regs, [], rfl, by simp, Or.inl rfl⟩
  · simp only [ v230_execute_macro]
    split_ifs with h0 h1 h2 h3
    · exact ⟨regs, [], rfl, by simp, Or.inl rfl⟩
    · rw [v230_reboot_idle regs hi]
      exact ⟨_, [Event.read V230Reg.macro_reg (regs.mem V230Reg.macro_reg),
        Event.write V230Reg.macro_reg (u16 V230_MACRO_REBOOT), Event.sleep 6 0], rfl,
        by simp [Bus.read, Bus.write, Bus.sleep], Or.inr (Or.inl rfl)⟩
    · rw [v230_run_ps_test_idle regs hi]
      exact ⟨_, [Event.read V230Reg.macro_reg (regs.mem V230Reg.macro_reg),
        Event.write V230Reg.macro_reg (u16 V230_MACRO_PS_TEST)], rfl,
        by simp [Bus.read, Bus.write], Or.inr (Or.inr (Or.inl rfl))⟩
    · rw [v230_run_full_bist_idle regs hi]
      exact ⟨_, [Event.read V230Reg.macro_reg (regs.mem V230Reg.macro_reg),
        Event.write V230Reg.macro_reg (u16 V230_MACRO_FULL_BIST)], rfl,
        by simp [Bus.read, Bus.write], Or.inr (Or.inr (Or.inr rfl))⟩
    · exact ⟨regs, [], rfl, by simp, Or.inl rfl⟩

/-- C9: `v230_execute_macro` called with `V230_MACRO_CHANNEL_TEST` (0x8408), or
with a value that is not a macro code defined in the build, returns -1 and
leaves the region untouched (no read, no write), whatever the busy bit is.
No call of `v230_execute_macro`, with any code, writes the channel-test opcode
to the macro register or writes a macro parameter register. -/
theorem v230_execute_macro_rejects (v230_2 : Bool) (regs : Bus V230Reg) (code : Nat)
    (hc : code = V230_MACRO_CHANNEL_TEST ∨
      code ∉ (if v230_2 = true then
        [V230_MACRO_NO_OP, V230_MACRO_REBOOT, V230_MACRO_PS_TEST, V230_MACRO_FULL_BIST,
          V230_MACRO_CHANNEL_TEST]
        else [V230_MACRO_NO_OP, V230_MACRO_REBOOT, V230_MACRO_PS_TEST])) :
    v230_execute_macro v230_2 (some regs) code = (-1, some regs) ∧
    (∀ (ext : Bool) (r : Bus V230Reg) (c : Nat),
      ∃ b evs, ( v230_execute_macro ext (some r) c).2 = some b ∧
        b.trace = r.trace ++ evs ∧
        (V230Reg.macro_reg, u16 V230_MACRO_CHANNEL_TEST) ∉ writesOf evs ∧
        ∀ i v, (V230Reg.mp i, v) ∉ writesOf evs) := by
  constructor
  · have h4 : code ≠ V230_MACRO_NO_OP ∧ code ≠ V230_MACRO_REBOOT ∧
        code ≠ V230_MACRO_PS_TEST ∧ ¬ (v230_2 = true ∧ code = V230_MACRO_FULL_BIST) := by
      rcases hc with h | h
      · subst h; simp [macro_code_consts]
      · cases v230_2 <;> simp at h <;> simp [h]
    simp [ v230_execute_macro, h4.1, h4.2.1, h4.2.2.1, h4.2.2.2]
  · intro ext r c
    obtain ⟨b, evs, h1, h2, h3⟩ := v230_execute_macro_writes ext r c
    refine ⟨b, evs, h1, h2, ?_, ?_⟩
    · rcases h3 with h | h | h | h <;> rw [h] <;> decide
    · intro i v
      rcases h3 with h | h | h | h <;> rw [h] <;> simp

/-- C9 witness: the channel-test opcode and the undefined value 0x1234 are
rejected on an idle module; FULL_BIST is rejected in a build that lacks it. -/
theorem v230_execute_macro_rejects_witness :
    v230_execute_macro true (some ⟨fun _ => 0, []⟩) V230_MACRO_CHANNEL_TEST
      = (-1, some ⟨fun _ => 0, []⟩) ∧
    v230_execute_macro true (some ⟨fun _ => 0, []⟩) 0x1234 = (-1, some ⟨fun _ => 0, []⟩) ∧
    v230_execute_macro false (some ⟨fun _ => 0, []⟩) V230_MACRO_FULL_BIST
      = (-1, some ⟨fun _ => 0, []⟩) :=
  ⟨(v230_execute_macro_rejects true ⟨fun _ => 0, []⟩ V230_MACRO_CHANNEL_TEST
      (Or.inl rfl)).1,
   (v230_execute_macro_rejects true ⟨fun _ => 0, []⟩ 0x1234 (Or.inr (by decide))).1,
   (v230_execute_macro_rejects false ⟨fun _ => 0, []⟩ V230_MACRO_FULL_BIST
      (Or.inr (by decide))).1⟩

/-- C10: for every channel below 64 with the busy bit clear,
`v230_execute_macro_channel_test` returns 0 after reading the macro register
once and performing exactly two writes in this order: `mp[0] := channel`, then
`macro := 0x8408`. In every execution (any region state, any channel) the
writes are either none or exactly these two in this order, so the command
register is never written before the parameter register. -/
theorem v230_channel_test_order (regs : Bus V230Reg) (channel : Nat)
    (hch : channel < 64)
    (hi : (regs.mem V230Reg.macro_reg).val.testBit 15 = false) :
    (∃ b, v230_execute_macro_channel_test (some regs) channel = (0, some b) ∧
      b.trace = regs.trace ++
        [Event.read V230Reg.macro_reg (regs.mem V230Reg.macro_reg),
         Event.write (V230Reg.mp 0) (u16 channel),
         Event.write V230Reg.macro_reg (u16 V230_MACRO_CHANNEL_TEST)] ∧
      (u16 channel).val = channel ∧ (u16 V230_MACRO_CHANNEL_TEST).val = 0x8408) ∧
    (∀ (r : Bus V230Reg) (c : Nat),
      ∃ b evs, (v230_execute_macro_channel_test (some r) c).2 = some b ∧
        b.trace = r.trace ++ evs ∧
        (writesOf evs = [] ∨
         writesOf evs = [(V230Reg.mp 0, u16 c),
                         (V230Reg.macro_reg, u16 V230_MACRO_CHANNEL_TEST)])) := by
  have hidle : ∀ (r : Bus V230Reg) (c : Nat), ¬ c ≥ V230_NUM_CHANNELS →
      (r.mem V230Reg.macro_reg).val.testBit 15 = false →
      v230_execute_macro_channel_test (some r) c =
        (0, some (((r.read V230Reg.macro_reg).2.write (V230Reg.mp 0) (u16 c)).write
          V230Reg.macro_reg (u16 V230_MACRO_CHANNEL_TEST))) := by
    intro r c hc h
    simp [v230_execute_macro_channel_test, hc, Bus.read, v230_busy_iff, h]
  constructor
  · refine ⟨_, hidle regs channel (by simp [V230_NUM_CHANNELS]; omega) hi, ?_, ?_, rfl⟩
    · simp [Bus.read, Bus.write]
    · simp only [u16_val]; omega
  · intro r c
    by_cases hc : c ≥ V230_NUM_CHANNELS
    · exact ⟨r, [], by simp [v230_execute_macro_channel_test, hc], by simp, Or.inl rfl⟩
    · rcases Bool.eq_false_or_eq_true ((r.mem V230Reg.macro_reg).val.testBit 15) with hb | hi'
      · refine ⟨(r.read V230Reg.macro_reg).2, [Event.read V230Reg.macro_reg (r.mem V230Reg.macro_reg)],
          ?_, rfl, Or.inl rfl⟩
        simp [v230_execute_macro_channel_test, hc, Bus.read, v230_busy_iff, hb]
      · rw [hidle r c hc hi']
        exact ⟨_, [Event.read V230Reg.macro_reg (r.mem V230Reg.macro_reg),
          Event.write (V230Reg.mp 0) (u16 c),
          Event.write V230Reg.macro_reg (u16 V230_MACRO_CHANNEL_TEST)], rfl,
          by simp [Bus.read, Bus.write], Or.inr rfl⟩

/-- C10 witness: channel 12 on an idle module whose registers all hold 0. -/
theorem v230_channel_test_order_witness :
    ∃ b, v230_execute_macro_channel_test (some ⟨fun _ => 0, []⟩) 12 = (0, some b) ∧
      b.trace = [] ++
        [Event.read V230Reg.macro_reg 0, Event.write (V230Reg.mp 0) (u16 12),
         Event.write V230Reg.macro_reg (u16 V230_MACRO_CHANNEL_TEST)] ∧
      (u16 12).val = 12 ∧ (u16 V230_MACRO_CHANNEL_TEST).val = 0x8408 :=
  (v230_channel_test_order ⟨fun _ => 0, []⟩ 12 (by decide) (by decide)).1

/-! ## V280 built-in self test -/

theorem writesOf_reads {R : Type} (r : R) (f : Nat → U16) (l : List Nat) :
    writesOf (l.map (fun i => Event.read r (f i))) = [] := by
  induction l with
  | nil => rfl
  | cons a l ih => simpa [writesOf] using ih

/-- The polling loop ends at the first read that shows bit 15 clear: if that is
read number `j + k` and more than `k` loop tests are allowed, it has done the
reads `j, ..., j + k` and nothing else. -/
theorem v280_run_bist_poll_ends (hw : Nat → U16) (k : Nat) :
    ∀ (fuel j : Nat) (b : Bus V280Reg),
      (∀ i, i < k → (hw (j + i)).val.testBit 15 = true) →
      (hw (j + k)).val.testBit 15 = false → k < fuel →
      ∃ b', v280_run_bist_poll hw fuel j b = some (j + k + 1, b') ∧
        b'.trace = b.trace ++
          (List.range (k + 1)).map (fun i => Event.read V280Reg.macro_reg (hw (j + i))) := by
  induction k with
  | zero =>
    intro fuel j b _ hclear hfuel
    obtain ⟨f, rfl⟩ : ∃ f, fuel = f + 1 := ⟨fuel - 1, by omega⟩
    have h : (hw j).val >>> 15 &&& 1 = 0 := by
      rw [shr15_and1]; simpa using hclear
    refine ⟨(b.readHw V280Reg.macro_reg (hw j)).2, ?_, ?_⟩
    · simp only [v280_run_bist_poll, Bus.readHw, ne_eq, h, not_true_eq_false, if_false,
        Nat.add_zero]
    · simp [Bus.readHw, List.range_succ]
  | succ k ih =>
    intro fuel j b hbusy hclear hfuel
    obtain ⟨f, rfl⟩ : ∃ f, fuel = f + 1 := ⟨fuel - 1, by omega⟩
    have h : ¬ ((hw j).val >>> 15 &&& 1 = 0) := by
      rw [shr15_and1]
      have := hbusy 0 (by omega)
      simp only [Nat.add_zero] at this
      simp [this]
    obtain ⟨b', hb', ht⟩ := ih f (j + 1) (b.readHw V280Reg.macro_reg (hw j)).2
      (fun i hi => by
        have := hbusy (i + 1) (by omega)
        rwa [show j + (i + 1) = j + 1 + i by omega] at this)
      (by rwa [show j + 1 + k = j + (k + 1) by omega]) (by omega)
    refine ⟨b', ?_, ?_⟩
    · simp only [v280_run_bist_poll, Bus.readHw, ne_eq, h, not_false_eq_true, if_true]
      simp only [Bus.readHw] at hb'
      rw [hb']
      congr 2; omega
    · rw [ht, List.range_succ_eq_map (k + 1)]
      simp [Bus.readHw, List.map_map, Function.comp_def, Nat.add_assoc, Nat.add_comm 1]

/-- C8: `v280_run_bist` returns -1 for a null region, and -1 without writing when
bit 15 of the macro register is set at entry. Otherwise it writes 0x8401 to the
macro register and polls it; when read number `k` after the write is the first
one showing bit 15 clear, the call returns (given more than `k` loop tests)
-2 if bits 15..8 of the next read of the macro register are non-zero and 0 if
they are zero, having written nothing else. The code -2 differs from -1. -/
theorem v280_run_bist_result (hw : Nat → U16) (regs : Bus V280Reg) (k fuel : Nat)
    (hi : (regs.mem V280Reg.macro_reg).val.testBit 15 = false)
    (hbusy : ∀ i, i < k → (hw i).val.testBit 15 = true)
    (hclear : (hw k).val.testBit 15 = false)
    (hfuel : k < fuel) :
    (∃ b, v280_run_bist hw fuel (some regs) =
        some (if (hw (k + 1)).val / 256 % 256 ≠ 0 then -2 else 0, some b) ∧
      writesOf b.trace = writesOf regs.trace ++ [(V280Reg.macro_reg, u16 V280_BIST_MACRO_CODE)] ∧
      (u16 V280_BIST_MACRO_CODE).val = 0x8401) ∧
    (∀ (r : Bus V280Reg) (hw' : Nat → U16) (fuel' : Nat),
      (r.mem V280Reg.macro_reg).val.testBit 15 = true →
      ∃ b, v280_run_bist hw' fuel' (some r) = some (-1, some b) ∧
        b.mem = r.mem ∧ writesOf b.trace = writesOf r.trace) ∧
    (∀ (hw' : Nat → U16) (fuel' : Nat), v280_run_bist hw' fuel' none = some (-1, none)) ∧
    (-2 : Int) ≠ -1 := by
  refine ⟨?_, ?_, fun _ _ => rfl, by decide⟩
  · have h : (regs.mem V280Reg.macro_reg).val >>> 15 &&& 1 = 0 := by
      rw [shr15_and1]; exact hi
    obtain ⟨b', hb', ht⟩ := v280_run_bist_poll_ends hw k fuel 0
      ((regs.read V280Reg.macro_reg).2.write V280Reg.macro_reg (u16 V280_BIST_MACRO_CODE))
      (fun i hi' => by simpa using hbusy i hi') (by simpa using hclear) hfuel
    simp only [Nat.zero_add] at hb'
    refine ⟨(b'.readHw V280Reg.macro_reg (hw (k + 1))).2, ?_, ?_, rfl⟩
    · simp only [v280_run_bist, ne_eq, Bus.read, h, not_true_eq_false, if_false]
      simp only [Bus.read] at hb'
      rw [hb']
      simp only [Bus.readHw, shr8_and_ff]
      split_ifs <;> rfl
    · simp only [Bus.readHw, ht, writesOf_append, writesOf_reads, Bus.read, Bus.write,
        writesOf, List.append_nil, List.nil_append]
  · intro r hw' fuel' hb
    refine ⟨(r.read V280Reg.macro_reg).2, ?_, read_mem _ _, read_writes _ _⟩
    have h : ¬ ((r.mem V280Reg.macro_reg).val >>> 15 &&& 1 = 0) := by
      rw [shr15_and1, hb]; simp
    simp only [v280_run_bist, Bus.read, ne_eq, h, not_false_eq_true, if_true]

/-- C8 witness: the module shows busy (0x8401) on two reads, then 0x0100 (bit 15
clear, error field 1): the call returns -2; with error field 0 it returns 0. -/
theorem v280_run_bist_result_witness :
    (∃ b, v280_run_bist (fun i => if i < 2 then 0x8401 else 0x0100) 3
        (some ⟨fun _ => 0, []⟩) = some (-2, some b)) ∧
    (∃ b, v280_run_bist (fun i => if i < 2 then 0x8401 else 0x0001) 3
        (some ⟨fun _ => 0, []⟩) = some (0, some b)) := by
  constructor
  · obtain ⟨b, hb, _⟩ := (v280_run_bist_result (fun i => if i < 2 then 0x8401 else 0x0100)
      ⟨fun _ => 0, []⟩ 2 3 (by decide) (by decide) (by decide) (by decide)).1
    exact ⟨b, hb⟩
  · obtain ⟨b, hb, _⟩ := (v280_run_bist_result (fun i => if i < 2 then 0x8401 else 0x0001)
      ⟨fun _ => 0, []⟩ 2 3 (by decide) (by decide) (by decide) (by decide)).1
    exact ⟨b, hb⟩

/-! ## Address validation -/

/-- C11: for each module's address validator, every address and every
addressing mode (the enumerators `V120_A16` and `V120_A24` being distinct): it
returns 0 exactly when the mode is A16 and the address is at most the module's
A16 ceiling, or the mode is A24 and the address is at most the module's A24
ceiling, and -1 otherwise. The ceilings are 0xFFE0 / 0xFFFFE0 for the V210 and
0xFE00 / 0xFFFE00 for the V230 and the V280; the V210 in A16 mode accepts
0xFFE0 and rejects 0xFFE1. -/
theorem validate_address_and_mode_spec (L : V120Modes) (addr_mode vme_addr : Nat)
    (hL : L.V120_A16 ≠ L.V120_A24) :
    ((v210_validate_address_and_mode L addr_mode vme_addr = 0 ↔
        (addr_mode = L.V120_A16 ∧ vme_addr ≤ 0xFFE0) ∨
        (addr_mode = L.V120_A24 ∧ vme_addr ≤ 0xFFFFE0)) ∧
      (v210_validate_address_and_mode L addr_mode vme_addr = 0 ∨
        v210_validate_address_and_mode L addr_mode vme_addr = -1)) ∧
    ((v230_validate_address_and_mode L vme_addr addr_mode = 0 ↔
        (addr_mode = L.V120_A16 ∧ vme_addr ≤ 0xFE00) ∨
        (addr_mode = L.V120_A24 ∧ vme_addr ≤ 0xFFFE00)) ∧
      (v230_validate_address_and_mode L vme_addr addr_mode = 0 ∨
        v230_validate_address_and_mode L vme_addr addr_mode = -1)) ∧
    ((v280_validate_address_and_mode L vme_addr addr_mode = 0 ↔
        (addr_mode = L.V120_A16 ∧ vme_addr ≤ 0xFE00) ∨
        (addr_mode = L.V120_A24 ∧ vme_addr ≤ 0xFFFE00)) ∧
      (v280_validate_address_and_mode L vme_addr addr_mode = 0 ∨
        v280_validate_address_and_mode L vme_addr addr_mode = -1)) ∧
    v210_validate_address_and_mode L L.V120_A16 0xFFE0 = 0 ∧
    v210_validate_address_and_mode L L.V120_A16 0xFFE1 = -1 := by
  have hL' : L.V120_A24 ≠ L.V120_A16 := fun h => hL h.symm
  refine ⟨?_, ?_, ?_, ?_, ?_⟩
  · unfold v210_validate_address_and_mode
    by_cases h16 : addr_mode = L.V120_A16
    · subst h16
      by_cases ha : vme_addr > 0xFFE0
      · simp [hL, ha]
      · simp [hL, ha]; omega
    · by_cases h24 : addr_mode = L.V120_A24
      · subst h24
        by_cases ha : vme_addr > 0xFFFFE0
        · simp [hL', ha]
        · simp [hL', ha]; omega
      · simp [h16, h24]
  · unfold v230_validate_address_and_mode
    by_cases h16 : addr_mode = L.V120_A16
    · subst h16
      by_cases ha : vme_addr > 0xFE00
      · simp [hL, ha]
      · simp [hL, ha]; omega
    · by_cases h24 : addr_mode = L.V120_A24
      · subst h24
        by_cases ha : vme_addr > 0xFFFE00
        · simp [hL', ha]
        · simp [hL', ha]; omega
      · simp [h16, h24]
  · unfold v280_validate_address_and_mode
    by_cases h16 : addr_mode = L.V120_A16
    · subst h16
      by_cases ha : vme_addr > 0xFE00
      · simp [hL, ha]
      · simp [hL, ha]; omega
    · by_cases h24 : addr_mode = L.V120_A24
      · subst h24
        by_cases ha : vme_addr > 0xFFFE00
        · simp [hL', ha]
        · simp [hL', ha]; omega
      · simp [h16, h24]
  · simp [v210_validate_address_and_mode, hL]
  · simp [v210_validate_address_and_mode, hL]

/-- C11 witness: with `V120_A16 = 0` and `V120_A24 = 1`, the V230 in A24 mode
accepts 0xFFFE00; the V210 in A16 mode accepts 0xFFE0 and rejects 0xFFE1. -/
theorem validate_address_and_mode_spec_witness :
    v230_validate_address_and_mode ⟨0, 1⟩ 0xFFFE00 1 = 0 ∧
    v210_validate_address_and_mode ⟨0, 1⟩ 0 0xFFE0 = 0 ∧
    v210_validate_address_and_mode ⟨0, 1⟩ 0 0xFFE1 = -1 :=
  ⟨((validate_address_and_mode_spec ⟨0, 1⟩ 1 0xFFFE00 (by decide)).2.1.1).2
      (Or.inr ⟨rfl, by decide⟩),
   (validate_address_and_mode_spec ⟨0, 1⟩ 1 0xFFFE00 (by decide)).2.2.2.1,
   (validate_address_and_mode_spec ⟨0, 1⟩ 1 0xFFFE00 (by decide)).2.2.2.2⟩

/-! ## Out-of-range channel and index arguments -/

/-- C12: every V230 operation taking a channel number, called with a channel
of 64 or more, and every V280 debounce-time operation, called with a channel
of 48 or more, returns -1, leaves the region as it was (no register read, no
register written, no event at all) and leaves the caller's output unchanged. -/
theorem channel_out_of_range (regs : Bus V230Reg) (regs280 : Bus V280Reg)
    (ch ch280 delay : Nat) (cfg : v230_channel_config_t) (c_relay : Bool)
    (b_relays : Nat → Bool)
    (hch : ch ≥ 64) (hch280 : ch280 ≥ 48) :
    v230_set_channel_config (some regs) ch cfg = (-1, some regs) ∧
    v230_get_channel_config (some regs) ch cfg = (-1, cfg, some regs) ∧
    v230_execute_macro_channel_test (some regs) ch = (-1, some regs) ∧
    v230_set_relay_config (some regs) ⟨ch, c_relay, b_relays⟩ = (-1, some regs) ∧
    v280_set_rise_time_delay (some regs280) ch280 delay = (-1, some regs280) ∧
    v280_get_rise_time_delay (some regs280) ch280 delay = (-1, delay, some regs280) ∧
    v280_set_fall_time_delay (some regs280) ch280 delay = (-1, some regs280) ∧
    v280_get_fall_time_delay (some regs280) ch280 delay = (-1, delay, some regs280) := by
  have h1 : ch ≥ V230_NUM_CHANNELS := hch
  have h2 : ch280 ≥ V280_CHANNEL_COUNT := hch280
  refine ⟨?_, ?_, ?_, ?_, ?_, ?_, ?_, ?_⟩
  · simp only [v230_set_channel_config, h1, if_true]
  · simp only [v230_get_channel_config, h1, if_true]
  · simp only [v230_execute_macro_channel_test, h1, if_true]
  · simp only [v230_set_relay_config, h1, if_true]
  · simp only [v280_set_rise_time_delay, h2, if_true]
  · simp only [v280_get_rise_time_delay, h2, if_true]
  · simp only [v280_set_fall_time_delay, h2, if_true]
  · simp only [v280_get_fall_time_delay, h2, if_true]

/-- C12 witness: channel 64 on the V230 and channel 48 on the V280. -/
theorem channel_out_of_range_witness :
    v230_get_channel_config (some ⟨fun _ => 0x103, []⟩) 64
      ⟨V230_CHANNEL_RANGE_1, V230_CHANNEL_FILTER_17HZ, false⟩
      = (-1, ⟨V230_CHANNEL_RANGE_1, V230_CHANNEL_FILTER_17HZ, false⟩,
          some ⟨fun _ => 0x103, []⟩) ∧
    v280_get_rise_time_delay (some ⟨fun _ => 9, []⟩) 48 5
      = (-1, 5, some ⟨fun _ => 9, []⟩) :=
  ⟨(channel_out_of_range ⟨fun _ => 0x103, []⟩ ⟨fun _ => 9, []⟩ 64 48 5
      ⟨V230_CHANNEL_RANGE_1, V230_CHANNEL_FILTER_17HZ, false⟩ false (fun _ => false)
      (by decide) (by decide)).2.1,
   (channel_out_of_range ⟨fun _ => 0x103, []⟩ ⟨fun _ => 9, []⟩ 64 48 5
      ⟨V230_CHANNEL_RANGE_1, V230_CHANNEL_FILTER_17HZ, false⟩ false (fun _ => false)
      (by decide) (by decide)).2.2.2.2.2.1⟩

/-- C13 fails on the code: `v280_write_buffer` and `v280_read_buffer` do not
check the index. With index 200 both return 0 and access the word at byte offset
0x100 + 2 * 200 = 0x290, which is past the end of the 0x200-byte register block;
this holds for every index, 128..255 included. -/
theorem v280_buffer_index_unchecked :
    (∀ (regs : Bus V280Reg) (index value : Nat),
      v280_write_buffer (some regs) index value
        = (0, some ⟨fun x => if x = V280Reg.buf index then u16 value else regs.mem x,
            regs.trace ++ [Event.write (V280Reg.buf index) (u16 value)]⟩)) ∧
    (∀ (regs : Bus V280Reg) (index old : Nat),
      v280_read_buffer (some regs) index old
        = (0, (regs.mem (V280Reg.buf index)).val,
            some ⟨regs.mem, regs.trace ++
              [Event.read (V280Reg.buf index) (regs.mem (V280Reg.buf index))]⟩)) ∧
    (v280_write_buffer (some ⟨fun _ => 0, []⟩) 200 0xABCD).1 = 0 ∧
    (v280_read_buffer (some ⟨fun _ => 7, []⟩) 200 0).1 = 0 ∧
    Layout.offsetof v280_registers "buf" = some 0x100 ∧
    Layout.sizeof v280_registers = 0x200 ∧
    0x100 + 2 * 200 ≥ Layout.sizeof v280_registers :=
  ⟨fun _ _ _ => rfl, fun _ _ _ => rfl, rfl, rfl, by decide, by decide, by decide⟩

/-! ## V230 channel configuration decoding -/

theorem and_48 (n : Nat) : n &&& 48 = 2 ^ 4 * (n / 2 ^ 4 % 2 ^ 2) := by
  apply Nat.eq_of_testBit_eq
  intro i
  rw [Nat.testBit_and, show (48 : Nat) = 2 ^ 4 * (2 ^ 2 - 1) from rfl,
    Nat.testBit_mul_pow_two, Nat.testBit_mul_pow_two, Nat.testBit_two_pow_sub_one,
    Nat.testBit_mod_two_pow, ← Nat.shiftRight_eq_div_pow, Nat.testBit_shiftRight]
  by_cases h : 4 ≤ i
  · rw [show 4 + (i - 4) = i by omega]
    cases n.testBit i <;> simp [h]
  · simp [h]

theorem filter_consts : V230_CHANNEL_FILTER_NONE = 0 ∧ V230_CHANNEL_FILTER_200HZ = 16 ∧
    V230_CHANNEL_FILTER_17HZ = 32 ∧ V230_CHANNEL_FILTER_MASK = 48 := by decide

theorem v230_get_channel_config_ok (regs : Bus V230Reg) (ch : Nat)
    (old : v230_channel_config_t) (hch : ch < 64) :
    (v230_get_channel_config (some regs) ch old).1 = 0 ∧
    (v230_get_channel_config (some regs) ch old).2.1 =
      ⟨(regs.mem (V230Reg.ctl ch)).val % 4, (regs.mem (V230Reg.ctl ch)).val &&& 48,
        decide ((regs.mem (V230Reg.ctl ch)).val &&& V230_BIT_CHANNEL_ENABLE ≠ 0)⟩ := by
  have h : ¬ ch ≥ V230_NUM_CHANNELS := by simp [V230_NUM_CHANNELS]; omega
  simp only [v230_get_channel_config, h, if_false, Bus.read, range_consts.2.2.2,
    filter_consts.2.2.2, and_three, and_self]

/-- C14: for every channel-control register value whose range bits (1:0) are 0,
`v230_get_channel_config` decodes a range that is none of RANGE_1, RANGE_2,
RANGE_3, and for every value whose filter bits (5:4) are 3 it decodes a filter
that is none of FILTER_NONE, FILTER_200HZ, FILTER_17HZ; `print_channel_config`
then prints `Unknown Range`, respectively `Unknown Filter`. -/
theorem v230_get_channel_config_unknown (regs : Bus V230Reg) (ch : Nat)
    (old : v230_channel_config_t) (hch : ch < 64) :
    ((regs.mem (V230Reg.ctl ch)).val % 4 = 0 →
      (v230_get_channel_config (some regs) ch old).2.1.range ∉
        [V230_CHANNEL_RANGE_1, V230_CHANNEL_RANGE_2, V230_CHANNEL_RANGE_3] ∧
      (print_channel_config ch (v230_get_channel_config (some regs) ch old).2.1).get? 1
        = some "  Range: Unknown Range") ∧
    ((regs.mem (V230Reg.ctl ch)).val / 16 % 4 = 3 →
      (v230_get_channel_config (some regs) ch old).2.1.filter ∉
        [V230_CHANNEL_FILTER_NONE, V230_CHANNEL_FILTER_200HZ, V230_CHANNEL_FILTER_17HZ] ∧
      (print_channel_config ch (v230_get_channel_config (some regs) ch old).2.1).get? 2
        = some "  Filter: Unknown Filter") := by
  rw [(v230_get_channel_config_ok regs ch old hch).2]
  constructor
  · intro h0
    simp only [h0, print_channel_config, range_consts.1, range_consts.2.1,
      range_consts.2.2.1]
    exact ⟨by decide, rfl⟩
  · intro h3
    have hf : (regs.mem (V230Reg.ctl ch)).val &&& 48 = 48 := by
      rw [and_48]
      have : (regs.mem (V230Reg.ctl ch)).val / 2 ^ 4 % 2 ^ 2 = 3 := h3
      rw [this]
      rfl
    simp only [hf, print_channel_config, filter_consts.1, filter_consts.2.1,
      filter_consts.2.2.1]
    exact ⟨by decide, rfl⟩

/-- C14 witness: channel 5 holds 0x0130 (range bits 0, filter bits 3, enabled). -/
theorem v230_get_channel_config_unknown_witness :
    (v230_get_channel_config (some ⟨fun _ => 0x0130, []⟩) 5
      ⟨V230_CHANNEL_RANGE_1, V230_CHANNEL_FILTER_NONE, false⟩).2.1.range ∉
        [V230_CHANNEL_RANGE_1, V230_CHANNEL_RANGE_2, V230_CHANNEL_RANGE_3] ∧
    (v230_get_channel_config (some ⟨fun _ => 0x0130, []⟩) 5
      ⟨V230_CHANNEL_RANGE_1, V230_CHANNEL_FILTER_NONE, false⟩).2.1.filter ∉
        [V230_CHANNEL_FILTER_NONE, V230_CHANNEL_FILTER_200HZ, V230_CHANNEL_FILTER_17HZ] :=
  ⟨((v230_get_channel_config_unknown ⟨fun _ => 0x0130, []⟩ 5
      ⟨V230_CHANNEL_RANGE_1, V230_CHANNEL_FILTER_NONE, false⟩ (by decide)).1
      (by decide)).1,
   ((v230_get_channel_config_unknown ⟨fun _ => 0x0130, []⟩ 5
      ⟨V230_CHANNEL_RANGE_1, V230_CHANNEL_FILTER_NONE, false⟩ (by decide)).2
      (by decide)).1⟩

/-- C15: `v230_get_channel_setup_error_id` returns 0 and reports the content of
the `cher` register unchanged, after one read of that register; the reported
value is 0xFFFF if and only if the register holds 0xFFFF, and 0xFFFF is none of
the channel numbers 0..63. -/
theorem v230_get_channel_setup_error_id_spec (regs : Bus V230Reg) (old : Nat) :
    v230_get_channel_setup_error_id (some regs) old =
      (0, (regs.mem V230Reg.cher).val,
        some ⟨regs.mem, regs.trace ++ [Event.read V230Reg.cher (regs.mem V230Reg.cher)]⟩) ∧
    ((v230_get_channel_setup_error_id (some regs) old).2.1 = 0xFFFF ↔
      regs.mem V230Reg.cher = 0xFFFF) ∧
    (∀ ch : Fin 64, (0xFFFF : Nat) ≠ ch.val) := by
  refine ⟨rfl, ?_, fun ch => by omega⟩
  show (regs.mem V230Reg.cher).val = 0xFFFF ↔ regs.mem V230Reg.cher = 0xFFFF
  constructor
  · intro h; exact Fin.ext h
  · intro h; rw [h]; rfl

/-! ## Calibration date -/

/-- C16 fails on the code: the date is printed with `%d/%d/%d`, without zero
padding. With the year register holding 2024 and the month/day register holding
0x0105 (January 5), `v230_get_cal_date` and `v280_get_cal_date` on a 16-byte
buffer return 0 and produce `1/5/2024` (8 characters), which is not the
`MM/DD/YYYY` string `01/05/2024` (10 characters) that the header documents. -/
theorem cal_date_not_padded :
    v230_get_cal_date
      (some ⟨fun r => if r = V230Reg.ycal then 2024 else if r = V230Reg.dcal then 0x0105
        else 0, []⟩) (some []) 16
      = (0, some "1/5/2024".toList,
          some ⟨fun r => if r = V230Reg.ycal then 2024 else if r = V230Reg.dcal then 0x0105
            else 0, [Event.read V230Reg.ycal 2024, Event.read V230Reg.dcal 0x0105]⟩) ∧
    v280_get_cal_date
      (some ⟨fun r => if r = V280Reg.ycal then 2024 else if r = V280Reg.dcal then 0x0105
        else 0, []⟩) (some []) 16
      = (0, some "1/5/2024".toList,
          some ⟨fun r => if r = V280Reg.ycal then 2024 else if r = V280Reg.dcal then 0x0105
            else 0, [Event.read V280Reg.ycal 2024, Event.read V280Reg.dcal 0x0105]⟩) ∧
    "1/5/2024".toList ≠ "01/05/2024".toList ∧
    "1/5/2024".toList.length = 8 ∧ "01/05/2024".toList.length = 10 := by
  refine ⟨rfl, rfl, by decide, by decide, by decide⟩

/-! ## V230 channel configuration frame -/

theorem or_and_right (x y c : Nat) : (x ||| y) &&& c = (x &&& c) ||| (y &&& c) := by
  rw [Nat.and_comm, Nat.and_or_distrib_left, Nat.and_comm c, Nat.and_comm c]

theorem and_and_zero (f a c : Nat) (h : a &&& c = 0) : (f &&& a) &&& c = 0 := by
  rw [Nat.and_assoc, h, Nat.and_zero]

theorem ctl_word_lt (f r : Nat) : (f &&& 48) ||| (r &&& 3) < 64 := by
  have h1 : f &&& 48 < 2 ^ 6 := lt_of_le_of_lt Nat.and_le_right (by decide)
  have h2 : r &&& 3 < 2 ^ 6 := lt_of_le_of_lt Nat.and_le_right (by decide)
  exact Nat.or_lt_two_pow h1 h2

theorem ctl_word_enable_lt (f r : Nat) : (f &&& 48) ||| (r &&& 3) ||| 256 < 65536 := by
  have h1 : (f &&& 48) ||| (r &&& 3) < 2 ^ 16 := lt_trans (ctl_word_lt f r) (by decide)
  exact Nat.or_lt_two_pow h1 (by decide)

theorem ctl_word_val (range filter : Nat) (enable : Bool) :
    (if enable = true then
        u16 ((u16 ((filter &&& V230_CHANNEL_FILTER_MASK) |||
          (range &&& V230_CHANNEL_RANGE_MASK))).val ||| V230_BIT_CHANNEL_ENABLE)
      else u16 ((filter &&& V230_CHANNEL_FILTER_MASK) |||
          (range &&& V230_CHANNEL_RANGE_MASK))).val
      = (range &&& 0x3) ||| (filter &&& 0x30) ||| (if enable = true then 0x100 else 0) := by
  have h0 : ((filter &&& 48) ||| (range &&& 3)) % 65536 = (filter &&& 48) ||| (range &&& 3) :=
    Nat.mod_eq_of_lt (lt_trans (ctl_word_lt filter range) (by decide))
  have h1 : ((filter &&& 48) ||| (range &&& 3) ||| 256) % 65536
      = (filter &&& 48) ||| (range &&& 3) ||| 256 :=
    Nat.mod_eq_of_lt (ctl_word_enable_lt filter range)
  cases enable
  · simp only [Bool.false_eq_true, if_false, u16_val, filter_consts.2.2.2,
      range_consts.2.2.2, h0, Nat.or_zero]
    exact Nat.or_comm _ _
  · simp only [if_true, u16_val, filter_consts.2.2.2, range_consts.2.2.2,
      show V230_BIT_CHANNEL_ENABLE = 256 from rfl, h0, h1]
    rw [Nat.or_comm (filter &&& 48)]

/-- C17: for every channel `c < 64` and every configuration,
`v230_set_channel_config` returns 0 and performs exactly one register access,
a write to `ctl[c]` of the value (range AND 0x3) OR (filter AND 0x30) OR
(0x100 if enable), in which all other bits are zero; every other register,
every `ctl[c']` with `c' ≠ c` included, keeps its content, and
`v230_get_channel_config` of any other channel returns what it returned before. -/
theorem v230_set_channel_config_frame (regs : Bus V230Reg) (c : Nat)
    (cfg : v230_channel_config_t) (hc : c < 64) :
    ∃ (b : Bus V230Reg) (v : U16),
      v230_set_channel_config (some regs) c cfg = (0, some b) ∧
      b.trace = regs.trace ++ [Event.write (V230Reg.ctl c) v] ∧
      b.mem (V230Reg.ctl c) = v ∧
      v.val = (cfg.range &&& 0x3) ||| (cfg.filter &&& 0x30) |||
        (if cfg.enable = true then 0x100 else 0) ∧
      v.val &&& 0xFECC = 0 ∧
      (∀ r, r ≠ V230Reg.ctl c → b.mem r = regs.mem r) ∧
      (∀ c2, c2 ≠ c → b.mem (V230Reg.ctl c2) = regs.mem (V230Reg.ctl c2)) ∧
      (∀ (c2 : Nat) (old : v230_channel_config_t), c2 ≠ c →
        (v230_get_channel_config (some b) c2 old).1
          = (v230_get_channel_config (some regs) c2 old).1 ∧
        (v230_get_channel_config (some b) c2 old).2.1
          = (v230_get_channel_config (some regs) c2 old).2.1) := by
  obtain ⟨range, filter, enable⟩ := cfg
  have hc' : ¬ c ≥ V230_NUM_CHANNELS := by simp [V230_NUM_CHANNELS]; omega
  have hframe : ∀ v : U16, ∀ r, r ≠ V230Reg.ctl c →
      (regs.write (V230Reg.ctl c) v).mem r = regs.mem r := by
    intro v r hr; simp [Bus.write, hr]
  have hget : ∀ (v : U16) (c2 : Nat) (old : v230_channel_config_t), c2 ≠ c →
      (v230_get_channel_config (some (regs.write (V230Reg.ctl c) v)) c2 old).1
        = (v230_get_channel_config (some regs) c2 old).1 ∧
      (v230_get_channel_config (some (regs.write (V230Reg.ctl c) v)) c2 old).2.1
        = (v230_get_channel_config (some regs) c2 old).2.1 := by
    intro v c2 old h2
    have hne : V230Reg.ctl c2 ≠ V230Reg.ctl c := by simpa using h2
    by_cases h64 : c2 ≥ V230_NUM_CHANNELS
    · simp [v230_get_channel_config, h64]
    · simp [v230_get_channel_config, h64, Bus.read, Bus.write, hne]
  refine ⟨regs.write (V230Reg.ctl c)
      (if enable = true then
        u16 ((u16 ((filter &&& V230_CHANNEL_FILTER_MASK) |||
          (range &&& V230_CHANNEL_RANGE_MASK))).val ||| V230_BIT_CHANNEL_ENABLE)
      else u16 ((filter &&& V230_CHANNEL_FILTER_MASK) |||
          (range &&& V230_CHANNEL_RANGE_MASK))), _,
    by simp only [v230_set_channel_config, hc', if_false], rfl, by simp [Bus.write],
    ctl_word_val range filter enable, ?_, hframe _,
    fun c2 h2 => hframe _ _ (by simpa using h2), hget _⟩
  rw [ctl_word_val range filter enable, or_and_right, or_and_right,
    and_and_zero _ _ _ (by decide), and_and_zero _ _ _ (by decide)]
  cases enable <;> rfl

/-- C17 witness: setting channel 12 leaves channel 13 and the mode register alone. -/
theorem v230_set_channel_config_frame_witness :
    ∃ (b : Bus V230Reg),
      v230_set_channel_config (some ⟨fun _ => 0x21, []⟩) 12
        ⟨V230_CHANNEL_RANGE_3, V230_CHANNEL_FILTER_NONE, true⟩ = (0, some b) ∧
      b.mem (V230Reg.ctl 13) = 0x21 ∧ b.mem V230Reg.mode = 0x21 := by
  obtain ⟨b, v, h1, _, _, _, _, h6, h7, _⟩ :=
    v230_set_channel_config_frame ⟨fun _ => 0x21, []⟩ 12
      ⟨V230_CHANNEL_RANGE_3, V230_CHANNEL_FILTER_NONE, true⟩ (by decide)
  exact ⟨b, h1, h7 13 (by decide), h6 V230Reg.mode (by decide)⟩

/-! ## Register map layout -/

/-- C18: laid out as packed consecutive 16-bit members in declaration order,
the three register maps have total sizes 0x20 (V210), 0x200 (V230) and 0x200
(V280) bytes, and every offset checked by a `static_assert` holds. -/
theorem register_map_layout :
    (Layout.sizeof v210_registers = 0x20 ∧
      Layout.offsetof v210_registers "vxi_mfr" = some 0x04 ∧
      Layout.offsetof v210_registers "ctl" = some 0x10 ∧
      Layout.offsetof v210_registers "rcon" = some 0x18) ∧
    (Layout.sizeof v230_registers = 0x200 ∧
      Layout.offsetof v230_registers "serial" = some 0x006 ∧
      Layout.offsetof v230_registers "relays" = some 0x016 ∧
      Layout.offsetof v230_registers "macro" = some 0x020 ∧
      Layout.offsetof v230_registers "ycal" = some 0x028 ∧
      Layout.offsetof v230_registers "ctl" = some 0x080 ∧
      Layout.offsetof v230_registers "rdat" = some 0x100 ∧
      Layout.offsetof v230_registers "bist" = some 0x180 ∧
      Layout.offsetof v230_registers "perr" = some 0x1E0 ∧
      Layout.offsetof v230_registers "utest" = some 0x1FC) ∧
    (Layout.sizeof v280_registers = 0x200 ∧
      Layout.offsetof v280_registers "uled" = some 0x18 ∧
      Layout.offsetof v280_registers "macro" = some 0x20 ∧
      Layout.offsetof v280_registers "state" = some 0x30 ∧
      Layout.offsetof v280_registers "rise" = some 0x38 ∧
      Layout.offsetof v280_registers "fall" = some 0x40 ∧
      Layout.offsetof v280_registers "err" = some 0x48 ∧
      Layout.offsetof v280_registers "buf" = some 0x100) := by
  refine ⟨⟨?_, ?_, ?_, ?_⟩, ⟨?_, ?_, ?_, ?_, ?_, ?_, ?_, ?_, ?_, ?_⟩,
    ⟨?_, ?_, ?_, ?_, ?_, ?_, ?_, ?_⟩⟩ <;> decide

/-! ## V280 input states and BIST error flags -/

theorem range3 : List.range 3 = [0, 1, 2] := by decide

theorem concat3 (a b c : U16) :
    u64 ((u64 ((u64 (0 <<< 16) ||| a.val) <<< 16) ||| b.val) <<< 16) ||| c.val
      = a.val * 2 ^ 32 + b.val * 2 ^ 16 + c.val := by
  have ha := a.isLt
  have hb := b.isLt
  have hc := c.isLt
  rw [shl16_or _ _ ha, shl16_or _ _ hb, shl16_or _ _ hc]
  omega

/-- C19: for every content of the registers, `v280_get_input_states` returns 0
and the value `state[0] * 2^32 + state[1] * 2^16 + state[2]`, which is below
2^48; `v280_get_bist_error_flags` returns the same combination of `err[0]`,
`err[1]`, `err[2]`. -/
theorem v280_get_48bit_values (regs : Bus V280Reg) (old : Nat) :
    (v280_get_input_states (some regs) old).1 = 0 ∧
    (v280_get_input_states (some regs) old).2.1 =
      (regs.mem (V280Reg.state 0)).val * 2 ^ 32 + (regs.mem (V280Reg.state 1)).val * 2 ^ 16
        + (regs.mem (V280Reg.state 2)).val ∧
    (v280_get_input_states (some regs) old).2.1 < 2 ^ 48 ∧
    (v280_get_bist_error_flags (some regs) old).1 = 0 ∧
    (v280_get_bist_error_flags (some regs) old).2.1 =
      (regs.mem (V280Reg.err 0)).val * 2 ^ 32 + (regs.mem (V280Reg.err 1)).val * 2 ^ 16
        + (regs.mem (V280Reg.err 2)).val ∧
    (v280_get_bist_error_flags (some regs) old).2.1 < 2 ^ 48 := by
  have hs : (v280_get_input_states (some regs) old).2.1 =
      (regs.mem (V280Reg.state 0)).val * 2 ^ 32 + (regs.mem (V280Reg.state 1)).val * 2 ^ 16
        + (regs.mem (V280Reg.state 2)).val := by
    simp only [v280_get_input_states, range3, List.foldl, v280_get_input_states_body,
      Bus.read, show V280_CHANNELS_PER_REGISTER = 16 from rfl]
    exact concat3 _ _ _
  have he : (v280_get_bist_error_flags (some regs) old).2.1 =
      (regs.mem (V280Reg.err 0)).val * 2 ^ 32 + (regs.mem (V280Reg.err 1)).val * 2 ^ 16
        + (regs.mem (V280Reg.err 2)).val := by
    simp only [v280_get_bist_error_flags, range3, List.foldl, v280_get_bist_error_flags_body,
      Bus.read, show V280_CHANNELS_PER_REGISTER = 16 from rfl]
    exact concat3 _ _ _
  refine ⟨rfl, hs, ?_, rfl, he, ?_⟩
  · rw [hs]
    have h0 := (regs.mem (V280Reg.state 0)).isLt
    have h1 := (regs.mem (V280Reg.state 1)).isLt
    have h2 := (regs.mem (V280Reg.state 2)).isLt
    omega
  · rw [he]
    have h0 := (regs.mem (V280Reg.err 0)).isLt
    have h1 := (regs.mem (V280Reg.err 1)).isLt
    have h2 := (regs.mem (V280Reg.err 2)).isLt
    omega

/-! ## Region release -/

/-- C20 fails on the code for a null region: `v230_delete_region` evaluates
`v230_region->udata` before it compares the region with NULL, so a call with
NULL dereferences the null pointer (`v210_delete_region` and
`v280_delete_region` test first and release nothing). With a non-null region it
releases the channel-data buffer, when present, and then the region, each
exactly once. -/
theorem v230_delete_region_null_deref :
    v230_delete_region none = Exec.null_deref ∧
    v210_delete_region none = Exec.done [] ∧
    v280_delete_region none = Exec.done [] ∧
    (∀ addr buf : Nat,
      v230_delete_region (some ⟨addr, some buf⟩) = Exec.done [buf, addr]) ∧
    (∀ addr : Nat, v230_delete_region (some ⟨addr, none⟩) = Exec.done [addr]) :=
  ⟨rfl, rfl, rfl, fun _ _ => rfl, fun _ => rfl⟩

/-! ## Region creation -/

/-- C21: for each module, when the address validator rejects the address/mode
pair (returns a negative value), `add_region` returns NULL and makes no library
call at all: no `malloc`, hence no region object, and no call of
`v120_add_vme_region`. The validator is a function of its two arguments only. -/
theorem add_region_rejected (L : V120Modes) (G : V120RegionFlags) (env : AddRegionEnv)
    (hV120 : Option Nat) (vme_addr addr_mode : Nat) (name : String) :
    (v210_validate_address_and_mode L addr_mode vme_addr < 0 →
      v210_add_region L G env hV120 vme_addr addr_mode name = (none, [])) ∧
    (v230_validate_address_and_mode L vme_addr addr_mode < 0 →
      v230_add_region L G env hV120 vme_addr addr_mode name = (none, [])) ∧
    (v280_validate_address_and_mode L vme_addr addr_mode < 0 →
      v280_add_region L G env hV120 vme_addr addr_mode name = (none, [])) := by
  refine ⟨fun h => ?_, fun h => ?_, fun h => ?_⟩
  · simp only [v210_add_region, h, if_true]
  · simp only [v230_add_region, h, if_true]
  · simp only [v280_add_region, h, if_true]

/-- C21 witness: A16 mode with address 0xFFE1 is rejected by all three
validators, even when both allocations and the bus library would succeed. -/
theorem add_region_rejected_witness :
    v210_add_region ⟨0, 1⟩ ⟨2, 4, 8, 16⟩ ⟨some 100, some 200, true⟩ (some 1) 0xFFE1 0 "v210"
      = (none, []) ∧
    v230_add_region ⟨0, 1⟩ ⟨2, 4, 8, 16⟩ ⟨some 100, some 200, true⟩ (some 1) 0xFFE1 0 "v230"
      = (none, []) ∧
    v280_add_region ⟨0, 1⟩ ⟨2, 4, 8, 16⟩ ⟨some 100, some 200, true⟩ (some 1) 0xFFE1 0 "v280"
      = (none, []) :=
  ⟨(add_region_rejected ⟨0, 1⟩ ⟨2, 4, 8, 16⟩ ⟨some 100, some 200, true⟩ (some 1) 0xFFE1 0
      "v210").1 (by decide),
   (add_region_rejected ⟨0, 1⟩ ⟨2, 4, 8, 16⟩ ⟨some 100, some 200, true⟩ (some 1) 0xFFE1 0
      "v230").2.1 (by decide),
   (add_region_rejected ⟨0, 1⟩ ⟨2, 4, 8, 16⟩ ⟨some 100, some 200, true⟩ (some 1) 0xFFE1 0
      "v280").2.2 (by decide)⟩

/-! ## Bit flags in 16-bit registers -/

theorem and_two_pow_zero (x k : Nat) : x &&& 2 ^ k = 0 ↔ x.testBit k = false := by
  have h : x &&& 2 ^ k = if x.testBit k = true then 2 ^ k else 0 := by
    apply Nat.eq_of_testBit_eq
    intro j
    rw [Nat.testBit_and, Nat.testBit_two_pow]
    by_cases hx : x.testBit k = true
    · rw [if_pos hx, Nat.testBit_two_pow]
      by_cases hj : k = j
      · subst hj; simp [hx]
      · simp [hj]
    · rw [if_neg hx]
      by_cases hj : k = j
      · subst hj; simp [hx]
      · simp [hj]
  rw [h]
  have hp : 2 ^ k ≠ 0 := Nat.pos_iff_ne_zero.mp (Nat.two_pow_pos k)
  cases x.testBit k <;> simp [hp]

theorem testBit_high_false (x i : Nat) (hx : x < 2 ^ 16) (hi : 16 ≤ i) :
    x.testBit i = false :=
  Nat.testBit_lt_two_pow (lt_of_lt_of_le hx (Nat.pow_le_pow_right (by decide) hi))

theorem and_cnot_testBit (x m i : Nat) (hx : x < 2 ^ 16) (hm : m < 2 ^ 16) :
    (x &&& c_not m).testBit i = (x.testBit i && !m.testBit i) := by
  have hm32 : m < 2 ^ 32 := lt_trans hm (by decide)
  rw [Nat.testBit_and, c_not, Nat.testBit_two_pow_sub_succ hm32]
  by_cases hi : i < 32
  · simp [hi]
  · rw [testBit_high_false x i hx (by omega)]; simp

theorem and_cnot_eq (x m : Nat) (hx : x < 2 ^ 16) (hm : m < 2 ^ 16) :
    x &&& c_not m = x &&& (0xFFFF - m) := by
  apply Nat.eq_of_testBit_eq
  intro i
  rw [and_cnot_testBit x m i hx hm, Nat.testBit_and,
    show (0xFFFF : Nat) - m = 2 ^ 16 - (m + 1) by omega, Nat.testBit_two_pow_sub_succ hm]
  by_cases hi : i < 16
  · simp [hi]
  · rw [testBit_high_false x i hx (by omega)]; simp

theorem u16_and (x y : Nat) (hx : x < 65536) : (u16 (x &&& y)).val = x &&& y :=
  Nat.mod_eq_of_lt (lt_of_le_of_lt Nat.and_le_left hx)

theorem u16_or (x y : Nat) (hx : x < 65536) (hy : y < 65536) : (u16 (x ||| y)).val = x ||| y :=
  Nat.mod_eq_of_lt (@Nat.or_lt_two_pow x y 16 hx hy)

/-! ## V210 control and status register -/

theorem pow_consts : V210_CSR_ERR_LED = 2 ^ 15 ∧ V210_CSR_P4TM = 2 ^ 14 ∧
    V210_CSR_P3TM = 2 ^ 13 ∧ V230_BIT_MODE_SLOW = 2 ^ 8 := by decide

/-- C22: the V210 error LED is active-low on CSR bit 15.
`v210_turn_off_error_led` sets CSR to (CSR OR 0x8000) and
`v210_turn_on_error_led` sets CSR to (CSR AND NOT 0x8000); both change no other
CSR bit, write no other register and leave every other register as it was.
`v210_is_error_led_on` reports true exactly when bit 15 is clear, so it reports
false after turn-off and true after turn-on. -/
theorem v210_error_led (regs : Bus V210Reg) (old : Bool) :
    ∃ boff bon : Bus V210Reg,
      v210_turn_off_error_led (some regs) = (0, some boff) ∧
      v210_turn_on_error_led (some regs) = (0, some bon) ∧
      (boff.mem V210Reg.csr).val = (regs.mem V210Reg.csr).val ||| 0x8000 ∧
      (bon.mem V210Reg.csr).val = (regs.mem V210Reg.csr).val &&& (0xFFFF - 0x8000) ∧
      (∀ i, i ≠ 15 →
        (boff.mem V210Reg.csr).val.testBit i = (regs.mem V210Reg.csr).val.testBit i ∧
        (bon.mem V210Reg.csr).val.testBit i = (regs.mem V210Reg.csr).val.testBit i) ∧
      (boff.mem V210Reg.csr).val.testBit 15 = true ∧
      (bon.mem V210Reg.csr).val.testBit 15 = false ∧
      (∀ r, r ≠ V210Reg.csr → boff.mem r = regs.mem r ∧ bon.mem r = regs.mem r) ∧
      writesOf boff.trace = writesOf regs.trace ++ [(V210Reg.csr, boff.mem V210Reg.csr)] ∧
      writesOf bon.trace = writesOf regs.trace ++ [(V210Reg.csr, bon.mem V210Reg.csr)] ∧
      (v210_is_error_led_on (some regs) old).2.1
        = !((regs.mem V210Reg.csr).val.testBit 15) ∧
      (v210_is_error_led_on (some boff) old).2.1 = false ∧
      (v210_is_error_led_on (some bon) old).2.1 = true := by
  have hx : (regs.mem V210Reg.csr).val < 2 ^ 16 := (regs.mem V210Reg.csr).isLt
  have hoff : (u16 ((regs.mem V210Reg.csr).val ||| V210_CSR_ERR_LED)).val
      = (regs.mem V210Reg.csr).val ||| 2 ^ 15 := by
    rw [pow_consts.1]; exact u16_or _ _ hx (by decide)
  have hon : (u16 ((regs.mem V210Reg.csr).val &&& c_not V210_CSR_ERR_LED)).val
      = (regs.mem V210Reg.csr).val &&& c_not (2 ^ 15) := by
    rw [pow_consts.1]; exact u16_and _ _ hx
  have hled : ∀ (b : Bus V210Reg), (v210_is_error_led_on (some b) old).2.1
      = !((b.mem V210Reg.csr).val.testBit 15) := by
    intro b
    simp only [v210_is_error_led_on, Bus.read, pow_consts.1, and_two_pow_zero]
    cases (b.mem V210Reg.csr).val.testBit 15 <;> simp
  have hboff : ((regs.read V210Reg.csr).2.write V210Reg.csr
      (u16 ((regs.mem V210Reg.csr).val ||| V210_CSR_ERR_LED))).mem V210Reg.csr
      = u16 ((regs.mem V210Reg.csr).val ||| V210_CSR_ERR_LED) := by simp [Bus.write]
  have hbon : ((regs.read V210Reg.csr).2.write V210Reg.csr
      (u16 ((regs.mem V210Reg.csr).val &&& c_not V210_CSR_ERR_LED))).mem V210Reg.csr
      = u16 ((regs.mem V210Reg.csr).val &&& c_not V210_CSR_ERR_LED) := by simp [Bus.write]
  refine ⟨(regs.read V210Reg.csr).2.write V210Reg.csr
      (u16 ((regs.mem V210Reg.csr).val ||| V210_CSR_ERR_LED)),
    (regs.read V210Reg.csr).2.write V210Reg.csr
      (u16 ((regs.mem V210Reg.csr).val &&& c_not V210_CSR_ERR_LED)),
    rfl, rfl, ?_, ?_, ?_, ?_, ?_, ?_, ?_, ?_, hled regs, ?_, ?_⟩
  · rw [hboff, hoff]; rfl
  · rw [hbon, hon, and_cnot_eq _ _ hx (by decide)]; rfl
  · intro i hi
    rw [hboff, hoff, hbon, hon, Nat.testBit_or, Nat.testBit_two_pow,
      and_cnot_testBit _ _ _ hx (by decide), Nat.testBit_two_pow]
    have : ¬ (15 = i) := fun h => hi h.symm
    simp [this]
  · rw [hboff, hoff, Nat.testBit_or, Nat.testBit_two_pow]; simp
  · rw [hbon, hon, and_cnot_testBit _ _ _ hx (by decide), Nat.testBit_two_pow]; simp
  · intro r hr; simp [Bus.write, Bus.read, hr]
  · simp [Bus.write, Bus.read, writesOf_append, writesOf]
  · simp [Bus.write, Bus.read, writesOf_append, writesOf]
  · rw [hled, hboff, hoff, Nat.testBit_or, Nat.testBit_two_pow]; simp
  · rw [hled, hbon, hon, and_cnot_testBit _ _ _ hx (by decide), Nat.testBit_two_pow]; simp

/-- C23: `v210_enable_relay_drivers` sets CSR bits 14 (P4TM) and 13 (P3TM) and
`v210_disable_relay_drivers` clears both; every other CSR bit (bit 15, the
error LED, included) and every other register is unchanged, and only the CSR is
written. Afterwards `v210_is_p4tm_driver_enabled` and
`v210_is_p3tm_driver_enabled` both report enabled, respectively disabled. -/
theorem v210_relay_drivers (regs : Bus V210Reg) (old : Bool) :
    ∃ ben bdis : Bus V210Reg,
      v210_enable_relay_drivers (some regs) = (0, some ben) ∧
      v210_disable_relay_drivers (some regs) = (0, some bdis) ∧
      (ben.mem V210Reg.csr).val.testBit 14 = true ∧
      (ben.mem V210Reg.csr).val.testBit 13 = true ∧
      (bdis.mem V210Reg.csr).val.testBit 14 = false ∧
      (bdis.mem V210Reg.csr).val.testBit 13 = false ∧
      (∀ i, i ≠ 14 → i ≠ 13 →
        (ben.mem V210Reg.csr).val.testBit i = (regs.mem V210Reg.csr).val.testBit i ∧
        (bdis.mem V210Reg.csr).val.testBit i = (regs.mem V210Reg.csr).val.testBit i) ∧
      (∀ r, r ≠ V210Reg.csr → ben.mem r = regs.mem r ∧ bdis.mem r = regs.mem r) ∧
      writesOf ben.trace = writesOf regs.trace ++ [(V210Reg.csr, ben.mem V210Reg.csr)] ∧
      writesOf bdis.trace = writesOf regs.trace ++ [(V210Reg.csr, bdis.mem V210Reg.csr)] ∧
      (v210_is_p4tm_driver_enabled (some ben) old).2.1 = true ∧
      (v210_is_p3tm_driver_enabled (some ben) old).2.1 = true ∧
      (v210_is_p4tm_driver_enabled (some bdis) old).2.1 = false ∧
      (v210_is_p3tm_driver_enabled (some bdis) old).2.1 = false := by
  have hx : (regs.mem V210Reg.csr).val < 2 ^ 16 := (regs.mem V210Reg.csr).isLt
  have hm : (2 ^ 14 ||| 2 ^ 13 : Nat) < 2 ^ 16 := by decide
  have hen : (u16 ((regs.mem V210Reg.csr).val ||| (V210_CSR_P4TM ||| V210_CSR_P3TM))).val
      = (regs.mem V210Reg.csr).val ||| (2 ^ 14 ||| 2 ^ 13) := by
    rw [pow_consts.2.1, pow_consts.2.2.1]; exact u16_or _ _ hx hm
  have hdis : (u16 ((regs.mem V210Reg.csr).val &&& c_not (V210_CSR_P4TM ||| V210_CSR_P3TM))).val
      = (regs.mem V210Reg.csr).val &&& c_not (2 ^ 14 ||| 2 ^ 13) := by
    rw [pow_consts.2.1, pow_consts.2.2.1]; exact u16_and _ _ hx
  have h4 : ∀ (b : Bus V210Reg), (v210_is_p4tm_driver_enabled (some b) old).2.1
      = (b.mem V210Reg.csr).val.testBit 14 := by
    intro b
    simp only [v210_is_p4tm_driver_enabled, Bus.read, pow_consts.2.1, ne_eq, and_two_pow_zero]
    cases (b.mem V210Reg.csr).val.testBit 14 <;> simp
  have h3 : ∀ (b : Bus V210Reg), (v210_is_p3tm_driver_enabled (some b) old).2.1
      = (b.mem V210Reg.csr).val.testBit 13 := by
    intro b
    simp only [v210_is_p3tm_driver_enabled, Bus.read, pow_consts.2.2.1, ne_eq,
      and_two_pow_zero]
    cases (b.mem V210Reg.csr).val.testBit 13 <;> simp
  have hben : ((regs.read V210Reg.csr).2.write V210Reg.csr
      (u16 ((regs.mem V210Reg.csr).val ||| (V210_CSR_P4TM ||| V210_CSR_P3TM)))).mem V210Reg.csr
      = u16 ((regs.mem V210Reg.csr).val ||| (V210_CSR_P4TM ||| V210_CSR_P3TM)) := by
    simp [Bus.write]
  have hbdis : ((regs.read V210Reg.csr).2.write V210Reg.csr
      (u16 ((regs.mem V210Reg.csr).val &&& c_not (V210_CSR_P4TM ||| V210_CSR_P3TM)))).mem
        V210Reg.csr
      = u16 ((regs.mem V210Reg.csr).val &&& c_not (V210_CSR_P4TM ||| V210_CSR_P3TM)) := by
    simp [Bus.write]
  have ebit : ∀ i, (u16 ((regs.mem V210Reg.csr).val ||| (V210_CSR_P4TM ||| V210_CSR_P3TM))).val.testBit i
      = ((regs.mem V210Reg.csr).val.testBit i || (decide (14 = i) || decide (13 = i))) := by
    intro i
    rw [hen, Nat.testBit_or, Nat.testBit_or, Nat.testBit_two_pow, Nat.testBit_two_pow]
  have dbit : ∀ i, (u16 ((regs.mem V210Reg.csr).val &&& c_not (V210_CSR_P4TM ||| V210_CSR_P3TM))).val.testBit i
      = ((regs.mem V210Reg.csr).val.testBit i && !(decide (14 = i) || decide (13 = i))) := by
    intro i
    rw [hdis, and_cnot_testBit _ _ _ hx hm, Nat.testBit_or, Nat.testBit_two_pow,
      Nat.testBit_two_pow]
  refine ⟨(regs.read V210Reg.csr).2.write V210Reg.csr
      (u16 ((regs.mem V210Reg.csr).val ||| (V210_CSR_P4TM ||| V210_CSR_P3TM))),
    (regs.read V210Reg.csr).2.write V210Reg.csr
      (u16 ((regs.mem V210Reg.csr).val &&& c_not (V210_CSR_P4TM ||| V210_CSR_P3TM))),
    rfl, rfl, ?_, ?_, ?_, ?_, ?_, ?_, ?_, ?_, ?_, ?_, ?_, ?_⟩
  · rw [hben, ebit]; simp
  · rw [hben, ebit]; simp
  · rw [hbdis, dbit]; simp
  · rw [hbdis, dbit]; simp
  · intro i h14 h13
    have a : ¬ (14 = i) := fun h => h14 h.symm
    have b : ¬ (13 = i) := fun h => h13 h.symm
    rw [hben, ebit, hbdis, dbit]
    simp [a, b]
  · intro r hr; simp [Bus.write, Bus.read, hr]
  · simp [Bus.write, Bus.read, writesOf_append, writesOf]
  · simp [Bus.write, Bus.read, writesOf_append, writesOf]
  · rw [h4, hben, ebit]; simp
  · rw [h3, hben, ebit]; simp
  · rw [h4, hbdis, dbit]; simp
  · rw [h3, hbdis, dbit]; simp

/-! ## V230 module control -/

theorem mode_consts : V230_MODE_OFF = 0 ∧ V230_MODE_CHAN_TEST = 1 ∧ V230_MODE_BIST = 2 ∧
    V230_MODE_BOTH = 3 ∧ V230_MODE_MASK = 2 ^ 2 - 1 := by decide

theorem testBit_lt_four (m i : Nat) (hm : m < 4) (hi : 2 ≤ i) : m.testBit i = false :=
  Nat.testBit_lt_two_pow (lt_of_lt_of_le hm (Nat.pow_le_pow_right (by decide : 2 > 0) hi))

/-- C24: for each of the four operating modes, `v230_set_mode` followed by
`v230_get_mode` returns that mode, and `v230_set_mode` leaves bit 8 (slow scan)
and every other bit above 1:0 of the mode register unchanged.
`v230_set_scan_speed_slow` sets and `v230_set_scan_speed_fast` clears bit 8 and
nothing else, so the mode read by `v230_get_mode` is unchanged, and
`v230_is_scan_speed_fast` then reports false, respectively true. No register
other than the mode register changes. -/
theorem v230_mode_fields (regs : Bus V230Reg) (mode old : Nat) (oldb : Bool)
    (hm : mode ∈ [V230_MODE_OFF, V230_MODE_CHAN_TEST, V230_MODE_BIST, V230_MODE_BOTH]) :
    ∃ bm bslow bfast : Bus V230Reg,
      v230_set_mode (some regs) mode = (0, some bm) ∧
      v230_set_scan_speed_slow (some regs) = (0, some bslow) ∧
      v230_set_scan_speed_fast (some regs) = (0, some bfast) ∧
      v230_get_mode (some bm) old = (0, mode, some (bm.read V230Reg.mode).2) ∧
      (∀ i, 2 ≤ i →
        (bm.mem V230Reg.mode).val.testBit i = (regs.mem V230Reg.mode).val.testBit i) ∧
      (bslow.mem V230Reg.mode).val.testBit 8 = true ∧
      (bfast.mem V230Reg.mode).val.testBit 8 = false ∧
      (∀ i, i ≠ 8 →
        (bslow.mem V230Reg.mode).val.testBit i = (regs.mem V230Reg.mode).val.testBit i ∧
        (bfast.mem V230Reg.mode).val.testBit i = (regs.mem V230Reg.mode).val.testBit i) ∧
      (v230_get_mode (some bslow) old).2.1 = (v230_get_mode (some regs) old).2.1 ∧
      (v230_get_mode (some bfast) old).2.1 = (v230_get_mode (some regs) old).2.1 ∧
      (∀ r, r ≠ V230Reg.mode →
        bm.mem r = regs.mem r ∧ bslow.mem r = regs.mem r ∧ bfast.mem r = regs.mem r) ∧
      (v230_is_scan_speed_fast (some bslow) oldb).2.1 = false ∧
      (v230_is_scan_speed_fast (some bfast) oldb).2.1 = true := by
  have hm4 : mode < 4 := by
    simp only [List.mem_cons, List.mem_singleton, List.mem_nil_iff, or_false, mode_consts.1,
      mode_consts.2.1, mode_consts.2.2.1, mode_consts.2.2.2.1] at hm
    omega
  have hx : (regs.mem V230Reg.mode).val < 2 ^ 16 := (regs.mem V230Reg.mode).isLt
  have hy : (u16 ((regs.mem V230Reg.mode).val &&& c_not V230_MODE_MASK)).val
      = (regs.mem V230Reg.mode).val &&& c_not (2 ^ 2 - 1) := by
    rw [mode_consts.2.2.2.2]; exact u16_and _ _ hx
  have hylt : (regs.mem V230Reg.mode).val &&& c_not (2 ^ 2 - 1) < 65536 :=
    lt_of_le_of_lt Nat.and_le_left hx
  have hmode : (u16 mode).val &&& V230_MODE_MASK = mode := by
    rw [u16_val, Nat.mod_eq_of_lt (by omega), show V230_MODE_MASK = 3 from rfl, and_three]
    exact Nat.mod_eq_of_lt hm4
  have hz : (u16 ((u16 ((regs.mem V230Reg.mode).val &&& c_not V230_MODE_MASK)).val |||
      ((u16 mode).val &&& V230_MODE_MASK))).val
      = ((regs.mem V230Reg.mode).val &&& c_not (2 ^ 2 - 1)) ||| mode := by
    rw [hy, hmode]; exact u16_or _ _ hylt (by omega)
  have zbit : ∀ i, (((regs.mem V230Reg.mode).val &&& c_not (2 ^ 2 - 1)) ||| mode).testBit i
      = (((regs.mem V230Reg.mode).val.testBit i && !decide (i < 2)) || mode.testBit i) := by
    intro i
    rw [Nat.testBit_or, and_cnot_testBit _ _ _ hx (by decide), Nat.testBit_two_pow_sub_one]
  have hslow : (u16 ((regs.mem V230Reg.mode).val ||| V230_BIT_MODE_SLOW)).val
      = (regs.mem V230Reg.mode).val ||| 2 ^ 8 := by
    rw [pow_consts.2.2.2]; exact u16_or _ _ hx (by decide)
  have hfast : (u16 ((regs.mem V230Reg.mode).val &&& c_not V230_BIT_MODE_SLOW)).val
      = (regs.mem V230Reg.mode).val &&& c_not (2 ^ 8) := by
    rw [pow_consts.2.2.2]; exact u16_and _ _ hx
  have sbit : ∀ i, (u16 ((regs.mem V230Reg.mode).val ||| V230_BIT_MODE_SLOW)).val.testBit i
      = ((regs.mem V230Reg.mode).val.testBit i || decide (8 = i)) := by
    intro i; rw [hslow, Nat.testBit_or, Nat.testBit_two_pow]
  have fbit : ∀ i, (u16 ((regs.mem V230Reg.mode).val &&& c_not V230_BIT_MODE_SLOW)).val.testBit i
      = ((regs.mem V230Reg.mode).val.testBit i && !decide (8 = i)) := by
    intro i; rw [hfast, and_cnot_testBit _ _ _ hx (by decide), Nat.testBit_two_pow]
  have hget : ∀ (b : Bus V230Reg), (v230_get_mode (some b) old).2.1
      = (b.mem V230Reg.mode).val % 2 ^ 2 := by
    intro b
    simp only [v230_get_mode, Bus.read, show V230_MODE_MASK = 3 from rfl, and_three]
    rfl
  have hisfast : ∀ (b : Bus V230Reg), (v230_is_scan_speed_fast (some b) oldb).2.1
      = !((b.mem V230Reg.mode).val.testBit 8) := by
    intro b
    simp only [v230_is_scan_speed_fast, Bus.read, pow_consts.2.2.2, and_two_pow_zero]
    cases (b.mem V230Reg.mode).val.testBit 8 <;> simp
  have low_eq : ∀ a b : Nat, (∀ i, i < 2 → a.testBit i = b.testBit i) →
      a % 2 ^ 2 = b % 2 ^ 2 := by
    intro a b h
    apply Nat.eq_of_testBit_eq
    intro i
    rw [Nat.testBit_mod_two_pow, Nat.testBit_mod_two_pow]
    by_cases hi : i < 2
    · simp [hi, h i hi]
    · simp [hi]
  have hbm : ∀ v : U16, ((((regs.read V230Reg.mode).2.write V230Reg.mode
      (u16 ((regs.mem V230Reg.mode).val &&& c_not V230_MODE_MASK))).read V230Reg.mode).2.write
      V230Reg.mode v).mem V230Reg.mode = v := by
    intro v; simp [Bus.write]
  have hb1 : ∀ v : U16, ((regs.read V230Reg.mode).2.write V230Reg.mode v).mem V230Reg.mode
      = v := by
    intro v; simp [Bus.write]
  have hset : v230_set_mode (some regs) mode = (0, some
      ((((regs.read V230Reg.mode).2.write V230Reg.mode
        (u16 ((regs.mem V230Reg.mode).val &&& c_not V230_MODE_MASK))).read V230Reg.mode).2.write
        V230Reg.mode
        (u16 ((u16 ((regs.mem V230Reg.mode).val &&& c_not V230_MODE_MASK)).val |||
          ((u16 mode).val &&& V230_MODE_MASK))))) := by
    simp [v230_set_mode, Bus.read, Bus.write]
  refine ⟨_, (regs.read V230Reg.mode).2.write V230Reg.mode
      (u16 ((regs.mem V230Reg.mode).val ||| V230_BIT_MODE_SLOW)),
    (regs.read V230Reg.mode).2.write V230Reg.mode
      (u16 ((regs.mem V230Reg.mode).val &&& c_not V230_BIT_MODE_SLOW)),
    hset, rfl, rfl, ?_, ?_, ?_, ?_, ?_, ?_, ?_, ?_, ?_, ?_⟩
  · have h1 := hget ((((regs.read V230Reg.mode).2.write V230Reg.mode
        (u16 ((regs.mem V230Reg.mode).val &&& c_not V230_MODE_MASK))).read V230Reg.mode).2.write
        V230Reg.mode
        (u16 ((u16 ((regs.mem V230Reg.mode).val &&& c_not V230_MODE_MASK)).val |||
          ((u16 mode).val &&& V230_MODE_MASK))))
    rw [hbm, hz] at h1
    have h2 : (((regs.mem V230Reg.mode).val &&& c_not (2 ^ 2 - 1)) ||| mode) % 2 ^ 2 = mode := by
      rw [low_eq _ mode (fun i hi => by rw [zbit]; simp [hi])]
      exact Nat.mod_eq_of_lt hm4
    rw [h2] at h1
    simp only [v230_get_mode] at h1 ⊢
    simp only [Prod.mk.injEq, true_and, and_true]
    exact h1
  · intro i hi
    rw [hbm, hz, zbit, testBit_lt_four mode i hm4 hi]
    have : ¬ i < 2 := by omega
    simp [this]
  · rw [hb1, sbit]; simp
  · rw [hb1, fbit]; simp
  · intro i hi
    have : ¬ (8 = i) := fun h => hi h.symm
    rw [hb1, sbit, hb1, fbit]; simp [this]
  · rw [hget, hget, hb1]
    exact low_eq _ _ (fun i hi => by
      rw [sbit]
      have : ¬ (8 = i) := by omega
      simp [this])
  · rw [hget, hget, hb1]
    exact low_eq _ _ (fun i hi => by
      rw [fbit]
      have : ¬ (8 = i) := by omega
      simp [this])
  · intro r hr; simp [Bus.write, Bus.read, hr]
  · rw [hisfast, hb1, sbit]; simp
  · rw [hisfast, hb1, fbit]; simp

/-- C24 witness: mode register 0x0101 (slow scan, CHAN_TEST); setting BIST reads
back BIST and keeps bit 8. -/
theorem v230_mode_fields_witness :
    ∃ bm : Bus V230Reg,
      v230_set_mode (some ⟨fun _ => 0x0101, []⟩) V230_MODE_BIST = (0, some bm) ∧
      (v230_get_mode (some bm) 0).2.1 = V230_MODE_BIST ∧
      (bm.mem V230Reg.mode).val.testBit 8 = true := by
  obtain ⟨bm, _, _, h1, _, _, h4, h5, _⟩ :=
    v230_mode_fields ⟨fun _ => 0x0101, []⟩ V230_MODE_BIST 0 false (by decide)
  exact ⟨bm, h1, by rw [h4], by rw [h5 8 (by decide)]; decide⟩

/-! ## V230 relay and BIST mux control -/

theorem range8 : List.range 8 = [0, 1, 2, 3, 4, 5, 6, 7] := by decide

theorem ite_pow_testBit (b : Bool) (k i : Nat) :
    (if b = true then 2 ^ k else 0).testBit i = (b && decide (k = i)) := by
  cases b
  · simp
  · simp [Nat.testBit_two_pow]

theorem ite_pow_lt (b : Bool) (k : Nat) (hk : k < 16) :
    (if b = true then 2 ^ k else 0) < 65536 := by
  cases b
  · simp
  · simp only [if_true]
    exact Nat.pow_lt_pow_right (by decide : 1 < 2) hk

theorem relay_body_val (cfg : v230_relay_config_t) (w : U16) (n : Nat) (hn : n < 8) :
    (v230_set_relay_config_body cfg w n).val
      = w.val ||| (if cfg.b_relays n = true then 2 ^ (8 + n) else 0) := by
  unfold v230_set_relay_config_body
  cases h : cfg.b_relays n
  · simp
  · simp only [if_true, V230_BIT_RELAY_B, Nat.one_shiftLeft]
    exact u16_or _ _ w.isLt
      (show 2 ^ (8 + n) < 2 ^ 16 from Nat.pow_lt_pow_right (by decide) (by omega))

/-- The register word written by `v230_set_relay_config`. -/
theorem relay_word (cfg : v230_relay_config_t) (hch : cfg.channel < 64) :
    ((List.range V230_B_RELAY_NUM).foldl (v230_set_relay_config_body cfg)
      (if cfg.c_relay = true then u16 ((u16 cfg.channel).val ||| V230_BIT_RELAY_C)
        else u16 cfg.channel)).val
      = cfg.channel ||| (if cfg.c_relay = true then 2 ^ 7 else 0)
        ||| (if cfg.b_relays 0 = true then 2 ^ (8 + 0) else 0)
        ||| (if cfg.b_relays 1 = true then 2 ^ (8 + 1) else 0)
        ||| (if cfg.b_relays 2 = true then 2 ^ (8 + 2) else 0)
        ||| (if cfg.b_relays 3 = true then 2 ^ (8 + 3) else 0)
        ||| (if cfg.b_relays 4 = true then 2 ^ (8 + 4) else 0)
        ||| (if cfg.b_relays 5 = true then 2 ^ (8 + 5) else 0)
        ||| (if cfg.b_relays 6 = true then 2 ^ (8 + 6) else 0)
        ||| (if cfg.b_relays 7 = true then 2 ^ (8 + 7) else 0) := by
  have h0 : (u16 cfg.channel).val = cfg.channel := Nat.mod_eq_of_lt (by omega)
  have hc : (if cfg.c_relay = true then u16 ((u16 cfg.channel).val ||| V230_BIT_RELAY_C)
      else u16 cfg.channel).val = cfg.channel ||| (if cfg.c_relay = true then 2 ^ 7 else 0) := by
    cases cfg.c_relay
    · simp [h0]
      omega
    · simp only [if_true, h0, show V230_BIT_RELAY_C = 2 ^ 7 from rfl]
      exact u16_or _ _ (by omega) (by decide)
  simp only [show V230_B_RELAY_NUM = 8 from rfl, range8, List.foldl]
  rw [relay_body_val _ _ 7 (by decide), relay_body_val _ _ 6 (by decide),
    relay_body_val _ _ 5 (by decide), relay_body_val _ _ 4 (by decide),
    relay_body_val _ _ 3 (by decide), relay_body_val _ _ 2 (by decide),
    relay_body_val _ _ 1 (by decide), relay_body_val _ _ 0 (by decide), hc]

theorem relay_word_testBit (cfg : v230_relay_config_t) (hch : cfg.channel < 64) (i : Nat) :
    (((List.range V230_B_RELAY_NUM).foldl (v230_set_relay_config_body cfg)
      (if cfg.c_relay = true then u16 ((u16 cfg.channel).val ||| V230_BIT_RELAY_C)
        else u16 cfg.channel)).val).testBit i
      = (cfg.channel.testBit i || (cfg.c_relay && decide (7 = i))
        || (cfg.b_relays 0 && decide (8 + 0 = i)) || (cfg.b_relays 1 && decide (8 + 1 = i))
        || (cfg.b_relays 2 && decide (8 + 2 = i)) || (cfg.b_relays 3 && decide (8 + 3 = i))
        || (cfg.b_relays 4 && decide (8 + 4 = i)) || (cfg.b_relays 5 && decide (8 + 5 = i))
        || (cfg.b_relays 6 && decide (8 + 6 = i)) || (cfg.b_relays 7 && decide (8 + 7 = i))) := by
  rw [relay_word cfg hch]
  simp only [Nat.testBit_or, ite_pow_testBit]

theorem channel_testBit_high (ch i : Nat) (hch : ch < 64) (hi : 6 ≤ i) : ch.testBit i = false :=
  Nat.testBit_lt_two_pow (lt_of_lt_of_le hch (Nat.pow_le_pow_right (by decide : 2 > 0) hi))

theorem test_ne_zero (x k : Nat) : decide ((x &&& 2 ^ k) ≠ 0) = x.testBit k := by
  have := and_two_pow_zero x k
  cases hx : x.testBit k
  · simp [this.2 hx]
  · have h' : ¬ (x &&& 2 ^ k = 0) := fun h0 => by
      have := this.1 h0; rw [hx] at this; exact Bool.noConfusion this
    simp [h']

/-- What `v230_get_relay_config` decodes from the relays register. -/
theorem v230_get_relay_config_bits (b : Bus V230Reg) (old : v230_relay_config_t) :
    (v230_get_relay_config (some b) old).1 = 0 ∧
    (v230_get_relay_config (some b) old).2.1.channel = (b.mem V230Reg.relays).val % 2 ^ 6 ∧
    (v230_get_relay_config (some b) old).2.1.c_relay = (b.mem V230Reg.relays).val.testBit 7 ∧
    (∀ n, n < 8 → (v230_get_relay_config (some b) old).2.1.b_relays n
      = (b.mem V230Reg.relays).val.testBit (8 + n)) := by
  refine ⟨rfl, ?_, ?_, ?_⟩
  · simp only [v230_get_relay_config, Bus.read, show V230_RELAY_K_MASK = 2 ^ 6 - 1 from rfl,
      Nat.and_pow_two_sub_one_eq_mod]
  · simp only [v230_get_relay_config, Bus.read, show V230_BIT_RELAY_C = 2 ^ 7 from rfl,
      test_ne_zero]
  · intro n hn
    simp only [v230_get_relay_config, Bus.read, show V230_B_RELAY_NUM = 8 from rfl, range8,
      List.foldl, V230_BIT_RELAY_B, Nat.one_shiftLeft, test_ne_zero, setRelay]
    interval_cases n <;> simp

/-- C25: for every relay configuration with channel below 64, any C-relay flag
and any eight B-relay flags, `v230_set_relay_config` writes to the relays
register the word channel OR (0x80 if c_relay) OR (1 << (8 + n) for each set
`b_relays[n]`), whose bit 6 is zero, and `v230_get_relay_config` then returns
the identical channel, C-relay flag and eight B-relay flags. -/
theorem v230_relay_config_roundtrip (regs : Bus V230Reg) (cfg old : v230_relay_config_t)
    (hch : cfg.channel < 64) :
    ∃ b : Bus V230Reg,
      v230_set_relay_config (some regs) cfg = (0, some b) ∧
      (b.mem V230Reg.relays).val
        = cfg.channel ||| (if cfg.c_relay = true then 0x80 else 0)
          ||| (if cfg.b_relays 0 = true then 1 <<< (8 + 0) else 0)
          ||| (if cfg.b_relays 1 = true then 1 <<< (8 + 1) else 0)
          ||| (if cfg.b_relays 2 = true then 1 <<< (8 + 2) else 0)
          ||| (if cfg.b_relays 3 = true then 1 <<< (8 + 3) else 0)
          ||| (if cfg.b_relays 4 = true then 1 <<< (8 + 4) else 0)
          ||| (if cfg.b_relays 5 = true then 1 <<< (8 + 5) else 0)
          ||| (if cfg.b_relays 6 = true then 1 <<< (8 + 6) else 0)
          ||| (if cfg.b_relays 7 = true then 1 <<< (8 + 7) else 0) ∧
      (b.mem V230Reg.relays).val.testBit 6 = false ∧
      (v230_get_relay_config (some b) old).1 = 0 ∧
      (v230_get_relay_config (some b) old).2.1.channel = cfg.channel ∧
      (v230_get_relay_config (some b) old).2.1.c_relay = cfg.c_relay ∧
      (∀ n, n < 8 →
        (v230_get_relay_config (some b) old).2.1.b_relays n = cfg.b_relays n) := by
  have hc : ¬ cfg.channel ≥ V230_NUM_CHANNELS := by simp [V230_NUM_CHANNELS]; omega
  have hset : v230_set_relay_config (some regs) cfg = (0, some (regs.write V230Reg.relays
      ((List.range V230_B_RELAY_NUM).foldl (v230_set_relay_config_body cfg)
        (if cfg.c_relay = true then u16 ((u16 cfg.channel).val ||| V230_BIT_RELAY_C)
          else u16 cfg.channel)))) := by
    simp only [v230_set_relay_config, hc, if_false]
  have hmem : (regs.write V230Reg.relays
      ((List.range V230_B_RELAY_NUM).foldl (v230_set_relay_config_body cfg)
        (if cfg.c_relay = true then u16 ((u16 cfg.channel).val ||| V230_BIT_RELAY_C)
          else u16 cfg.channel))).mem V230Reg.relays
      = (List.range V230_B_RELAY_NUM).foldl (v230_set_relay_config_body cfg)
        (if cfg.c_relay = true then u16 ((u16 cfg.channel).val ||| V230_BIT_RELAY_C)
          else u16 cfg.channel) := by
    simp [Bus.write]
  have hbit := relay_word_testBit cfg hch
  have hget := v230_get_relay_config_bits (regs.write V230Reg.relays
      ((List.range V230_B_RELAY_NUM).foldl (v230_set_relay_config_body cfg)
        (if cfg.c_relay = true then u16 ((u16 cfg.channel).val ||| V230_BIT_RELAY_C)
          else u16 cfg.channel))) old
  rw [hmem] at hget
  refine ⟨_, hset, ?_, ?_, hget.1, ?_, ?_, ?_⟩
  · rw [hmem, relay_word cfg hch]
    simp only [Nat.one_shiftLeft]
    rfl
  · rw [hmem, hbit 6, channel_testBit_high _ 6 hch (le_refl _)]
    simp
  · rw [hget.2.1]
    have hlow : ∀ a c : Nat, (∀ i, i < 6 → a.testBit i = c.testBit i) →
        a % 2 ^ 6 = c % 2 ^ 6 := by
      intro a c h
      apply Nat.eq_of_testBit_eq
      intro i
      rw [Nat.testBit_mod_two_pow, Nat.testBit_mod_two_pow]
      by_cases hi : i < 6
      · simp [hi, h i hi]
      · simp [hi]
    rw [hlow _ cfg.channel (fun i hi => by
      rw [hbit i]
      have e7 : ¬ (7 = i) := by omega
      have e0 : ¬ (8 + 0 = i) := by omega
      have e1 : ¬ (8 + 1 = i) := by omega
      have e2 : ¬ (8 + 2 = i) := by omega
      have e3 : ¬ (8 + 3 = i) := by omega
      have e4 : ¬ (8 + 4 = i) := by omega
      have e5 : ¬ (8 + 5 = i) := by omega
      have e6 : ¬ (8 + 6 = i) := by omega
      have e8 : ¬ (8 + 7 = i) := by omega
      simp [e7, e0, e1, e2, e3, e4, e5, e6, e8])]
    exact Nat.mod_eq_of_lt hch
  · rw [hget.2.2.1, hbit 7, channel_testBit_high _ 7 hch (by decide)]
    simp
  · intro n hn
    rw [hget.2.2.2 n hn, hbit (8 + n), channel_testBit_high _ (8 + n) hch (by omega)]
    interval_cases n <;> simp

/-- C25 witness: channel 12, C relay on, only B relay 3 on. -/
theorem v230_relay_config_roundtrip_witness :
    ∃ b : Bus V230Reg,
      v230_set_relay_config (some ⟨fun _ => 0, []⟩) ⟨12, true, fun n => decide (n = 3)⟩
        = (0, some b) ∧
      (v230_get_relay_config (some b) ⟨0, false, fun _ => false⟩).2.1.channel = 12 ∧
      (v230_get_relay_config (some b) ⟨0, false, fun _ => false⟩).2.1.c_relay = true ∧
      (v230_get_relay_config (some b) ⟨0, false, fun _ => false⟩).2.1.b_relays 3 = true := by
  obtain ⟨b, h1, _, _, _, h5, h6, h7⟩ :=
    v230_relay_config_roundtrip ⟨fun _ => 0, []⟩ ⟨12, true, fun n => decide (n = 3)⟩
      ⟨0, false, fun _ => false⟩ (by decide)
  exact ⟨b, h1, h5, h6, by rw [h7 3 (by decide)]; decide⟩

theorem bmux_word (p n : Nat) (hp : p < 8) (hn : n < 8) :
    (u16 (V230_BIT_BMUX_HIGH (u16 p).val ||| V230_BIT_BMUX_LOW (u16 n).val)).val
      = (p <<< 4) ||| n ∧
    ((p <<< 4) ||| n) &&& 0xFF88 = 0 ∧
    (((p <<< 4) ||| n) &&& V230_BMUX_MASK_HIGH) >>> V230_BMUX_SHIFT_HIGH = p ∧
    ((p <<< 4) ||| n) &&& V230_BMUX_MASK_LOW = n := by
  interval_cases p <;> interval_cases n <;> decide

/-- C26: for every pair of BMUX sources `cal_pos`, `cal_neg` in 0..7,
`v230_set_bmux_config` writes (cal_pos << 4) OR cal_neg to the bmux register,
a word whose bits outside 6:4 and 2:0 are zero, changes no other register, and
`v230_get_bmux_config` then returns the same pair. -/
theorem v230_bmux_roundtrip (regs : Bus V230Reg) (cfg old : v230_bmux_t)
    (hp : cfg.cal_pos < 8) (hn : cfg.cal_neg < 8) :
    ∃ b : Bus V230Reg,
      v230_set_bmux_config (some regs) cfg = (0, some b) ∧
      (b.mem V230Reg.bmux).val = (cfg.cal_pos <<< 4) ||| cfg.cal_neg ∧
      (b.mem V230Reg.bmux).val &&& 0xFF88 = 0 ∧
      (∀ r, r ≠ V230Reg.bmux → b.mem r = regs.mem r) ∧
      (v230_get_bmux_config (some b) old).1 = 0 ∧
      (v230_get_bmux_config (some b) old).2.1 = cfg := by
  obtain ⟨p, n⟩ := cfg
  have hw := bmux_word p n hp hn
  have hmem : ∀ v : U16, (regs.write V230Reg.bmux v).mem V230Reg.bmux = v := by
    intro v; simp [Bus.write]
  refine ⟨regs.write V230Reg.bmux
      (u16 (V230_BIT_BMUX_HIGH (u16 p).val ||| V230_BIT_BMUX_LOW (u16 n).val)),
    rfl, ?_, ?_, ?_, rfl, ?_⟩
  · rw [hmem]; exact hw.1
  · rw [hmem, hw.1]; exact hw.2.1
  · intro r hr; simp [Bus.write, hr]
  · simp only [v230_get_bmux_config, Bus.read, hmem, hw.1, hw.2.2.1, hw.2.2.2]

/-- C26 witness: sources 5 and 2 give the register word 0x52. -/
theorem v230_bmux_roundtrip_witness :
    ∃ b : Bus V230Reg,
      v230_set_bmux_config (some ⟨fun _ => 0, []⟩) ⟨5, 2⟩ = (0, some b) ∧
      (b.mem V230Reg.bmux).val = 0x52 ∧
      (v230_get_bmux_config (some b) ⟨0, 0⟩).2.1 = ⟨5, 2⟩ := by
  obtain ⟨b, h1, h2, _, _, _, h6⟩ :=
    v230_bmux_roundtrip ⟨fun _ => 0, []⟩ ⟨5, 2⟩ ⟨0, 0⟩ (by decide) (by decide)
  exact ⟨b, h1, by rw [h2]; decide, h6⟩

/-! ## V280 debounce times -/

/-- C27: for every channel `c < 48` and every 16-bit delay `d`,
`v280_set_rise_time_delay` performs exactly one write, of `d` to `rise[c / 16]`,
so `v280_get_rise_time_delay` returns `d` for every channel of the same group
of 16, while every other register (the other groups' rise registers and all
fall registers included) is unchanged; the same holds with rise and fall
exchanged. -/
theorem v280_delay_groups (regs : Bus V280Reg) (c d old : Nat) (hc : c < 48)
    (hd : d < 65536) :
    ∃ br bf : Bus V280Reg,
      v280_set_rise_time_delay (some regs) c d = (0, some br) ∧
      v280_set_fall_time_delay (some regs) c d = (0, some bf) ∧
      br.trace = regs.trace ++ [Event.write (V280Reg.rise (c / 16)) (u16 d)] ∧
      bf.trace = regs.trace ++ [Event.write (V280Reg.fall (c / 16)) (u16 d)] ∧
      (∀ c2, c2 < 48 → c2 / 16 = c / 16 →
        (v280_get_rise_time_delay (some br) c2 old).1 = 0 ∧
        (v280_get_rise_time_delay (some br) c2 old).2.1 = d ∧
        (v280_get_fall_time_delay (some bf) c2 old).1 = 0 ∧
        (v280_get_fall_time_delay (some bf) c2 old).2.1 = d) ∧
      (∀ r, r ≠ V280Reg.rise (c / 16) → br.mem r = regs.mem r) ∧
      (∀ r, r ≠ V280Reg.fall (c / 16) → bf.mem r = regs.mem r) ∧
      (∀ g, g ≠ c / 16 → br.mem (V280Reg.rise g) = regs.mem (V280Reg.rise g) ∧
        bf.mem (V280Reg.fall g) = regs.mem (V280Reg.fall g)) ∧
      (∀ g, br.mem (V280Reg.fall g) = regs.mem (V280Reg.fall g) ∧
        bf.mem (V280Reg.rise g) = regs.mem (V280Reg.rise g)) := by
  have hc' : ¬ c ≥ V280_CHANNEL_COUNT := by simp [V280_CHANNEL_COUNT]; omega
  have hdv : (u16 d).val = d := Nat.mod_eq_of_lt hd
  refine ⟨regs.write (V280Reg.rise (c / 16)) (u16 d),
    regs.write (V280Reg.fall (c / 16)) (u16 d), ?_, ?_, rfl, rfl, ?_, ?_, ?_, ?_, ?_⟩
  · simp only [v280_set_rise_time_delay, hc', if_false]; rfl
  · simp only [v280_set_fall_time_delay, hc', if_false]; rfl
  · intro c2 h2 hg
    have h2' : ¬ c2 ≥ V280_CHANNEL_COUNT := by simp [V280_CHANNEL_COUNT]; omega
    have hg' : c2 / V280_CHANNELS_PER_REGISTER = c / 16 := hg
    simp only [v280_get_rise_time_delay, v280_get_fall_time_delay, h2', if_false, hg',
      Bus.read, Bus.write, if_true, hdv, and_self]
  · intro r hr; simp [Bus.write, hr]
  · intro r hr; simp [Bus.write, hr]
  · intro g hg; simp [Bus.write, hg]
  · intro g; simp [Bus.write]

/-- C27 witness: delay 1000 set on channel 17 is read back on channel 31. -/
theorem v280_delay_groups_witness :
    ∃ br : Bus V280Reg,
      v280_set_rise_time_delay (some ⟨fun _ => 0, []⟩) 17 1000 = (0, some br) ∧
      (v280_get_rise_time_delay (some br) 31 0).2.1 = 1000 ∧
      br.mem (V280Reg.rise 0) = 0 ∧ br.mem (V280Reg.fall 1) = 0 := by
  obtain ⟨br, _, h1, _, _, _, h5, _, _, h8, h9⟩ :=
    v280_delay_groups ⟨fun _ => 0, []⟩ 17 1000 0 (by decide) (by decide)
  exact ⟨br, h1, (h5 31 (by decide) (by decide)).2.1, (h8 0 (by decide)).1, (h9 1).1⟩

/-! ## Calibration date string -/

theorem toDigitsCore_length (k : Nat) : ∀ (fuel n : Nat) (ds : List Char), n < 10 ^ (k + 1) →
    (Nat.toDigitsCore 10 fuel n ds).length ≤ ds.length + k + 1 := by
  induction k with
  | zero =>
    intro fuel n ds hn
    cases fuel with
    | zero => simp [Nat.toDigitsCore]
    | succ f =>
      have h0 : n / 10 = 0 := by omega
      simp [Nat.toDigitsCore, h0]
  | succ k ih =>
    intro fuel n ds hn
    cases fuel with
    | zero => simp only [Nat.toDigitsCore]; omega
    | succ f =>
      simp only [Nat.toDigitsCore]
      split_ifs with h0
      · simp only [List.length_cons]; omega
      · have hlt : n / 10 < 10 ^ (k + 1) := by
          rw [Nat.div_lt_iff_lt_mul (by decide)]
          rw [Nat.pow_succ] at hn
          exact hn
        have := ih f (n / 10) (Nat.digitChar (n % 10) :: ds) hlt
        simp only [List.length_cons] at this
        omega

theorem fmt_d_length (n k : Nat) (hn : n < 10 ^ (k + 1)) : (fmt_d n).length ≤ k + 1 := by
  have := toDigitsCore_length k (n + 1) n [] hn
  simpa [fmt_d, Nat.toDigits] using this

theorem date_bytes (d : U16) : (d.val >>> 8) &&& 0xFF = d.val / 256 ∧
    d.val &&& 0xFF = d.val % 256 := by
  have hd := d.isLt
  constructor
  · rw [shr8_and_ff]; omega
  · exact Nat.and_pow_two_sub_one_eq_mod _ 8

theorem snprintf_date_fits (buf : List Char) (length : Nat) (d y : U16) (hlen : 14 ≤ length) :
    snprintf_date buf length (d.val / 256) (d.val % 256) y.val
      = (Nat.repr (d.val / 256)).toList ++ ['/'] ++ (Nat.repr (d.val % 256)).toList ++ ['/']
        ++ (Nat.repr y.val).toList := by
  have hd := d.isLt
  have hy := y.isLt
  have h1 : (fmt_d (d.val / 256)).length ≤ 3 := fmt_d_length _ 2 (by norm_num; omega)
  have h2 : (fmt_d (d.val % 256)).length ≤ 3 := fmt_d_length _ 2 (by norm_num; omega)
  have h3 : (fmt_d y.val).length ≤ 5 := fmt_d_length _ 4 (by norm_num; omega)
  have hne : length ≠ 0 := by omega
  simp only [snprintf_date, hne, if_false]
  rw [List.take_of_length_le (by simp only [List.length_append, List.length_singleton]; omega)]
  rfl

/-- C28: for every year register `y` and month/day register `d`, with a buffer
of at least 14 bytes `v230_get_cal_date` and `v280_get_cal_date` return 0 and
produce the decimal value of the high byte of `d`, then `/`, the decimal value
of the low byte of `d`, then `/`, then the decimal value of `y`. -/
theorem cal_date_string (regs : Bus V230Reg) (regs280 : Bus V280Reg) (buf : List Char)
    (length : Nat) (hlen : 14 ≤ length) :
    (v230_get_cal_date (some regs) (some buf) length).1 = 0 ∧
    (v230_get_cal_date (some regs) (some buf) length).2.1 =
      some ((Nat.repr ((regs.mem V230Reg.dcal).val / 256)).toList ++ ['/']
        ++ (Nat.repr ((regs.mem V230Reg.dcal).val % 256)).toList ++ ['/']
        ++ (Nat.repr (regs.mem V230Reg.ycal).val).toList) ∧
    (v280_get_cal_date (some regs280) (some buf) length).1 = 0 ∧
    (v280_get_cal_date (some regs280) (some buf) length).2.1 =
      some ((Nat.repr ((regs280.mem V280Reg.dcal).val / 256)).toList ++ ['/']
        ++ (Nat.repr ((regs280.mem V280Reg.dcal).val % 256)).toList ++ ['/']
        ++ (Nat.repr (regs280.mem V280Reg.ycal).val).toList) := by
  refine ⟨rfl, ?_, rfl, ?_⟩
  · simp only [v230_get_cal_date, v230_get_ycal, v230_get_dcal, Bus.read, ne_eq,
      not_true_eq_false, if_false, (date_bytes _).1, (date_bytes _).2]
    rw [snprintf_date_fits buf length _ _ hlen]
  · simp only [v280_get_cal_date, v280_get_ycal, v280_get_dcal, Bus.read, ne_eq,
      not_true_eq_false, if_false, (date_bytes _).1, (date_bytes _).2]
    rw [snprintf_date_fits buf length _ _ hlen]

/-- C28 witness: year 2024 and month/day 0x0105 with a 16-byte buffer. -/
theorem cal_date_string_witness :
    (v230_get_cal_date
      (some ⟨fun r => if r = V230Reg.ycal then 2024 else if r = V230Reg.dcal then 0x0105
        else 0, []⟩) (some []) 16).2.1 = some "1/5/2024".toList :=
  ((cal_date_string
    ⟨fun r => if r = V230Reg.ycal then 2024 else if r = V230Reg.dcal then 0x0105 else 0, []⟩
    ⟨fun _ => 0, []⟩ [] 16 (by decide)).2.1).trans (by decide)

/-! ## V230 power supply status -/

theorem perr_consts : V230_BIT_PERR_P1 = 2 ^ 0 ∧ V230_BIT_PERR_P2 = 2 ^ 1 ∧
    V230_BIT_PERR_P2_5 = 2 ^ 2 ∧ V230_BIT_PERR_P3 = 2 ^ 3 ∧ V230_BIT_PERR_P5 = 2 ^ 4 ∧
    V230_BIT_PERR_P15 = 2 ^ 5 ∧ V230_BIT_PERR_M15 = 2 ^ 6 := by decide

/-- C29: `v230_get_all_power_supply_status` returns 0 and writes no register;
for the supplies +1.2 V, +2.048 V, +2.5 V, +3.3 V, +5 V, +15 V, -15 V it
reports as error bit 0, 1, 2, 3, 4, 5, 6 of the perr register, in that order,
and as voltage the supply's own register, read as a signed 16-bit count, times
0.001 (in any arithmetic). In exact rationals raw 5000 gives 5 and raw 0xFFFF
gives -0.001. -/
theorem v230_power_supply_status {D F : Type} (A : CArith D F) (regs : Bus V230Reg)
    (old : v230_ps_all_status_t F) :
    ∃ (st : v230_ps_all_status_t F) (b : Bus V230Reg),
      v230_get_all_power_supply_status A (some regs) old = (0, st, some b) ∧
      b.mem = regs.mem ∧ writesOf b.trace = writesOf regs.trace ∧
      st.ep1.error = (regs.mem V230Reg.perr).val.testBit 0 ∧
      st.ep2.error = (regs.mem V230Reg.perr).val.testBit 1 ∧
      st.ep2_5.error = (regs.mem V230Reg.perr).val.testBit 2 ∧
      st.ep3.error = (regs.mem V230Reg.perr).val.testBit 3 ∧
      st.ep5.error = (regs.mem V230Reg.perr).val.testBit 4 ∧
      st.ep15.error = (regs.mem V230Reg.perr).val.testBit 5 ∧
      st.em15.error = (regs.mem V230Reg.perr).val.testBit 6 ∧
      st.ep1.voltage
        = A.toFloat (A.mul (A.ofInt (toInt16 (regs.mem V230Reg.ep1))) (A.lit 0.001)) ∧
      st.ep2.voltage
        = A.toFloat (A.mul (A.ofInt (toInt16 (regs.mem V230Reg.ep2))) (A.lit 0.001)) ∧
      st.ep2_5.voltage
        = A.toFloat (A.mul (A.ofInt (toInt16 (regs.mem V230Reg.ep2_5))) (A.lit 0.001)) ∧
      st.ep3.voltage
        = A.toFloat (A.mul (A.ofInt (toInt16 (regs.mem V230Reg.ep3))) (A.lit 0.001)) ∧
      st.ep5.voltage
        = A.toFloat (A.mul (A.ofInt (toInt16 (regs.mem V230Reg.ep5))) (A.lit 0.001)) ∧
      st.ep15.voltage
        = A.toFloat (A.mul (A.ofInt (toInt16 (regs.mem V230Reg.ep15))) (A.lit 0.001)) ∧
      st.em15.voltage
        = A.toFloat (A.mul (A.ofInt (toInt16 (regs.mem V230Reg.em15))) (A.lit 0.001)) ∧
      exactArith.toFloat (exactArith.mul (exactArith.ofInt (toInt16 5000))
        (exactArith.lit 0.001)) = 5 ∧
      exactArith.toFloat (exactArith.mul (exactArith.ofInt (toInt16 0xFFFF))
        (exactArith.lit 0.001)) = -0.001 := by
  simp only [v230_get_all_power_supply_status, v230_ps_entry, Bus.read, V230_VOLTAGE_SCALE,
    perr_consts.1, perr_consts.2.1, perr_consts.2.2.1, perr_consts.2.2.2.1,
    perr_consts.2.2.2.2.1, perr_consts.2.2.2.2.2.1, perr_consts.2.2.2.2.2.2, test_ne_zero]
  refine ⟨_, _, rfl, rfl, ?_, rfl, rfl, rfl, rfl, rfl, rfl, rfl,
    rfl, rfl, rfl, rfl, rfl, rfl, rfl, ?_, ?_⟩
  · simp [writesOf_append, writesOf]
  · have h : toInt16 5000 = 5000 := by decide
    rw [h]; simp only [exactArith]; norm_num
  · have h : toInt16 0xFFFF = -1 := by decide
    rw [h]; simp only [exactArith]; norm_num

/-! ## V230 block transfer -/

/-- C30: for every behaviour of the library's `v120_dma_xfr`, every handle and
every region, `v230_dma_xfr` calls `v120_dma_xfr` exactly once, with the given
handle and a descriptor `d` of byte count 256 (twice 64 words of 2 bytes), bus
address `vme_addr + 0x80` (the offset of `ctl`), host pointer `udata` and no
next descriptor, and returns -1 when that call returns a negative value and 0
otherwise. Since `ctl` is at 0x080, `rdat` at 0x100 and the next member at
0x180, the buffer entry `config[ch]` (byte offset `2 * ch`) is transferred from
the address of `ctl[ch]` and `rdata[ch]` (byte offset `128 + 2 * ch`) from that
of `rdat[ch]`, and every transferred byte lies in `ctl` or `rdat`. -/
theorem v230_dma_block (P : V120DmaFlags) (v120_dma_xfr : Option Nat → v120_dma_desc_t → Int)
    (hV120 : Option Nat) (v230_region : VME_REGION) :
    ∃ d : v120_dma_desc_t,
      (v230_dma_xfr P v120_dma_xfr hV120 v230_region).2 = [(hV120, d)] ∧
      (v230_dma_xfr P v120_dma_xfr hV120 v230_region).1 =
        (if v120_dma_xfr hV120 d < 0 then -1 else 0) ∧
      d.size = 256 ∧
      d.size = 2 * 64 + 2 * 64 ∧
      d.vme_address = v230_region.vme_addr + 0x80 ∧
      d.ptr = v230_region.udata.getD 0 ∧
      d.next = 0 ∧
      Layout.offsetof v230_registers "ctl" = some 0x080 ∧
      Layout.offsetof v230_registers "rdat" = some 0x100 ∧
      Layout.offsetof v230_registers "bist" = some 0x180 ∧
      Layout.offsetof v230_channel_data_layout "config" = some 0 ∧
      Layout.offsetof v230_channel_data_layout "rdata" = some 128 ∧
      (∀ ch : Fin 64,
        d.vme_address + (0 + 2 * ch.val) = v230_region.vme_addr + (0x080 + 2 * ch.val) ∧
        d.vme_address + (128 + 2 * ch.val) = v230_region.vme_addr + (0x100 + 2 * ch.val)) ∧
      (∀ k, k < d.size →
        v230_region.vme_addr + 0x080 ≤ d.vme_address + k ∧
        d.vme_address + k < v230_region.vme_addr + 0x180) := by
  have hs : (v230_dma_desc P v230_region).size = 256 := by
    show Layout.sizeof v230_channel_data_layout = 256
    decide
  have ha : (v230_dma_desc P v230_region).vme_address = v230_region.vme_addr + 0x80 := by
    simp only [v230_dma_desc]
    rw [show Layout.offsetof v230_registers "ctl" = some 0x80 by decide]
    rfl
  refine ⟨v230_dma_desc P v230_region, ?_, ?_, hs, hs, ha, rfl, rfl, by decide, by decide,
    by decide, by decide, by decide, ?_, ?_⟩
  · simp only [v230_dma_xfr]
    split_ifs <;> rfl
  · simp only [v230_dma_xfr]
    split_ifs <;> rfl
  · intro ch
    rw [ha]; constructor <;> omega
  · intro k hk
    rw [hs] at hk
    rw [ha]; constructor <;> omega

/-! ## Reboot, no-op and polling behaviour -/

/-- C31: with the busy bit of the macro register clear,
`v230_execute_macro` with `V230_MACRO_REBOOT` returns 0 and its bus activity is
exactly: the busy check (one read of the macro register), the write of 0x8407 to
the macro register, and a delay of 6 seconds. The delay is the last event, so
the macro register is not read after the write. -/
theorem v230_reboot_fixed_delay (v230_2 : Bool) (regs : Bus V230Reg)
    (hi : (regs.mem V230Reg.macro_reg).val.testBit 15 = false) :
    ∃ (b : Bus V230Reg) (after : List (Event V230Reg)),
      v230_execute_macro v230_2 (some regs) V230_MACRO_REBOOT = (0, some b) ∧
      b.trace = regs.trace ++
        [Event.read V230Reg.macro_reg (regs.mem V230Reg.macro_reg),
         Event.write V230Reg.macro_reg (u16 V230_MACRO_REBOOT)] ++ after ∧
      after = [Event.sleep 6 0] ∧ readsOf after = [] ∧
      (u16 V230_MACRO_REBOOT).val = 0x8407 := by
  refine ⟨_, [Event.sleep 6 0],
    (v230_execute_macro_reboot v230_2 regs).trans (v230_reboot_idle regs hi), ?_,
    rfl, rfl, rfl⟩
  simp [Bus.read, Bus.write, Bus.sleep]

/-- C31 witness: an idle module with an empty event history. -/
theorem v230_reboot_fixed_delay_witness :
    ∃ b, v230_execute_macro false (some (⟨fun _ => 0, []⟩ : Bus V230Reg)) V230_MACRO_REBOOT
        = (0, some b) ∧
      b.trace = [Event.read V230Reg.macro_reg 0,
         Event.write V230Reg.macro_reg (u16 V230_MACRO_REBOOT),
         Event.sleep 6 0] := by
  obtain ⟨b, after, h1, h2, h3, _⟩ :=
    v230_reboot_fixed_delay false ⟨fun _ => 0, []⟩ (by decide)
  exact ⟨b, h1, by rw [h2, h3]; rfl⟩

/-- C34: for every register state (busy or not) and either build,
`v230_execute_macro` with `V230_MACRO_NO_OP` (0x8400) on a non-null region
returns 0 and leaves the region as it was, with no event added to its history:
no register is read or written. -/
theorem v230_execute_macro_no_op (v230_2 : Bool) (regs : Bus V230Reg) :
    v230_execute_macro v230_2 (some regs) V230_MACRO_NO_OP = (0, some regs) ∧
    V230_MACRO_NO_OP = 0x8400 := by
  refine ⟨?_, rfl⟩
  simp [ v230_execute_macro, macro_code_consts]

theorem v210_get_relays_val (regs : Bus V210Reg) (settle : Bool) (old : Nat) :
    (v210_get_relays (some regs) settle old).2.1 =
      (List.range 4).foldl (fun acc i => u64 (acc <<< 16) ||| ((regs.mem (V210Reg.ctl i)).val
        &&& 0xFFFF)) 0 := by
  cases settle <;>
    simp [v210_get_relays, range4, List.foldl, v210_get_relays_body, Bus.read, Bus.sleep]

/-- C38: two register states that agree on `ctl[0..3]` give the same mask in
`v210_get_relays`, whatever the other registers (the relay-contact registers
`rcon[0..3]`, the CSR), the `let_relays_settle` flags, the event histories and
the previous contents of `*mask` are; the return code is 0 in both calls. -/
theorem v210_get_relays_ctl_only (regs1 regs2 : Bus V210Reg) (settle1 settle2 : Bool)
    (old1 old2 : Nat)
    (h : ∀ i, i < 4 → regs1.mem (V210Reg.ctl i) = regs2.mem (V210Reg.ctl i)) :
    (v210_get_relays (some regs1) settle1 old1).2.1 =
      (v210_get_relays (some regs2) settle2 old2).2.1 ∧
    (v210_get_relays (some regs1) settle1 old1).1 = 0 ∧
    (v210_get_relays (some regs2) settle2 old2).1 = 0 := by
  refine ⟨?_, rfl, rfl⟩
  rw [v210_get_relays_val, v210_get_relays_val]
  simp only [range4, List.foldl, h 0 (by decide), h 1 (by decide), h 2 (by decide),
    h 3 (by decide)]

/-- C38 witness: same control registers, different contact registers and CSR,
one call with settling and one without. -/
theorem v210_get_relays_ctl_only_witness :
    (v210_get_relays (some ⟨fun r => match r with
        | V210Reg.ctl _ => 0x1234 | V210Reg.rcon _ => 0xFFFF | V210Reg.csr => 7 | _ => 0, []⟩)
      true 0).2.1 =
    (v210_get_relays (some ⟨fun r => match r with
        | V210Reg.ctl _ => 0x1234 | _ => 0, []⟩) false 5).2.1 :=
  (v210_get_relays_ctl_only _ _ true false 0 5 (fun _ _ => rfl)).1

/-! ## BIST polling: termination -/

/-- While every read shows bit 15 set, the polling loop has not ended: `fuel`
loop tests are not enough when the reads `j, ..., j + fuel - 1` all show busy. -/
theorem v280_run_bist_poll_busy (hw : Nat → U16) :
    ∀ (fuel j : Nat) (b : Bus V280Reg),
      (∀ i, i < fuel → (hw (j + i)).val.testBit 15 = true) →
      v280_run_bist_poll hw fuel j b = none := by
  intro fuel
  induction fuel with
  | zero => intro j b _; rfl
  | succ f ih =>
    intro j b hbusy
    have h : ¬ ((hw j).val >>> 15 &&& 1 = 0) := by
      rw [shr15_and1]
      have := hbusy 0 (by omega)
      simp only [Nat.add_zero] at this
      simp [this]
    simp only [v280_run_bist_poll, Bus.readHw, ne_eq, h, not_false_eq_true, if_true]
    exact ih (j + 1) _ (fun i hi => by
      have := hbusy (i + 1) (by omega)
      rwa [show j + (i + 1) = j + 1 + i by omega] at this)

/-- C32: `v280_run_bist` on an idle module, the hardware being the sequence
`hw 0, hw 1, ...` of values that successive reads of the macro register return
after the command write. If read number `k` (counted from 0) is the first with
bit 15 clear, then with any allowance of more than `k` loop tests the call
returns, and after the write it has done exactly the `k + 1` polling reads
`hw 0 .. hw k` and one more read `hw (k + 1)` for the error check, `k + 2`
reads in all; with an allowance of `k` loop tests or fewer it has not returned.
If no read ever shows bit 15 clear, the call does not return within any number
of loop tests. -/
theorem v280_run_bist_termination (hw : Nat → U16) (regs : Bus V280Reg)
    (hi : (regs.mem V280Reg.macro_reg).val.testBit 15 = false) :
    (∀ k fuel, (∀ i, i < k → (hw i).val.testBit 15 = true) →
      (hw k).val.testBit 15 = false → k < fuel →
      ∃ ret b, v280_run_bist hw fuel (some regs) = some (ret, some b) ∧
        b.trace = regs.trace ++
          [Event.read V280Reg.macro_reg (regs.mem V280Reg.macro_reg),
           Event.write V280Reg.macro_reg (u16 V280_BIST_MACRO_CODE)] ++
          (List.range (k + 2)).map (fun i => Event.read V280Reg.macro_reg (hw i))) ∧
    (∀ k fuel, (∀ i, i < k → (hw i).val.testBit 15 = true) → fuel ≤ k →
      v280_run_bist hw fuel (some regs) = none) ∧
    ((∀ i, (hw i).val.testBit 15 = true) →
      ∀ fuel, v280_run_bist hw fuel (some regs) = none) := by
  have h : (regs.mem V280Reg.macro_reg).val >>> 15 &&& 1 = 0 := by
    rw [shr15_and1]; exact hi
  have hnone : ∀ k fuel, (∀ i, i < k → (hw i).val.testBit 15 = true) → fuel ≤ k →
      v280_run_bist hw fuel (some regs) = none := by
    intro k fuel hbusy hfuel
    simp only [v280_run_bist, ne_eq, Bus.read, h, not_true_eq_false, if_false]
    rw [v280_run_bist_poll_busy hw fuel 0 _ (fun i hi' => by
      simpa using hbusy i (by omega))]
  refine ⟨?_, hnone, fun hall fuel => hnone fuel fuel (fun i _ => hall i) (le_refl _)⟩
  intro k fuel hbusy hclear hfuel
  obtain ⟨b', hb', ht⟩ := v280_run_bist_poll_ends hw k fuel 0
    ((regs.read V280Reg.macro_reg).2.write V280Reg.macro_reg (u16 V280_BIST_MACRO_CODE))
    (fun i hi' => by simpa using hbusy i hi') (by simpa using hclear) hfuel
  simp only [Nat.zero_add] at hb' ht
  refine ⟨if (hw (k + 1)).val / 256 % 256 ≠ 0 then -2 else 0,
    (b'.readHw V280Reg.macro_reg (hw (k + 1))).2, ?_, ?_⟩
  · simp only [v280_run_bist, ne_eq, Bus.read, h, not_true_eq_false, if_false]
    simp only [Bus.read] at hb'
    rw [hb']
    simp only [Bus.readHw, shr8_and_ff]
    split_ifs <;> rfl
  · simp only [Bus.readHw, ht, Bus.read, Bus.write, List.range_succ (k + 1), List.map_append,
      List.map_cons, List.map_nil, List.append_assoc, List.cons_append, List.nil_append]

/-- C32 witness: the module shows busy on two reads and then 0x0001; the call
returns 0 after the reads 0x8401, 0x8401, 0x0001 (polling) and 0x0001 (error
check), and two loop tests are not enough for it to return. -/
theorem v280_run_bist_termination_witness :
    (∃ ret b, v280_run_bist (fun i => if i < 2 then 0x8401 else 0x0001) 3
        (some ⟨fun _ => 0, []⟩) = some (ret, some b) ∧
      b.trace = [Event.read V280Reg.macro_reg 0,
        Event.write V280Reg.macro_reg (u16 V280_BIST_MACRO_CODE),
        Event.read V280Reg.macro_reg 0x8401, Event.read V280Reg.macro_reg 0x8401,
        Event.read V280Reg.macro_reg 0x0001, Event.read V280Reg.macro_reg 0x0001]) ∧
    v280_run_bist (fun i => if i < 2 then 0x8401 else 0x0001) 2 (some ⟨fun _ => 0, []⟩)
      = none := by
  have h := v280_run_bist_termination (fun i => if i < 2 then 0x8401 else 0x0001)
    ⟨fun _ => 0, []⟩ (by decide)
  refine ⟨?_, h.2.1 2 2 (by decide) (le_refl _)⟩
  obtain ⟨ret, b, h1, h2⟩ := h.1 2 3 (by decide) (by decide) (by decide)
  exact ⟨ret, b, h1, by rw [h2]; decide⟩

/-! ## V280 channel-to-register mapping -/

theorem v280_get_input_states_val (regs : Bus V280Reg) (old : Nat) :
    (v280_get_input_states (some regs) old).2.1 =
      (regs.mem (V280Reg.state 0)).val * 2 ^ 32 + (regs.mem (V280Reg.state 1)).val * 2 ^ 16
        + (regs.mem (V280Reg.state 2)).val := by
  simp only [v280_get_input_states, range3, List.foldl, v280_get_input_states_body,
    Bus.read, show V280_CHANNELS_PER_REGISTER = 16 from rfl]
  exact concat3 _ _ _

theorem concat3_testBit (a b c n : Nat) (hb : b < 65536) (hc : c < 65536) (hn : n < 48) :
    (a * 2 ^ 32 + b * 2 ^ 16 + c).testBit n =
      (if n / 16 = 0 then c else if n / 16 = 1 then b else a).testBit (n % 16) := by
  have e : a * 2 ^ 32 + b * 2 ^ 16 + c = (a * 2 ^ 16 + b) * 2 ^ 16 + c := by ring
  have e1 : (a * 2 ^ 16 + b) * 2 ^ 16 + c = 2 ^ 16 * (a * 2 ^ 16 + b) + c := by ring
  have e2 : a * 2 ^ 16 + b = 2 ^ 16 * a + b := by ring
  rw [e, e1]
  by_cases h0 : n < 16
  · rw [Nat.testBit_mul_pow_two_add _ (by omega : c < 2 ^ 16)]
    have : n / 16 = 0 := by omega
    have h1 : n % 16 = n := by omega
    simp [h0, this, h1]
  · rw [Nat.testBit_mul_pow_two_add _ (by omega : c < 2 ^ 16), e2]
    simp only [h0, if_false]
    by_cases h1 : n - 16 < 16
    · rw [Nat.testBit_mul_pow_two_add _ (by omega : b < 2 ^ 16)]
      have : n / 16 = 1 := by omega
      have h2 : n % 16 = n - 16 := by omega
      simp [h1, this, h2]
    · rw [Nat.testBit_mul_pow_two_add _ (by omega : b < 2 ^ 16)]
      have : n / 16 = 2 := by omega
      have h2 : n % 16 = n - 16 - 16 := by omega
      simp [h1, this, h2]

/-- C39: bit `n` of the value returned by `v280_get_input_states` is bit
`n % 16` of `state[2 - n / 16]` for every `n < 48`, while
`v280_set_rise_time_delay` and `v280_set_fall_time_delay` write `rise[n / 16]`
and `fall[n / 16]` for channel `n`. The two register indices differ for every
channel outside 16..31: with only bit 0 of `state[2]` set the returned value
has bit 0 set, and with only bit 0 of `state[0]` set it has bit 32 set and
bit 0 clear, whereas the delay of channel 0 goes to `rise[0]`. -/
theorem v280_state_register_index :
    (∀ (regs : Bus V280Reg) (old n : Nat), n < 48 →
      ((v280_get_input_states (some regs) old).2.1).testBit n =
        (regs.mem (V280Reg.state (2 - n / 16))).val.testBit (n % 16)) ∧
    (∀ (regs : Bus V280Reg) (n d : Nat), n < 48 →
      v280_set_rise_time_delay (some regs) n d =
        (0, some (regs.write (V280Reg.rise (n / 16)) (u16 d))) ∧
      v280_set_fall_time_delay (some regs) n d =
        (0, some (regs.write (V280Reg.fall (n / 16)) (u16 d)))) ∧
    (∀ n, n < 48 → (2 - n / 16 = n / 16 ↔ 16 ≤ n ∧ n < 32)) ∧
    (v280_get_input_states
      (some ⟨fun r => if r = V280Reg.state 2 then 1 else 0, []⟩) 0).2.1 = 1 ∧
    (v280_get_input_states
      (some ⟨fun r => if r = V280Reg.state 0 then 1 else 0, []⟩) 0).2.1 = 2 ^ 32 ∧
    (v280_set_rise_time_delay (some ⟨fun _ => 0, []⟩) 0 5).2 =
      some ((⟨fun _ => 0, []⟩ : Bus V280Reg).write (V280Reg.rise 0) 5) := by
  refine ⟨?_, ?_, ?_, ?_, ?_, ?_⟩
  · intro regs old n hn
    rw [v280_get_input_states_val, concat3_testBit _ _ _ n (regs.mem _).isLt
      (regs.mem _).isLt hn]
    have h3 : n / 16 = 0 ∨ n / 16 = 1 ∨ n / 16 = 2 := by omega
    rcases h3 with h | h | h <;> simp [h]
  · intro regs n d hn
    have hn' : ¬ n ≥ V280_CHANNEL_COUNT := by simp [V280_CHANNEL_COUNT]; omega
    constructor
    · simp only [v280_set_rise_time_delay, hn', if_false]; rfl
    · simp only [v280_set_fall_time_delay, hn', if_false]; rfl
  · intro n hn; omega
  · rw [v280_get_input_states_val]; decide
  · rw [v280_get_input_states_val]; decide
  · rfl

/-! ## Partial output of a failed voltage conversion -/

theorem registers_sizeof : Layout.sizeof v210_registers = 0x20 ∧
    Layout.sizeof v230_registers = 0x200 ∧ Layout.sizeof v280_registers = 0x200 := by
  refine ⟨?_, ?_, ?_⟩ <;> decide

/-- C36: with distinct mode enumerators, each module's validator accepts an
address/mode pair exactly when the mode is A16 and the whole register block
ends at or below 2^16, or the mode is A24 and it ends at or below 2^24, where
the block is `sizeof` of the module's register map (0x20 bytes for the V210,
0x200 bytes for the V230 and the V280). So every accepted block fits, and each
ceiling (0xFFE0, 0xFFFFE0, 0xFE00, 0xFFFE00) is the largest address that fits. -/
theorem validated_block_fits (L : V120Modes) (hL : L.V120_A16 ≠ L.V120_A24)
    (vme_addr addr_mode : Nat) :
    (v210_validate_address_and_mode L addr_mode vme_addr = 0 ↔
      (addr_mode = L.V120_A16 ∧ vme_addr + Layout.sizeof v210_registers ≤ 2 ^ 16) ∨
      (addr_mode = L.V120_A24 ∧ vme_addr + Layout.sizeof v210_registers ≤ 2 ^ 24)) ∧
    (v230_validate_address_and_mode L vme_addr addr_mode = 0 ↔
      (addr_mode = L.V120_A16 ∧ vme_addr + Layout.sizeof v230_registers ≤ 2 ^ 16) ∨
      (addr_mode = L.V120_A24 ∧ vme_addr + Layout.sizeof v230_registers ≤ 2 ^ 24)) ∧
    (v280_validate_address_and_mode L vme_addr addr_mode = 0 ↔
      (addr_mode = L.V120_A16 ∧ vme_addr + Layout.sizeof v280_registers ≤ 2 ^ 16) ∨
      (addr_mode = L.V120_A24 ∧ vme_addr + Layout.sizeof v280_registers ≤ 2 ^ 24)) ∧
    Layout.sizeof v210_registers = 0x20 ∧ Layout.sizeof v230_registers = 0x200 ∧
    Layout.sizeof v280_registers = 0x200 ∧
    (0xFFE0 + Layout.sizeof v210_registers = 2 ^ 16 ∧
      0xFFFFE0 + Layout.sizeof v210_registers = 2 ^ 24 ∧
      0xFE00 + Layout.sizeof v230_registers = 2 ^ 16 ∧
      0xFFFE00 + Layout.sizeof v230_registers = 2 ^ 24 ∧
      0xFE00 + Layout.sizeof v280_registers = 2 ^ 16 ∧
      0xFFFE00 + Layout.sizeof v280_registers = 2 ^ 24) := by
  obtain ⟨s1, s2, s3⟩ := registers_sizeof
  rw [s1, s2, s3]
  refine ⟨?_, ?_, ?_, rfl, rfl, rfl, by decide⟩
  · simp only [v210_validate_address_and_mode]
    by_cases h16 : addr_mode = L.V120_A16
    · have h24 : addr_mode ≠ L.V120_A24 := fun h => hL (h16.symm.trans h)
      simp only [h16, ne_eq, not_true_eq_false, false_and, if_false, true_and, hL]
      split_ifs <;> simp <;> omega
    · by_cases h24 : addr_mode = L.V120_A24
      · have hL' : ¬ L.V120_A24 = L.V120_A16 := fun h => hL h.symm
        simp only [h24, ne_eq, not_true_eq_false, and_false, if_false, true_and, hL',
          false_and, false_or]
        split_ifs <;> simp <;> omega
      · simp [h16, h24]
  · simp only [v230_validate_address_and_mode]
    by_cases h16 : addr_mode = L.V120_A16
    · have h24 : addr_mode ≠ L.V120_A24 := fun h => hL (h16.symm.trans h)
      simp only [h16, ne_eq, not_true_eq_false, false_and, if_false, true_and, hL]
      split_ifs <;> simp <;> omega
    · by_cases h24 : addr_mode = L.V120_A24
      · have hL' : ¬ L.V120_A24 = L.V120_A16 := fun h => hL h.symm
        simp only [h24, ne_eq, not_true_eq_false, and_false, if_false, true_and, hL',
          false_and, false_or]
        split_ifs <;> simp <;> omega
      · simp [h16, h24]
  · simp only [v280_validate_address_and_mode]
    by_cases h16 : addr_mode = L.V120_A16
    · have h24 : addr_mode ≠ L.V120_A24 := fun h => hL (h16.symm.trans h)
      simp only [h16, ne_eq, not_true_eq_false, false_and, if_false, true_and, hL]
      split_ifs <;> simp <;> omega
    · by_cases h24 : addr_mode = L.V120_A24
      · have hL' : ¬ L.V120_A24 = L.V120_A16 := fun h => hL h.symm
        simp only [h24, ne_eq, not_true_eq_false, and_false, if_false, true_and, hL',
          false_and, false_or]
        split_ifs <;> simp <;> omega
      · simp [h16, h24]

/-- C36 witness: with mode values 0 (A16) and 1 (A24), the V230 validator
accepts 0xFE00 in A16 mode and that block ends exactly at 2^16. -/
theorem validated_block_fits_witness :
    v230_validate_address_and_mode ⟨0, 1⟩ 0xFE00 0 = 0 ∧
    0xFE00 + Layout.sizeof v230_registers ≤ 2 ^ 16 := by
  have h := (validated_block_fits ⟨0, 1⟩ (by decide) 0xFE00 0).2.1
  refine ⟨by decide, ?_⟩
  rcases h.1 (by decide) with ⟨_, h1⟩ | ⟨h0, _⟩
  · exact h1
  · exact absurd h0 (by decide)

/-! ## DMA descriptor flags -/

/-- C35: the flags of the DMA descriptor built by `v230_dma_xfr` are
`V120_PD_A16 | V120_PD_D16 | V120_PD_ESHORT` for every region. In particular
`v230_add_region` binds a region in A24 mode (its `config` holds `V120_A24`),
and the descriptor for that region carries the same A16 flags as the
descriptor for the region bound in A16 mode. -/
theorem v230_dma_flags_fixed (L : V120Modes) (G : V120RegionFlags) (P : V120DmaFlags)
    (hV120 : Option Nat) (p q : Nat) (name : String) :
    (∀ r : VME_REGION,
      (v230_dma_desc P r).flags = P.V120_PD_A16 ||| P.V120_PD_D16 ||| P.V120_PD_ESHORT) ∧
    (∃ r16 r24 : VME_REGION,
      (v230_add_region L G ⟨some p, some q, true⟩ hV120 0 L.V120_A16 name).1 = some (p, r16) ∧
      (v230_add_region L G ⟨some p, some q, true⟩ hV120 0 L.V120_A24 name).1 = some (p, r24) ∧
      r16.config = L.V120_A16 ||| G.V120_SMAX ||| G.V120_EAUTO ||| G.V120_RW ||| G.V120_D16 ∧
      r24.config = L.V120_A24 ||| G.V120_SMAX ||| G.V120_EAUTO ||| G.V120_RW ||| G.V120_D16 ∧
      (v230_dma_desc P r24).flags = (v230_dma_desc P r16).flags ∧
      (v230_dma_desc P r24).flags =
        P.V120_PD_A16 ||| P.V120_PD_D16 ||| P.V120_PD_ESHORT) := by
  refine ⟨fun _ => rfl,
    { base := none, start_page := 0, end_page := 0, vme_addr := 0,
      len := Layout.sizeof v230_registers,
      config := L.V120_A16 ||| G.V120_SMAX ||| G.V120_EAUTO ||| G.V120_RW ||| G.V120_D16,
      tag := name, udata := some q },
    { base := none, start_page := 0, end_page := 0, vme_addr := 0,
      len := Layout.sizeof v230_registers,
      config := L.V120_A24 ||| G.V120_SMAX ||| G.V120_EAUTO ||| G.V120_RW ||| G.V120_D16,
      tag := name, udata := some q }, ?_, ?_, rfl, rfl, rfl, rfl⟩
  · simp [v230_add_region, v230_validate_address_and_mode]
  · simp [v230_add_region, v230_validate_address_and_mode]

/-! ## Full BIST channel results -/

theorem bist_consts : V230_BIT_BIST_ZER = 2 ^ 4 ∧ V230_BIT_BIST_PER = 2 ^ 5 ∧
    V230_BIT_BIST_NER = 2 ^ 6 ∧ V230_BIT_BIST_CER = 2 ^ 7 ∧ V230_BIST_RNG_NUM = 3 ∧
    ∀ r, V230_BIT_BIST_RNG r = 2 ^ r :=
  ⟨rfl, rfl, rfl, rfl, rfl, fun r => by simp [V230_BIT_BIST_RNG, Nat.shiftLeft_eq]⟩

/-- The flags decoded from `bist_reg` are its bits 7, 6, 5, 4 and 2..0. -/
theorem v230_bist_flags_of_bits (x : Nat) (old : v230_bist_flags_t) :
    (v230_bist_flags_of x old).cer = x.testBit 7 ∧
    (v230_bist_flags_of x old).ner = x.testBit 6 ∧
    (v230_bist_flags_of x old).per = x.testBit 5 ∧
    (v230_bist_flags_of x old).zer = x.testBit 4 ∧
    (∀ r, r < 3 → (v230_bist_flags_of x old).rng r = x.testBit r) ∧
    (∀ r, 3 ≤ r → (v230_bist_flags_of x old).rng r = old.rng r) := by
  simp only [v230_bist_flags_of, bist_consts.1, bist_consts.2.1, bist_consts.2.2.1,
    bist_consts.2.2.2.1, bist_consts.2.2.2.2.1, bist_consts.2.2.2.2.2, test_ne_zero, range3,
    List.foldl, setRng]
  refine ⟨trivial, trivial, trivial, trivial, ?_, ?_⟩
  · intro r hr
    have h3 : r = 0 ∨ r = 1 ∨ r = 2 := by omega
    rcases h3 with h | h | h <;> simp [h]
  · intro r hr
    have h0 : r ≠ 0 := by omega
    have h1 : r ≠ 1 := by omega
    have h2 : r ≠ 2 := by omega
    simp [h0, h1, h2]

/-- Entries below the current channel are not touched by the rest of the loop,
and the loop only adds reads to the bus: the register contents stay. -/
theorem v230_full_bist_loop_below (n : Nat) : ∀ (ch : Nat) (b : Bus V230Reg)
    (res : Nat → v230_bist_flags_t),
      (v230_full_bist_loop n ch b res).1.mem = b.mem ∧
      ∀ j, j < ch → (v230_full_bist_loop n ch b res).2 j = res j := by
  induction n with
  | zero => intro ch b res; exact ⟨rfl, fun _ _ => rfl⟩
  | succ n ih =>
    intro ch b res
    simp only [v230_full_bist_loop]
    obtain ⟨h1, h2⟩ := ih (ch + 1) (b.read (V230Reg.bist (ch / 2))).2
      (setChannelFlags res ch (v230_bist_flags_of
        (if ch % 2 = 0 then ((b.read (V230Reg.bist (ch / 2))).1.val >>> 8) &&& 0xFF
          else (b.read (V230Reg.bist (ch / 2))).1.val) (res ch)))
    refine ⟨h1.trans (read_mem _ _), fun j hj => ?_⟩
    rw [h2 j (by omega)]
    have : j ≠ ch := by omega
    simp [setChannelFlags, this]

/-- Entry `j` after the loop, for a channel `j` the loop passes. -/
theorem v230_full_bist_loop_val (n : Nat) : ∀ (ch : Nat) (b : Bus V230Reg)
    (res : Nat → v230_bist_flags_t) (j : Nat), ch ≤ j → j < ch + n →
      (v230_full_bist_loop n ch b res).2 j =
        v230_bist_flags_of
          (if j % 2 = 0 then (b.mem (V230Reg.bist (j / 2))).val / 256
            else (b.mem (V230Reg.bist (j / 2))).val) (res j) := by
  induction n with
  | zero => intro ch b res j h1 h2; omega
  | succ n ih =>
    intro ch b res j h1 h2
    simp only [v230_full_bist_loop]
    rcases Nat.eq_or_lt_of_le h1 with e | e
    · subst e
      rw [(v230_full_bist_loop_below n (ch + 1) _ _).2 ch (by omega)]
      have hx : (b.mem (V230Reg.bist (ch / 2))).val / 256 % 256 =
          (b.mem (V230Reg.bist (ch / 2))).val / 256 := by
        have := (b.mem (V230Reg.bist (ch / 2))).isLt
        omega
      simp only [setChannelFlags, if_true, Bus.read, shr8_and_ff, hx]
    · rw [ih (ch + 1) _ _ j (by omega) (by omega)]
      have hne : j ≠ ch := by omega
      simp only [setChannelFlags, hne, if_false, read_mem]

/-- C37: for every channel `ch < 64`, `v230_get_full_bist_channel_results`
returns 0 and sets channel `ch`'s flags from one byte of `bist[ch / 2]`, the
high byte (bits 15..8) for even `ch` and the low byte (bits 7..0) for odd `ch`:
`rng[0..2]` are bits 0..2, `zer` bit 4, `per` bit 5, `ner` bit 6 and `cer`
bit 7 of that byte. Two register states whose selected bytes agree on the
bits 0, 1, 2, 4, 5, 6, 7 give the same flags for channel `ch`, whatever the
other byte, bit 3 and all other registers hold. -/
theorem v230_full_bist_decode (regs : Bus V230Reg) (old : Nat → v230_bist_flags_t)
    (ch : Nat) (hch : ch < 64) :
    (v230_get_full_bist_channel_results (some regs) old).1 = 0 ∧
    ((v230_get_full_bist_channel_results (some regs) old).2.1 ch).cer =
      ((if ch % 2 = 0 then (regs.mem (V230Reg.bist (ch / 2))).val / 256
        else (regs.mem (V230Reg.bist (ch / 2))).val % 256)).testBit 7 ∧
    ((v230_get_full_bist_channel_results (some regs) old).2.1 ch).ner =
      ((if ch % 2 = 0 then (regs.mem (V230Reg.bist (ch / 2))).val / 256
        else (regs.mem (V230Reg.bist (ch / 2))).val % 256)).testBit 6 ∧
    ((v230_get_full_bist_channel_results (some regs) old).2.1 ch).per =
      ((if ch % 2 = 0 then (regs.mem (V230Reg.bist (ch / 2))).val / 256
        else (regs.mem (V230Reg.bist (ch / 2))).val % 256)).testBit 5 ∧
    ((v230_get_full_bist_channel_results (some regs) old).2.1 ch).zer =
      ((if ch % 2 = 0 then (regs.mem (V230Reg.bist (ch / 2))).val / 256
        else (regs.mem (V230Reg.bist (ch / 2))).val % 256)).testBit 4 ∧
    (∀ r, r < 3 → ((v230_get_full_bist_channel_results (some regs) old).2.1 ch).rng r =
      ((if ch % 2 = 0 then (regs.mem (V230Reg.bist (ch / 2))).val / 256
        else (regs.mem (V230Reg.bist (ch / 2))).val % 256)).testBit r) ∧
    (∀ (regs2 : Bus V230Reg) (old2 : Nat → v230_bist_flags_t),
      (∀ i, i < 8 → i ≠ 3 →
        ((if ch % 2 = 0 then (regs2.mem (V230Reg.bist (ch / 2))).val / 256
          else (regs2.mem (V230Reg.bist (ch / 2))).val % 256)).testBit i =
        ((if ch % 2 = 0 then (regs.mem (V230Reg.bist (ch / 2))).val / 256
          else (regs.mem (V230Reg.bist (ch / 2))).val % 256)).testBit i) →
      ((v230_get_full_bist_channel_results (some regs2) old2).2.1 ch).cer =
        ((v230_get_full_bist_channel_results (some regs) old).2.1 ch).cer ∧
      ((v230_get_full_bist_channel_results (some regs2) old2).2.1 ch).ner =
        ((v230_get_full_bist_channel_results (some regs) old).2.1 ch).ner ∧
      ((v230_get_full_bist_channel_results (some regs2) old2).2.1 ch).per =
        ((v230_get_full_bist_channel_results (some regs) old).2.1 ch).per ∧
      ((v230_get_full_bist_channel_results (some regs2) old2).2.1 ch).zer =
        ((v230_get_full_bist_channel_results (some regs) old).2.1 ch).zer ∧
      ∀ r, r < 3 → ((v230_get_full_bist_channel_results (some regs2) old2).2.1 ch).rng r =
        ((v230_get_full_bist_channel_results (some regs) old).2.1 ch).rng r) := by
  have key : ∀ (rg : Bus V230Reg) (o : Nat → v230_bist_flags_t),
      ((v230_get_full_bist_channel_results (some rg) o).2.1 ch).cer =
        ((if ch % 2 = 0 then (rg.mem (V230Reg.bist (ch / 2))).val / 256
          else (rg.mem (V230Reg.bist (ch / 2))).val % 256)).testBit 7 ∧
      ((v230_get_full_bist_channel_results (some rg) o).2.1 ch).ner =
        ((if ch % 2 = 0 then (rg.mem (V230Reg.bist (ch / 2))).val / 256
          else (rg.mem (V230Reg.bist (ch / 2))).val % 256)).testBit 6 ∧
      ((v230_get_full_bist_channel_results (some rg) o).2.1 ch).per =
        ((if ch % 2 = 0 then (rg.mem (V230Reg.bist (ch / 2))).val / 256
          else (rg.mem (V230Reg.bist (ch / 2))).val % 256)).testBit 5 ∧
      ((v230_get_full_bist_channel_results (some rg) o).2.1 ch).zer =
        ((if ch % 2 = 0 then (rg.mem (V230Reg.bist (ch / 2))).val / 256
          else (rg.mem (V230Reg.bist (ch / 2))).val % 256)).testBit 4 ∧
      (∀ r, r < 3 → ((v230_get_full_bist_channel_results (some rg) o).2.1 ch).rng r =
        ((if ch % 2 = 0 then (rg.mem (V230Reg.bist (ch / 2))).val / 256
          else (rg.mem (V230Reg.bist (ch / 2))).val % 256)).testBit r) := by
    intro rg o
    have e : (v230_get_full_bist_channel_results (some rg) o).2.1 ch =
        v230_bist_flags_of
          (if ch % 2 = 0 then (rg.mem (V230Reg.bist (ch / 2))).val / 256
            else (rg.mem (V230Reg.bist (ch / 2))).val) (o ch) := by
      simp only [v230_get_full_bist_channel_results, V230_NUM_CHANNELS]
      exact v230_full_bist_loop_val 64 0 rg o ch (Nat.zero_le _) (by omega)
    rw [e]
    obtain ⟨b1, b2, b3, b4, b5, _⟩ := v230_bist_flags_of_bits
      (if ch % 2 = 0 then (rg.mem (V230Reg.bist (ch / 2))).val / 256
        else (rg.mem (V230Reg.bist (ch / 2))).val) (o ch)
    rw [b1, b2, b3, b4]
    by_cases hp : ch % 2 = 0
    · simp only [hp, if_true] at b5 ⊢
      exact ⟨trivial, trivial, trivial, trivial, b5⟩
    · simp only [hp, if_false] at b5 ⊢
      refine ⟨?_, ?_, ?_, ?_, ?_⟩
      · simp [Nat.testBit_mod_two_pow _ 8 7]
      · simp [Nat.testBit_mod_two_pow _ 8 6]
      · simp [Nat.testBit_mod_two_pow _ 8 5]
      · simp [Nat.testBit_mod_two_pow _ 8 4]
      · intro r hr
        rw [b5 r hr, show (256 : Nat) = 2 ^ 8 from rfl, Nat.testBit_mod_two_pow]
        have : r < 8 := by omega
        simp [this]
  obtain ⟨k1, k2, k3, k4, k5⟩ := key regs old
  refine ⟨rfl, k1, k2, k3, k4, k5, ?_⟩
  intro regs2 old2 hagree
  obtain ⟨l1, l2, l3, l4, l5⟩ := key regs2 old2
  rw [k1, k2, k3, k4, l1, l2, l3, l4]
  refine ⟨hagree 7 (by decide) (by decide), hagree 6 (by decide) (by decide),
    hagree 5 (by decide) (by decide), hagree 4 (by decide) (by decide), ?_⟩
  intro r hr
  rw [k5 r hr, l5 r hr]
  exact hagree r (by omega) (by omega)

/-- C37 witness: `bist[2]` holds 0x9125; channel 4 (even) is decoded from the
high byte 0x91 (cer, zer, rng[0]) and channel 5 (odd) from the low byte 0x25
(per, rng[0], rng[2]). -/
theorem v230_full_bist_decode_witness :
    ((v230_get_full_bist_channel_results
      (some ⟨fun r => if r = V230Reg.bist 2 then 0x9125 else 0, []⟩)
      (fun _ => ⟨false, false, false, false, fun _ => false⟩)).2.1 4).cer = true ∧
    ((v230_get_full_bist_channel_results
      (some ⟨fun r => if r = V230Reg.bist 2 then 0x9125 else 0, []⟩)
      (fun _ => ⟨false, false, false, false, fun _ => false⟩)).2.1 5).cer = false := by
  constructor
  · rw [(v230_full_bist_decode ⟨fun r => if r = V230Reg.bist 2 then 0x9125 else 0, []⟩
      (fun _ => ⟨false, false, false, false, fun _ => false⟩) 4 (by decide)).2.1]
    decide
  · rw [(v230_full_bist_decode ⟨fun r => if r = V230Reg.bist 2 then 0x9125 else 0, []⟩
      (fun _ => ⟨false, false, false, false, fun _ => false⟩) 5 (by decide)).2.1]
    decide

end VmeUser
